import Mathlib

/-!
# Admission webhooks of tidb-operator

A shallow embedding of

* `pkg/webhook/statefulset/statefulset.go` : the rolling-update partition guard
  (`AdmitStatefulSets`, `getStsAttributes`);
* `pkg/webhook/pod/tikv_deleter.go` : the deletion decision engine for TiKV pods
  (`admitDeleteTiKVPods` and the four functions it dispatches to);
* `pkg/manager/member/tidb_member_manager.go` : the upgrading flag
  (`tidbStatefulSetIsUpgrading`) and the sysctl part of
  `getNewTiDBSetForTidbCluster`.

Conventions of the embedding.

* A Go `error` is its message (`Error := String`); a `nil` error is `none`.
* A Go `map[string]string` is an association list; `m[k]` is `GoMap.get` (the
  zero value `""` when the key is absent) and `v, ok := m[k]` is `GoMap.find`.
* A nil pointer that the code dereferences makes the call panic: `Outcome.panicked`.
* Calls that leave the process (placement service, API server, clock) are
  recorded, in order, in a trace of events; what they answer is read from a
  record of collaborators. Log lines (`klog`, `glog`) are not modelled.
* Machine integers are `Int`/`Nat` with the conversions written out (`toInt32`,
  `toUint64`).
-/

namespace TidbOperator

/-! ## Go basics -/

abbrev Error := String

deriving instance DecidableEq for Except

abbrev GoMap := List (String × String)

/-- The two-valued map read `v, ok := m[k]`. -/
def GoMap.find (m : GoMap) (k : String) : Option String := m.lookup k

/-- The one-valued map read `m[k]` : the zero value when `k` is absent. -/
def GoMap.get (m : GoMap) (k : String) : String := (m.lookup k).getD ""

/-- Result of a call that may dereference a nil pointer. -/
inductive Outcome (α : Type) where
  | returned (a : α)
  | panicked
deriving DecidableEq, Repr

/-- The conversion `int32(x)` of a 64-bit integer: two's complement truncation. -/
def toInt32 (x : Int) : Int := (x + 2 ^ 31) % 2 ^ 32 - 2 ^ 31

/-- The conversion `uint64(x)` of an `int`. -/
def toUint64 (x : Int) : Nat := (x % 2 ^ 64).toNat

/-! ## strconv (Go standard library), base 10 -/

namespace strconv

inductive ErrKind where
  | ErrSyntax
  | ErrRange
deriving DecidableEq, Repr

structure NumError where
  Func : String
  Num : String
  Err : ErrKind
deriving DecidableEq, Repr

/-- The text of `(*NumError).Error()`; the quoting of `Num` is the plain one. -/
def NumError.Error (e : NumError) : String :=
  "strconv." ++ e.Func ++ ": parsing \"" ++ e.Num ++ "\": " ++
    (match e.Err with
     | .ErrSyntax => "invalid syntax"
     | .ErrRange => "value out of range")

/-- The digit loop of `ParseUint(s, 10, bitSize)` : a character that is not a
decimal digit is a syntax error, a value above `2^bitSize - 1` (or above
`2^64 - 1`) a range error, whichever the scan meets first. -/
def parseUintLoop (bitSize : Nat) : List Char → Nat → Except ErrKind Nat
  | [], n => .ok n
  | c :: cs, n =>
    if 48 ≤ c.toNat ∧ c.toNat ≤ 57 then
      if n ≥ (2 ^ 64 - 1) / 10 + 1 then .error .ErrRange
      else
        let n1 := n * 10 + (c.toNat - 48)
        if n1 ≥ 2 ^ 64 ∨ n1 > 2 ^ bitSize - 1 then .error .ErrRange
        else parseUintLoop bitSize cs n1
    else .error .ErrSyntax

/-- `ParseUint(s, 10, bitSize)` on the characters of `s`. -/
def ParseUint (s : List Char) (bitSize : Nat) : Except ErrKind Nat :=
  match s with
  | [] => .error .ErrSyntax
  | _ => parseUintLoop bitSize s 0

/-- The part of `ParseInt` after the call of `ParseUint` : `r` is what
`ParseUint` answered on the text without its sign, `neg` whether the sign was
`-`. A range error of `ParseUint` comes with the value `2^bitSize - 1`. -/
def applySign (fn : String) (s : String) (bitSize : Nat) (neg : Bool)
    (r : Except ErrKind Nat) : Except NumError Int :=
  match r with
  | .error .ErrSyntax => .error ⟨fn, s, .ErrSyntax⟩
  | r =>
    let un : Nat := match r with
      | .ok n => n
      | .error _ => 2 ^ bitSize - 1
    let cutoff : Nat := 2 ^ (bitSize - 1)
    if !neg ∧ un ≥ cutoff then .error ⟨fn, s, .ErrRange⟩
    else if neg ∧ un > cutoff then .error ⟨fn, s, .ErrRange⟩
    else .ok (if neg then -(un : Int) else (un : Int))

/-- `ParseInt(s, 10, bitSize)`, reporting errors under the function name `fn`. -/
def parseIntAs (fn : String) (s : String) (bitSize : Nat) : Except NumError Int :=
  match s.data with
  | [] => .error ⟨fn, s, .ErrSyntax⟩
  | c :: cs =>
    let neg : Bool := c = '-'
    let body := if c = '+' ∨ c = '-' then cs else c :: cs
    applySign fn s bitSize neg (ParseUint body bitSize)

/-- `strconv.ParseInt(s, 10, bitSize)`. -/
def ParseInt (s : String) (bitSize : Nat) : Except NumError Int :=
  parseIntAs "ParseInt" s bitSize

/-- `strconv.Atoi(s)` on a 64-bit platform. -/
def Atoi (s : String) : Except NumError Int :=
  parseIntAs "Atoi" s 64

end strconv

/-! ## Admission responses (`pkg/webhook/util`) -/

/-- The fields of `admission.AdmissionResponse` the webhooks set: `Allowed` and
`Result.Message`. -/
structure AdmissionResponse where
  Allowed : Bool
  Result : Option String
deriving DecidableEq, Repr

/-- Modelled from the spec: `util.ARSuccess` is not in src/; the response that
allows the request, with no message. -/
def ARSuccess : AdmissionResponse := { Allowed := true, Result := none }

/-- Modelled from the spec: `util.ARFail` is not in src/; the request is denied
with the underlying error surfaced as the reason. -/
def ARFail (err : Error) : AdmissionResponse := { Allowed := false, Result := some err }

/-- The literal `&admission.AdmissionResponse{Allowed: false}` : a denial
without message. -/
def softDeny : AdmissionResponse := { Allowed := false, Result := none }

/-! ## Kubernetes objects -/

structure OwnerReference where
  Kind : String
  Name : String
  Controller : Option Bool
deriving DecidableEq, Repr

structure ObjectMeta where
  Name : String
  Namespace : String
  Labels : GoMap
  Annotations : GoMap
  OwnerReferences : List OwnerReference
deriving DecidableEq, Repr

/-- `metav1.GetControllerOf` : the first owner reference whose `Controller`
pointer is set and true. -/
def GetControllerOf (m : ObjectMeta) : Option OwnerReference :=
  m.OwnerReferences.find? (fun ref => ref.Controller = some true)

structure RollingUpdateStatefulSetStrategy where
  Partition : Option Int
deriving DecidableEq, Repr

structure StatefulSetUpdateStrategy where
  RollingUpdate : Option RollingUpdateStatefulSetStrategy
deriving DecidableEq, Repr

structure StatefulSetSpec where
  Replicas : Option Int
  UpdateStrategy : StatefulSetUpdateStrategy
deriving DecidableEq, Repr

structure StatefulSet where
  ObjectMeta : ObjectMeta
  Spec : StatefulSetSpec
deriving DecidableEq, Repr

structure StatefulSetStatus where
  CurrentRevision : String
  UpdateRevision : String
deriving DecidableEq, Repr

/-- The field `tc.Status.TiDB` : `StatefulSet` is a pointer. -/
structure TiDBStatus where
  StatefulSet : Option StatefulSetStatus := none
deriving DecidableEq, Repr

structure TidbClusterStatus where
  TiDB : TiDBStatus := {}
deriving DecidableEq, Repr

structure Sysctl where
  Name : String
  Value : String
deriving DecidableEq, Repr

/-- The fields of `corev1.PodSecurityContext` the operator passes on. -/
structure PodSecurityContext where
  RunAsUser : Option Int := none
  FSGroup : Option Int := none
  Sysctls : List Sysctl := []
deriving DecidableEq, Repr

/-- What the accessor `tc.BaseTiDBSpec()` answers for the two methods the
sysctl code calls: `Annotations()` and `PodSecurityContext()`. -/
structure ComponentAccessor where
  Annotations : GoMap := []
  PodSecurityContext : Option PodSecurityContext := none
deriving DecidableEq, Repr

/-- The cluster resource. The webhooks read its name, namespace and
annotations; the member manager also reads its labels, the status of the TiDB
StatefulSet, and the results of the methods `BaseTiDBSpec()` and
`HelperImage()`. -/
structure TidbCluster where
  Name : String
  Namespace : String
  Annotations : GoMap
  Labels : GoMap := []
  Status : TidbClusterStatus := {}
  BaseTiDBSpec : Option ComponentAccessor := none
  HelperImage : String := ""
deriving DecidableEq, Repr

/-! ## Labels and annotation keys (`pkg/label`, `pkg/controller`) -/

namespace label

/-- Modelled from the spec: the constants of `pkg/label` are not in src/; the
key of the label that names the component (the storage-node role). -/
def ComponentLabelKey : String := "app.kubernetes.io/component"

/-- Modelled from the spec: value of the component label for the TiDB role. -/
def TiDBLabelVal : String := "tidb"

/-- Modelled from the spec: value of the component label for the TiKV role. -/
def TiKVLabelVal : String := "tikv"

/-- Modelled from the spec: key of the TiDB partition-protection annotation on
the parent cluster resource. -/
def AnnTiDBPartition : String := "tidb.pingcap.com/tidb-partition"

/-- Modelled from the spec: key of the TiKV partition-protection annotation on
the parent cluster resource. -/
def AnnTiKVPartition : String := "tidb.pingcap.com/tikv-partition"

/-- Modelled from the spec: key of the eviction-begin marker on a pod. -/
def AnnEvictLeaderBeginTime : String := "evictLeaderBeginTime"

/-- Modelled from the spec: key of the store-id label on a pod. -/
def StoreIDLabelKey : String := "tidb.pingcap.com/store-id"

/-- Modelled from the spec: `Label.IsTiDB` is not in src/; the labels identify
the TiDB role. -/
def IsTiDB (l : GoMap) : Bool := l.get ComponentLabelKey == TiDBLabelVal

/-- Modelled from the spec: `Label.IsTiKV` is not in src/; the labels identify
the TiKV role. -/
def IsTiKV (l : GoMap) : Bool := l.get ComponentLabelKey == TiKVLabelVal

end label

/-- Modelled from the spec: `controller.ControllerKind.Kind` is not in src/; the
kind of the owning cluster resource. -/
def ControllerKind : String := "TidbCluster"

/-- The group name of `asappsv1alpha1` (package advanced-statefulset). -/
def asappsGroupName : String := "apps.pingcap.com"

/-! ## The partition guard: `pkg/webhook/statefulset/statefulset.go` -/

structure GroupVersionResource where
  Group : String
  Version : String
  Resource : String
deriving DecidableEq, Repr

/-- How `%s` prints a `GroupVersionResource` value. -/
def GroupVersionResource.format (r : GroupVersionResource) : String :=
  "\x7b" ++ r.Group ++ " " ++ r.Version ++ " " ++ r.Resource ++ "\x7d"

/-- The raw bytes of a `runtime.RawExtension`. -/
abbrev Raw := List Nat

structure AdmissionRequest where
  Name : String
  Namespace : String
  Resource : GroupVersionResource
  Object : Raw
  OldObject : Raw
deriving DecidableEq, Repr

structure AdmissionReview where
  Request : AdmissionRequest
deriving DecidableEq, Repr

structure RestConfig where
  Host : String
deriving DecidableEq, Repr

/-- The one method of `versioned.Interface` the guard calls:
`PingcapV1alpha1().TidbClusters(namespace).Get(name, ...)`. -/
structure Clientset where
  GetTidbCluster : String → String → Except Error TidbCluster

/-- What the guard reads from outside the request. -/
structure GuardEnv where
  /-- The feature gate `features.AdvancedStatefulSet`. -/
  AdvancedStatefulSet : Bool
  /-- The call `rest.InClusterConfig()`. -/
  InClusterConfig : Except Error RestConfig
  /-- The call `versioned.NewForConfig(cfg)`. -/
  NewForConfig : RestConfig → Except Error Clientset
  /-- The package variable `deserializer`, decoding into an `apps.StatefulSet`. -/
  Decode : Raw → Except Error StatefulSet

inductive GuardEvent where
  | inClusterConfig
  | newForConfig
  | decode (data : Raw)
  | getTidbCluster (ns name : String)
deriving DecidableEq, Repr

/-- What a run of the guard leaves: the response (or a panic), the package
variable `versionCli` after the call, and the calls made. -/
structure GuardResult where
  response : Outcome AdmissionResponse
  versionCli : Option Clientset
  trace : List GuardEvent

/-- The function `getStsAttributes` : both branches decode the same way and
dereference `RollingUpdate` without a nil check. -/
def getStsAttributes (env : GuardEnv) (data : Raw) (apiVersion : String) :
    Outcome (Except Error (ObjectMeta × Option Int)) :=
  if apiVersion = "v1" then
    match env.Decode data with
    | .error err => .returned (.error err)
    | .ok set =>
      match set.Spec.UpdateStrategy.RollingUpdate with
      | none => .panicked
      | some ru => .returned (.ok (set.ObjectMeta, ru.Partition))
  else
    match env.Decode data with
    | .error err => .returned (.error err)
    | .ok set =>
      match set.Spec.UpdateStrategy.RollingUpdate with
      | none => .panicked
      | some ru => .returned (.ok (set.ObjectMeta, ru.Partition))

/-- Lines 108 to 112 of `AdmitStatefulSets` : the variable `partitionStr`, the
protection annotation of the StatefulSet's own role read from the owning
cluster. -/
def partitionStrOf (l : GoMap) (tc : TidbCluster) : String :=
  if label.IsTiKV l then tc.Annotations.get label.AnnTiKVPartition
  else tc.Annotations.get label.AnnTiDBPartition

/-- What lines 62 to 76 of `AdmitStatefulSets` leave: the client held by
`versionCli`, or the error the request fails with, and the calls made. -/
structure ClientLookup where
  result : Except Error Clientset
  trace : List GuardEvent

/-- Lines 62 to 76 of `AdmitStatefulSets` : the client is built on first use. -/
def ensureClient (env : GuardEnv) (versionCli : Option Clientset)
    (namespace_ name : String) : ClientLookup :=
  match versionCli with
  | some cli => ⟨.ok cli, []⟩
  | none =>
    match env.InClusterConfig with
    | .error err =>
      ⟨.error ("statefulset " ++ namespace_ ++ "/" ++ name ++
        ", get k8s cluster config failed, err: " ++ err), [.inClusterConfig]⟩
    | .ok cfg =>
      match env.NewForConfig cfg with
      | .error err =>
        ⟨.error ("statefulset " ++ namespace_ ++ "/" ++ name ++
          ", create Clientset failed, err: " ++ err), [.inClusterConfig, .newForConfig]⟩
      | .ok cli => ⟨.ok cli, [.inClusterConfig, .newForConfig]⟩

/-- Lines 78 to 132 of `AdmitStatefulSets`, once `versionCli` is known to be
the client `cli`; `tr` holds the calls made so far. -/
def admitWithClient (env : GuardEnv) (cli : Clientset) (tr : List GuardEvent)
    (ar : AdmissionReview) : GuardResult :=
  let name := ar.Request.Name
  let namespace_ := ar.Request.Namespace
  let apiVersion := ar.Request.Resource.Version
  let tr1 := tr ++ [.decode ar.Request.OldObject]
  match getStsAttributes env ar.Request.OldObject apiVersion with
  | .panicked => ⟨.panicked, some cli, tr1⟩
  | .returned (.error err) =>
    ⟨.returned (ARFail ("statefulset " ++ namespace_ ++ "/" ++ name ++
      ", decode request failed, err: " ++ err)), some cli, tr1⟩
  | .returned (.ok (stsObjectMeta, stsPartition)) =>
    let l := stsObjectMeta.Labels
    if !(label.IsTiDB l || label.IsTiKV l) then
      ⟨.returned ARSuccess, some cli, tr1⟩
    else
      match GetControllerOf stsObjectMeta with
      | none => ⟨.returned ARSuccess, some cli, tr1⟩
      | some controllerRef =>
        if controllerRef.Kind ≠ ControllerKind then
          ⟨.returned ARSuccess, some cli, tr1⟩
        else
          let tcName := controllerRef.Name
          let tr2 := tr1 ++ [.getTidbCluster namespace_ tcName]
          match cli.GetTidbCluster namespace_ tcName with
          | .error err =>
            ⟨.returned (ARFail ("get tidbcluster " ++ namespace_ ++ "/" ++ tcName ++
              " failed, statefulset " ++ name ++ ", err " ++ err)), some cli, tr2⟩
          | .ok tc =>
            let partitionStr := partitionStrOf l tc
            if partitionStr.length = 0 then
              ⟨.returned ARSuccess, some cli, tr2⟩
            else
              match strconv.ParseInt partitionStr 32 with
              | .error err =>
                ⟨.returned (ARFail ("statefulset " ++ namespace_ ++ "/" ++ name ++
                  ", convert partition str " ++ partitionStr ++ " to int failed, err: " ++
                  err.Error)), some cli, tr2⟩
              | .ok partition =>
                match stsPartition with
                | none => ⟨.panicked, some cli, tr2⟩
                | some setPartition =>
                  if setPartition > 0 ∧ setPartition ≤ toInt32 partition then
                    ⟨.returned (ARFail "protect by partition annotation"), some cli, tr2⟩
                  else
                    ⟨.returned ARSuccess, some cli, tr2⟩

/-- The group the guard expects (lines 49 to 52). -/
def expectedGroup (env : GuardEnv) : String :=
  if env.AdvancedStatefulSet then asappsGroupName else "apps"

/-- The function `AdmitStatefulSets`; `versionCli` is the package variable
before the call. When building the client fails the variable stays nil. -/
def AdmitStatefulSets (env : GuardEnv) (versionCli : Option Clientset)
    (ar : AdmissionReview) : GuardResult :=
  let name := ar.Request.Name
  let namespace_ := ar.Request.Namespace
  let apiVersion := ar.Request.Resource.Version
  let setResource : GroupVersionResource :=
    { Group := expectedGroup env, Version := apiVersion, Resource := "statefulsets" }
  if ar.Request.Resource.Group ≠ setResource.Group ∨
      ar.Request.Resource.Resource ≠ setResource.Resource then
    ⟨.returned (ARFail ("expect resource to be " ++ setResource.format ++
      " instead of " ++ ar.Request.Resource.format)), versionCli, []⟩
  else
    match (ensureClient env versionCli namespace_ name).result with
    | .error err =>
      ⟨.returned (ARFail err), none, (ensureClient env versionCli namespace_ name).trace⟩
    | .ok cli =>
      admitWithClient env cli (ensureClient env versionCli namespace_ name).trace ar

/-! ## The deletion decision engine: `pkg/webhook/pod/tikv_deleter.go` -/

/-- Modelled from the spec: the store states of `v1alpha1` are not in src/;
the lifecycle states are Up, Offline, Down and Tombstone. -/
def TiKVStateUp : String := "Up"

/-- Modelled from the spec: the store state Offline. -/
def TiKVStateOffline : String := "Offline"

/-- Modelled from the spec: the store state Down. -/
def TiKVStateDown : String := "Down"

/-- Modelled from the spec: the store state Tombstone. -/
def TiKVStateTombstone : String := "Tombstone"

/-- Modelled from the spec: `v1alpha1.TiKVMemberType` is not in src/. -/
def TiKVMemberType : String := "tikv"

/-- The constant `EvictLeaderBeginTime`. -/
def EvictLeaderBeginTime : String := label.AnnEvictLeaderBeginTime

/-- The text `fmt.Sprintf(tikvStoreNotFoundPattern+"\n", storeIdInt)` : the
pattern holds its own double quotes. -/
def tikvStoreNotFoundText (storeIdInt : Int) : String :=
  "\"invalid store ID " ++ toString storeIdInt ++ ", not found\"\n"

/-- The test `strings.HasSuffix(s, suffix)`. -/
def HasSuffix (s suffix : String) : Bool := suffix.data.isSuffixOf s.data

structure MetaStore where
  Id : Nat
  StateName : String
deriving DecidableEq, Repr

structure StoreStatus where
  LeaderCount : Int
deriving DecidableEq, Repr

structure StoreInfo where
  Store : Option MetaStore
  Status : StoreStatus
deriving DecidableEq, Repr

structure StoresInfo where
  Count : Int
  Stores : List StoreInfo
deriving DecidableEq, Repr

structure Pod where
  Name : String
  Namespace : String
  Labels : GoMap
  Annotations : GoMap
deriving DecidableEq, Repr

structure PersistentVolumeClaim where
  Name : String
  Namespace : String
  Annotations : GoMap
deriving DecidableEq, Repr

/-- The methods of `pdapi.PDClient` the engine calls; an `error` result that is
`none` is Go's nil error. `GetStore` answers a store pointer (possibly nil) or
an error. -/
structure PDClient where
  GetStores : Except Error StoresInfo
  GetStore : Nat → Except Error (Option StoreInfo)
  DeleteStore : Nat → Option Error

structure PVCControl where
  GetPVC : String → String → Except Error PersistentVolumeClaim

structure PodAdmissionControl where
  pvcControl : PVCControl

structure admitPayload where
  pod : Pod
  ownerStatefulSet : StatefulSet
  tc : TidbCluster
  pdClient : PDClient

/-- Functions and variables of the repository that the engine uses and whose
bodies are not in src/, taken as parameters: what each call answers. -/
structure Helpers where
  /-- Result of `addDeferDeletingToPVC(pvc, pvcControl, tc)`. -/
  addDeferDeletingToPVC : PersistentVolumeClaim → TidbCluster → Option Error
  /-- Result of `beginEvictLeader(kubeCli, storeID, pod, pdClient)`. -/
  beginEvictLeader : Nat → Pod → Option Error
  /-- Result of `checkFormerTiKVPodStatus(podLister, tc, ordinal, replicas, storesInfo)`. -/
  checkFormerTiKVPodStatus : TidbCluster → Int → Int → StoresInfo → Option Error
  /-- Result of `IsStatefulSetUpgrading(set)`. -/
  IsStatefulSetUpgrading : StatefulSet → Bool
  /-- Result of `operatorUtils.OrdinalPVCName(memberType, setName, ordinal)`. -/
  OrdinalPVCName : String → String → Int → String
  /-- Wall-clock time elapsed since the instant an eviction-begin marker records. -/
  elapsedSince : String → Int
  /-- The package variable `EvictLeaderTimeout`. -/
  EvictLeaderTimeout : Int

inductive PodEvent where
  | getStores
  | getStore (id : Nat)
  | deleteStore (id : Nat)
  | getPVC (pvcName ns : String)
  | addDeferDeletingToPVC (pvc : PersistentVolumeClaim)
  | checkFormerTiKVPodStatus (ordinal replicas : Int)
  | beginEvictLeader (storeId : Nat) (podName : String)
  | isTiKVReadyToUpgrade (podName : String)
deriving DecidableEq, Repr

/-- What a run of the engine leaves: the response (or a panic) and the calls
made, in order. -/
structure PodResult where
  response : Outcome AdmissionResponse
  trace : List PodEvent
deriving DecidableEq, Repr

/-- The run `r` placed after the calls `evs`. -/
def PodResult.after (evs : List PodEvent) (r : PodResult) : PodResult :=
  { response := r.response, trace := evs ++ r.trace }

/-- The characters after the last `-` of a name (the whole name when it has none). -/
def ordinalSuffix (name : String) : List Char :=
  name.data.foldl (fun acc c => if c = '-' then [] else acc ++ [c]) []

/-- Modelled from the spec: `operatorUtils.GetOrdinalFromPodName` is not in
src/; the ordinal is the numeric suffix of the pod's name, and a suffix that
does not parse is an error. -/
def GetOrdinalFromPodName (name : String) : Except Error Int :=
  match strconv.ParseInt (String.mk (ordinalSuffix name)) 32 with
  | .error err => .error err.Error
  | .ok n => .ok n

/-- Modelled from the spec: `operatorUtils.IsPodOrdinalNotExceedReplicas` is
not in src/; the pod's ordinal is below the desired replica count. -/
def IsPodOrdinalNotExceedReplicas (pod : Pod) (replicas : Int) : Except Error Bool :=
  match GetOrdinalFromPodName pod.Name with
  | .error err => .error err
  | .ok ordinal => .ok (decide (ordinal < replicas))

/-- Modelled from the spec: `isTiKVReadyToUpgrade` is not in src/; ready when
the store reports zero remaining leaders, or when the wall-clock time since the
eviction-begin marker exceeds the eviction timeout. -/
def isTiKVReadyToUpgrade (h : Helpers) (pod : Pod) (store : StoreInfo) : Bool :=
  store.Status.LeaderCount == 0 ||
    (match pod.Annotations.find EvictLeaderBeginTime with
     | some begin_ => decide (h.elapsedSince begin_ > h.EvictLeaderTimeout)
     | none => false)

/-- The method `admitDeleteUselessTiKVPod`. -/
def admitDeleteUselessTiKVPod (pc : PodAdmissionControl) (h : Helpers)
    (payload : admitPayload) : PodResult :=
  let name := payload.pod.Name
  let namespace_ := payload.pod.Namespace
  match payload.ownerStatefulSet.Spec.Replicas with
  | none => ⟨.panicked, []⟩
  | some replicas =>
    match IsPodOrdinalNotExceedReplicas payload.pod replicas with
    | .error err => ⟨.returned (ARFail err), []⟩
    | .ok isInOrdinal =>
      match GetOrdinalFromPodName name with
      | .error err => ⟨.returned (ARFail err), []⟩
      | .ok ordinal =>
        if !isInOrdinal then
          let pvcName := h.OrdinalPVCName TiKVMemberType
            payload.ownerStatefulSet.ObjectMeta.Name ordinal
          match pc.pvcControl.GetPVC pvcName namespace_ with
          | .error err => ⟨.returned (ARFail err), [.getPVC pvcName namespace_]⟩
          | .ok pvc =>
            match h.addDeferDeletingToPVC pvc payload.tc with
            | some err =>
              ⟨.returned (ARFail err),
                [.getPVC pvcName namespace_, .addDeferDeletingToPVC pvc]⟩
            | none =>
              ⟨.returned ARSuccess,
                [.getPVC pvcName namespace_, .addDeferDeletingToPVC pvc]⟩
        else
          ⟨.returned ARSuccess, []⟩

/-- The method `admitDeleteOfflineTiKVPod`. -/
def admitDeleteOfflineTiKVPod : PodResult := ⟨.returned softDeny, []⟩

/-- The method `admitDeleteUpTiKVPodDuringUpgrading`. -/
def admitDeleteUpTiKVPodDuringUpgrading (h : Helpers)
    (payload : admitPayload) (store : StoreInfo) : PodResult :=
  match payload.pod.Annotations.find EvictLeaderBeginTime with
  | none =>
    match store.Store with
    | none => ⟨.panicked, []⟩
    | some ms =>
      match h.beginEvictLeader ms.Id payload.pod with
      | some err =>
        ⟨.returned (ARFail err), [.beginEvictLeader ms.Id payload.pod.Name]⟩
      | none =>
        ⟨.returned softDeny, [.beginEvictLeader ms.Id payload.pod.Name]⟩
  | some _ =>
    if !isTiKVReadyToUpgrade h payload.pod store then
      ⟨.returned softDeny, [.isTiKVReadyToUpgrade payload.pod.Name]⟩
    else
      ⟨.returned ARSuccess, [.isTiKVReadyToUpgrade payload.pod.Name]⟩

/-- The method `admitDeleteUpTiKVPod`. -/
def admitDeleteUpTiKVPod (h : Helpers) (payload : admitPayload)
    (store : StoreInfo) (storesInfo : StoresInfo) : PodResult :=
  let name := payload.pod.Name
  match payload.ownerStatefulSet.Spec.Replicas with
  | none => ⟨.panicked, []⟩
  | some replicas =>
    match IsPodOrdinalNotExceedReplicas payload.pod replicas with
    | .error err => ⟨.returned (ARFail err), []⟩
    | .ok isInOrdinal =>
      match GetOrdinalFromPodName name with
      | .error err => ⟨.returned (ARFail err), []⟩
      | .ok ordinal =>
        let isUpgrading := h.IsStatefulSetUpgrading payload.ownerStatefulSet
        if !isInOrdinal then
          match store.Store with
          | none => ⟨.panicked, []⟩
          | some ms =>
            match payload.pdClient.DeleteStore ms.Id with
            | some err => ⟨.returned (ARFail err), [.deleteStore ms.Id]⟩
            | none => ⟨.returned softDeny, [.deleteStore ms.Id]⟩
        else if isUpgrading then
          match h.checkFormerTiKVPodStatus payload.tc ordinal replicas storesInfo with
          | some err =>
            ⟨.returned (ARFail err), [.checkFormerTiKVPodStatus ordinal replicas]⟩
          | none =>
            (admitDeleteUpTiKVPodDuringUpgrading h payload store).after
              [.checkFormerTiKVPodStatus ordinal replicas]
        else
          ⟨.returned ARSuccess, []⟩

/-- What lines 53 to 73 of `admitDeleteTiKVPods` leave: either the error the
request fails with, or the list of stores and the store found for the pod
(`none` is the nil pointer), and the calls made. -/
structure StoreLookup where
  result : Except Error (StoresInfo × Option StoreInfo)
  trace : List PodEvent
deriving DecidableEq, Repr

/-- Lines 53 to 73 of `admitDeleteTiKVPods` : the list of stores, then the store
named by the pod's store-id label. A `GetStore` error that ends in the
not-found text leaves the store pointer nil. -/
def lookupStore (payload : admitPayload) : StoreLookup :=
  let pod := payload.pod
  let pdClient := payload.pdClient
  match pdClient.GetStores with
  | .error err => ⟨.error err, [.getStores]⟩
  | .ok storesInfo =>
    match pod.Labels.find label.StoreIDLabelKey with
    | none => ⟨.ok (storesInfo, none), [.getStores]⟩
    | some storeId =>
      match strconv.Atoi storeId with
      | .error err => ⟨.error err.Error, [.getStores]⟩
      | .ok storeIdInt =>
        match pdClient.GetStore (toUint64 storeIdInt) with
        | .error err =>
          if !HasSuffix err (tikvStoreNotFoundText storeIdInt) then
            ⟨.error err, [.getStores, .getStore (toUint64 storeIdInt)]⟩
          else
            ⟨.ok (storesInfo, none), [.getStores, .getStore (toUint64 storeIdInt)]⟩
        | .ok storeInfo =>
          ⟨.ok (storesInfo, storeInfo), [.getStores, .getStore (toUint64 storeIdInt)]⟩

/-- Lines 75 to 95 of `admitDeleteTiKVPods` : the dispatch on the store found. -/
def dispatchOnStore (pc : PodAdmissionControl) (h : Helpers) (payload : admitPayload)
    (storesInfo : StoresInfo) (storeInfo : Option StoreInfo) : PodResult :=
  match storeInfo with
  | none => admitDeleteUselessTiKVPod pc h payload
  | some si =>
    match si.Store with
    | none => admitDeleteUselessTiKVPod pc h payload
    | some ms =>
      if ms.StateName = TiKVStateTombstone then admitDeleteUselessTiKVPod pc h payload
      else if ms.StateName = TiKVStateOffline then admitDeleteOfflineTiKVPod
      else if ms.StateName = TiKVStateDown then admitDeleteUselessTiKVPod pc h payload
      else if ms.StateName = TiKVStateUp then admitDeleteUpTiKVPod h payload si storesInfo
      else ⟨.returned softDeny, []⟩

/-- The method `admitDeleteTiKVPods`. -/
def admitDeleteTiKVPods (pc : PodAdmissionControl) (h : Helpers)
    (payload : admitPayload) : PodResult :=
  match (lookupStore payload).result with
  | .error err => ⟨.returned (ARFail err), (lookupStore payload).trace⟩
  | .ok (storesInfo, storeInfo) =>
    (dispatchOnStore pc h payload storesInfo storeInfo).after (lookupStore payload).trace

/-- The classes of the store state classifier. -/
inductive StoreClass where
  | NotFound
  | Tombstone
  | Offline
  | Down
  | Up
  | Unknown
deriving DecidableEq, Repr

/-- The class of the store found for a pod, as the switch of lines 75 to 91
reads it: a nil store is NotFound, a state name outside the four known ones is
Unknown. -/
def StoreClass.ofStore (storeInfo : Option StoreInfo) : StoreClass :=
  match storeInfo with
  | none => .NotFound
  | some si =>
    match si.Store with
    | none => .NotFound
    | some ms =>
      if ms.StateName = TiKVStateTombstone then .Tombstone
      else if ms.StateName = TiKVStateOffline then .Offline
      else if ms.StateName = TiKVStateDown then .Down
      else if ms.StateName = TiKVStateUp then .Up
      else .Unknown

/-- The store state classifier applied to a pod: the class of the store that
`lookupStore` finds, or the error the lookup fails with. -/
def classify (payload : admitPayload) : Except Error StoreClass :=
  match (lookupStore payload).result with
  | .error err => .error err
  | .ok (_, storeInfo) => .ok (StoreClass.ofStore storeInfo)

/-- The event is a `DeleteStore` command. -/
def PodEvent.isDeleteStore : PodEvent → Bool
  | .deleteStore _ => true
  | _ => false

/-- The event is the start of a leader eviction (leader-transfer command and
marker write). -/
def PodEvent.isBeginEvictLeader : PodEvent → Bool
  | .beginEvictLeader _ _ => true
  | _ => false

/-- The event reads or updates a volume claim. -/
def PodEvent.touchesClaim : PodEvent → Bool
  | .getPVC _ _ => true
  | .addDeferDeletingToPVC _ => true
  | _ => false

/-- The event changes something outside the process: a store-removal command,
the start of a leader eviction, or the update of a volume claim. -/
def PodEvent.mutates : PodEvent → Bool
  | .deleteStore _ => true
  | .beginEvictLeader _ _ => true
  | .addDeferDeletingToPVC _ => true
  | _ => false

/-! ## Readings of the spec used to state the claims -/

/-- The number written by a list of decimal digits, continuing from `n`; `none`
when a character is not a decimal digit. -/
def digitsValue : List Char → Nat → Option Nat
  | [], n => some n
  | c :: cs, n =>
    if 48 ≤ c.toNat ∧ c.toNat ≤ 57 then digitsValue cs (n * 10 + (c.toNat - 48))
    else none

/-- The integer a text is the decimal text of: an optional sign `+` or `-`
followed by one or more decimal digits; `none` for any other text. -/
def decimalValue (s : String) : Option Int :=
  match s.data with
  | [] => none
  | c :: cs =>
    match (if c = '+' ∨ c = '-' then cs else c :: cs) with
    | [] => none
    | d :: ds =>
      match digitsValue (d :: ds) 0 with
      | none => none
      | some n => some (if c = '-' then -(n : Int) else (n : Int))

/-- The error an upstream call of the engine failed with, for the event that
records the call; `none` when the call succeeded, when the event is no upstream
call, and for the `GetStore` error that line 69 reads as store-not-found. -/
def failedCall (pc : PodAdmissionControl) (h : Helpers) (payload : admitPayload) :
    PodEvent → Option Error
  | .getStores =>
    match payload.pdClient.GetStores with
    | .error err => some err
    | .ok _ => none
  | .getStore id =>
    match payload.pdClient.GetStore id with
    | .ok _ => none
    | .error err =>
      match payload.pod.Labels.find label.StoreIDLabelKey with
      | none => some err
      | some storeId =>
        match strconv.Atoi storeId with
        | .error _ => some err
        | .ok storeIdInt =>
          if HasSuffix err (tikvStoreNotFoundText storeIdInt) then none else some err
  | .deleteStore id => payload.pdClient.DeleteStore id
  | .getPVC pvcName ns =>
    match pc.pvcControl.GetPVC pvcName ns with
    | .error err => some err
    | .ok _ => none
  | .addDeferDeletingToPVC pvc => h.addDeferDeletingToPVC pvc payload.tc
  | .beginEvictLeader storeId _ => h.beginEvictLeader storeId payload.pod
  | .checkFormerTiKVPodStatus _ _ => none
  | .isTiKVReadyToUpgrade _ => none

/-- The event belongs to the lookup of the store: `GetStores` or `GetStore`. -/
def PodEvent.isLookup : PodEvent → Bool
  | .getStores => true
  | .getStore _ => true
  | _ => false

/-- A run fails closed on its upstream calls: no call is made twice, and a
call that failed is the last event of the run, answered with the failure that
carries its error. -/
def FailsClosed (pc : PodAdmissionControl) (h : Helpers) (payload : admitPayload)
    (r : PodResult) : Prop :=
  r.trace.Nodup ∧
  ∀ e ∈ r.trace, ∀ err, failedCall pc h payload e = some err →
    r.response = .returned (ARFail err) ∧ r.trace.getLast? = some e

/-! ## The TiDB member manager: `pkg/manager/member/tidb_member_manager.go` -/

/-- The constant `apps.ControllerRevisionHashLabelKey`. -/
def ControllerRevisionHashLabelKey : String := "controller-revision-hash"

/-- The constant `label.InstanceLabelKey`. -/
def InstanceLabelKey : String := "app.kubernetes.io/instance"

/-- What `tidbStatefulSetIsUpgrading` calls and whose body is not in src/,
taken as parameters. -/
structure MemberEnv where
  /-- Result of `statefulSetIsUpgrading(set)`. -/
  statefulSetIsUpgrading : StatefulSet → Bool
  /-- Result of `label.New().Instance(name).TiDB().Selector()`, as a text. -/
  Selector : String → Except Error String
  /-- Result of `podLister.Pods(namespace).List(selector)`. -/
  List : String → String → Except Error (List Pod)

/-- The loop of lines 720 to 729 of `tidbStatefulSetIsUpgrading` over the pods
listed; `status` is the pointer `tc.Status.TiDB.StatefulSet`, dereferenced when
a pod carries the revision label. -/
def revisionLoop (status : Option StatefulSetStatus) : List Pod → Outcome Bool
  | [] => .returned false
  | pod :: rest =>
    match pod.Labels.find ControllerRevisionHashLabelKey with
    | none => .returned false
    | some revisionHash =>
      match status with
      | none => .panicked
      | some st =>
        if revisionHash ≠ st.UpdateRevision then .returned true
        else revisionLoop status rest

/-- The function `tidbStatefulSetIsUpgrading`. -/
def tidbStatefulSetIsUpgrading (env : MemberEnv) (set : StatefulSet) (tc : TidbCluster) :
    Outcome (Except Error Bool) :=
  if env.statefulSetIsUpgrading set then .returned (.ok true)
  else
    match env.Selector (tc.Labels.get InstanceLabelKey) with
    | .error err => .returned (.error err)
    | .ok selector =>
      match env.List tc.Namespace selector with
      | .error err => .returned (.error err)
      | .ok tidbPods =>
        match revisionLoop tc.Status.TiDB.StatefulSet tidbPods with
        | .panicked => .panicked
        | .returned b => .returned (.ok b)

structure SecurityContext where
  Privileged : Option Bool
deriving DecidableEq, Repr

structure Container where
  Name : String
  Image : String
  Command : List String
  SecurityContext : Option SecurityContext
deriving DecidableEq, Repr

/-- The two fields of the pod template of the StatefulSet built by
`getNewTiDBSetForTidbCluster` that lines 497 to 528 compute:
`Spec.Template.Spec.SecurityContext` and `Spec.Template.Spec.InitContainers`.
The other fields of the StatefulSet are built from helpers outside src/ and
are not modelled. -/
structure TiDBSetPodSpec where
  SecurityContext : Option PodSecurityContext
  InitContainers : List Container
deriving DecidableEq, Repr

/-- The loop of lines 503 to 505: the text `sysctls` after the sysctls listed. -/
def sysctlCommand (sysctls : String) (list : List Sysctl) : String :=
  list.foldl (fun acc sysctl => acc ++ (" " ++ sysctl.Name ++ "=" ++ sysctl.Value)) sysctls

/-- Lines 497 to 521 of `getNewTiDBSetForTidbCluster` : the init containers.
`AnnSysctlInit` and `AnnSysctlInitVal` are the constants of `pkg/label`, not in
src/, taken as parameters. -/
def sysctlInitContainers (AnnSysctlInit AnnSysctlInitVal : String) (tc : TidbCluster) :
    List Container :=
  let sysctls := "sysctl -w"
  match tc.BaseTiDBSpec with
  | none => []
  | some base =>
    match base.Annotations.find AnnSysctlInit with
    | none => []
    | some init =>
      if init = AnnSysctlInitVal then
        match base.PodSecurityContext with
        | none => []
        | some psc =>
          if psc.Sysctls.length > 0 then
            [{ Name := "init", Image := tc.HelperImage,
               Command := ["sh", "-c", sysctlCommand sysctls psc.Sysctls],
               SecurityContext := some { Privileged := some true } }]
          else []
      else []

/-- The function `getNewTiDBSetForTidbCluster`, for the two fields of
`TiDBSetPodSpec` : lines 497 to 528, 647 and 649. Line 525 calls a method of
`tc.BaseTiDBSpec()` without the nil test of line 499. -/
def getNewTiDBSetForTidbCluster (AnnSysctlInit AnnSysctlInitVal : String)
    (tc : TidbCluster) : Outcome TiDBSetPodSpec :=
  let initContainers := sysctlInitContainers AnnSysctlInit AnnSysctlInitVal tc
  match tc.BaseTiDBSpec with
  | none => .panicked
  | some base =>
    let podSecurityContext := base.PodSecurityContext
    if initContainers.length > 0 then
      match podSecurityContext with
      | none => .panicked
      | some psc =>
        .returned { SecurityContext := some { psc with Sysctls := [] },
                    InitContainers := initContainers }
    else
      .returned { SecurityContext := podSecurityContext, InitContainers := initContainers }

/-- The reading of the specification of the text that follows `sysctl -w` in
the command of the init container: ` name=value` for each sysctl, in order. -/
def sysctlText : List Sysctl → String
  | [] => ""
  | sysctl :: rest => " " ++ sysctl.Name ++ "=" ++ sysctl.Value ++ sysctlText rest

/-! ## Concrete inputs -/

namespace Example

/-- Labels of a StatefulSet of the TiKV role. -/
def tikvLabels : GoMap := [("app.kubernetes.io/component", "tikv")]

/-- A StatefulSet of the TiKV role, controlled by the TidbCluster `demo`, whose
rolling update stands at partition `r`. -/
def tikvSet (r : Int) : StatefulSet :=
  { ObjectMeta :=
      { Name := "demo-tikv", Namespace := "ns", Labels := tikvLabels, Annotations := [],
        OwnerReferences := [{ Kind := "TidbCluster", Name := "demo", Controller := some true }] },
    Spec := { Replicas := some 5, UpdateStrategy := { RollingUpdate := some { Partition := some r } } } }

/-- The cluster `demo`, protecting TiKV up to partition 5. -/
def demoCluster : TidbCluster :=
  { Name := "demo", Namespace := "ns",
    Annotations := [("tidb.pingcap.com/tikv-partition", "5")] }

/-- A client that knows the cluster `demo` of namespace `ns`. -/
def demoClient : Clientset :=
  { GetTidbCluster := fun ns name =>
      if ns = "ns" ∧ name = "demo" then .ok demoCluster else .error "not found" }

/-- An environment whose decoder reads the one-byte object `[r]` as `tikvSet r`. -/
def guardEnv : GuardEnv :=
  { AdvancedStatefulSet := false,
    InClusterConfig := .ok { Host := "kubernetes.default" },
    NewForConfig := fun _ => .ok demoClient,
    Decode := fun data =>
      match data with
      | [r] => .ok (tikvSet r)
      | _ => .error "unexpected end of JSON input" }

/-- An update of the StatefulSet `demo-tikv` whose old object stands at
partition `rOld` and whose new object asks for partition `rNew`. -/
def review (rOld rNew : Nat) : AdmissionReview :=
  { Request :=
      { Name := "demo-tikv", Namespace := "ns",
        Resource := { Group := "apps", Version := "v1", Resource := "statefulsets" },
        Object := [rNew], OldObject := [rOld] } }

/-- The store 4 of the placement service, in state `state` with `leaders`
leaders. -/
def store4 (state : String) (leaders : Int) : StoreInfo :=
  { Store := some { Id := 4, StateName := state }, Status := { LeaderCount := leaders } }

/-- A placement service that knows the store 4 only. -/
def pdClient (state : String) (leaders : Int) : PDClient :=
  { GetStores := .ok { Count := 1, Stores := [store4 state leaders] },
    GetStore := fun id =>
      if id = 4 then .ok (some (store4 state leaders))
      else .error ("\"invalid store ID " ++ toString id ++ ", not found\"\n"),
    DeleteStore := fun _ => none }

/-- The request to delete the pod `name` of the StatefulSet `demo-tikv` (five
replicas); the pod carries the given labels and annotations. -/
def payload (name : String) (labels annotations : GoMap) (state : String)
    (leaders : Int) : admitPayload :=
  { pod := { Name := name, Namespace := "ns", Labels := labels, Annotations := annotations },
    ownerStatefulSet := tikvSet 0,
    tc := demoCluster,
    pdClient := pdClient state leaders }

/-- The store-id label of the store 4. -/
def store4Label : GoMap := [("tidb.pingcap.com/store-id", "4")]

/-- An eviction-begin marker. -/
def marker : GoMap := [("evictLeaderBeginTime", "2020-01-01T00:00:00Z")]

/-- Helpers that all succeed; `upgrading` is what `IsStatefulSetUpgrading`
answers and `elapsed` the time since any marker, the timeout being 600. -/
def helpers (upgrading : Bool) (elapsed : Int) : Helpers :=
  { addDeferDeletingToPVC := fun _ _ => none,
    beginEvictLeader := fun _ _ => none,
    checkFormerTiKVPodStatus := fun _ _ _ _ => none,
    IsStatefulSetUpgrading := fun _ => upgrading,
    OrdinalPVCName := fun memberType setName ordinal =>
      memberType ++ "-" ++ setName ++ "-" ++ toString ordinal,
    elapsedSince := fun _ => elapsed,
    EvictLeaderTimeout := 600 }

/-- A volume-claim control that finds every claim. -/
def podControl : PodAdmissionControl :=
  { pvcControl := { GetPVC := fun name ns => .ok { Name := name, Namespace := ns, Annotations := [] } } }

/-- A cluster `demo` carrying the annotations `anns`. -/
def clusterWith (anns : GoMap) : TidbCluster :=
  { Name := "demo", Namespace := "ns", Annotations := anns }

/-- A StatefulSet `demo-set` with the given labels, owner references and
rolling-update section. -/
def setWith (labels : GoMap) (owners : List OwnerReference)
    (ru : Option RollingUpdateStatefulSetStrategy) : StatefulSet :=
  { ObjectMeta :=
      { Name := "demo-set", Namespace := "ns", Labels := labels, Annotations := [],
        OwnerReferences := owners },
    Spec := { Replicas := some 5, UpdateStrategy := { RollingUpdate := ru } } }

/-- The controller reference to the TidbCluster `demo`. -/
def demoOwner : OwnerReference :=
  { Kind := "TidbCluster", Name := "demo", Controller := some true }

/-- A client that answers every `Get` with the cluster `tc`. -/
def clientOf (tc : TidbCluster) : Clientset :=
  { GetTidbCluster := fun _ _ => .ok tc }

/-- An environment whose decoder reads every object as `set` and whose client
answers with the cluster `tc`. -/
def guardEnvOf (tc : TidbCluster) (set : StatefulSet) : GuardEnv :=
  { AdvancedStatefulSet := false,
    InClusterConfig := .ok { Host := "kubernetes.default" },
    NewForConfig := fun _ => .ok (clientOf tc),
    Decode := fun _ => .ok set }

/-- An update of the StatefulSet `demo-set`. -/
def setReview : AdmissionReview :=
  { Request :=
      { Name := "demo-set", Namespace := "ns",
        Resource := { Group := "apps", Version := "v1", Resource := "statefulsets" },
        Object := [1], OldObject := [0] } }

/-- A placement service whose `GetStores` answers `stores` and whose `GetStore`
answers `store` for every id. -/
def pdClientOf (stores : Except Error StoresInfo)
    (store : Except Error (Option StoreInfo)) (delete : Option Error) : PDClient :=
  { GetStores := stores, GetStore := fun _ => store, DeleteStore := fun _ => delete }

/-- The request to delete the pod `name` of the StatefulSet `demo-tikv` (five
replicas) against the placement service `pd`. -/
def payloadOf (name : String) (labels annotations : GoMap) (pd : PDClient) : admitPayload :=
  { pod := { Name := name, Namespace := "ns", Labels := labels, Annotations := annotations },
    ownerStatefulSet := tikvSet 0,
    tc := demoCluster,
    pdClient := pd }

/-- A list of one store. -/
def oneStore : StoresInfo := { Count := 1, Stores := [store4 "Up" 3] }

/-- Helpers during an upgrade whose check of the former pods reports `violation`. -/
def helpersChecking (violation : Option Error) : Helpers :=
  { addDeferDeletingToPVC := fun _ _ => none,
    beginEvictLeader := fun _ _ => none,
    checkFormerTiKVPodStatus := fun _ _ _ _ => violation,
    IsStatefulSetUpgrading := fun _ => true,
    OrdinalPVCName := fun memberType setName ordinal =>
      memberType ++ "-" ++ setName ++ "-" ++ toString ordinal,
    elapsedSince := fun _ => 0,
    EvictLeaderTimeout := 600 }

/-- An update whose resource is of the group `extensions`. -/
def foreignReview : AdmissionReview :=
  { Request :=
      { Name := "demo-set", Namespace := "ns",
        Resource := { Group := "extensions", Version := "v1", Resource := "statefulsets" },
        Object := [1], OldObject := [0] } }

/-- A TiDB pod carrying the labels `labels`. -/
def tidbPod (name : String) (labels : GoMap) : Pod :=
  { Name := name, Namespace := "ns", Labels := labels, Annotations := [] }

/-- The cluster `demo` whose TiDB StatefulSet has the update revision `rev2`. -/
def upgradedCluster : TidbCluster :=
  { Name := "demo", Namespace := "ns", Annotations := [],
    Status := { TiDB := { StatefulSet := some { CurrentRevision := "rev1",
                                                 UpdateRevision := "rev2" } } } }

/-- A member environment whose StatefulSet is not upgrading and whose lister
answers `pods`. -/
def memberEnv (pods : List Pod) : MemberEnv :=
  { statefulSetIsUpgrading := fun _ => false,
    Selector := fun instance_ => .ok ("app.kubernetes.io/instance=" ++ instance_),
    List := fun _ _ => .ok pods }

/-- A cluster whose TiDB spec carries the annotations `anns` and the pod
security context `psc`. -/
def sysctlCluster (anns : GoMap) (psc : Option PodSecurityContext) : TidbCluster :=
  { Name := "demo", Namespace := "ns", Annotations := [],
    BaseTiDBSpec := some { Annotations := anns, PodSecurityContext := psc },
    HelperImage := "busybox:1.26.2" }

/-- Two sysctls. -/
def twoSysctls : List Sysctl :=
  [{ Name := "net.core.somaxconn", Value := "32768" },
   { Name := "net.ipv4.tcp_syncookies", Value := "0" }]

end Example

/-! ## Lemmas on the parsing of integers -/

theorem strconv.applySign_range (fn s : String) (bitSize : Nat) (neg : Bool)
    (r : Except strconv.ErrKind Nat) (P : Int)
    (h : strconv.applySign fn s bitSize neg r = .ok P) :
    -(2 ^ (bitSize - 1) : Int) ≤ P ∧ P < 2 ^ (bitSize - 1) := by
  have hpos : (0 : Int) < 2 ^ (bitSize - 1) := by positivity
  have key : ∀ un : Nat,
      (if !neg ∧ un ≥ 2 ^ (bitSize - 1) then (.error ⟨fn, s, .ErrRange⟩ : Except strconv.NumError Int)
       else if neg ∧ un > 2 ^ (bitSize - 1) then .error ⟨fn, s, .ErrRange⟩
       else .ok (if neg then -(un : Int) else (un : Int))) = .ok P →
      -(2 ^ (bitSize - 1) : Int) ≤ P ∧ P < 2 ^ (bitSize - 1) := by
    intro un hk
    split at hk
    · simp at hk
    · split at hk
      · simp at hk
      · rename_i h1 h2
        injection hk with hk
        subst hk
        cases neg
        · simp at h1
          have h3 : ((un : Nat) : Int) < ((2 ^ (bitSize - 1) : Nat) : Int) := Int.ofNat_lt.mpr h1
          push_cast at h3
          simp
          omega
        · simp at h2
          have h3 : ((un : Nat) : Int) ≤ ((2 ^ (bitSize - 1) : Nat) : Int) := Int.ofNat_le.mpr h2
          push_cast at h3
          simp
          omega
  unfold strconv.applySign at h
  split at h
  · simp at h
  · exact key _ h

theorem strconv.parseIntAs_range (fn s : String) (bitSize : Nat) (P : Int)
    (h : strconv.parseIntAs fn s bitSize = .ok P) :
    -(2 ^ (bitSize - 1) : Int) ≤ P ∧ P < 2 ^ (bitSize - 1) := by
  unfold strconv.parseIntAs at h
  split at h
  · simp at h
  · exact strconv.applySign_range _ _ _ _ _ _ h

theorem strconv.ParseInt_nonempty (s : String) (bitSize : Nat) (P : Int)
    (h : strconv.ParseInt s bitSize = .ok P) : s.length ≠ 0 := by
  intro h0
  have hd : s.data = [] := List.length_eq_zero.mp h0
  unfold strconv.ParseInt strconv.parseIntAs at h
  rw [hd] at h
  simp at h

theorem toInt32_of_range (x : Int) (h : -(2 ^ (32 - 1) : Int) ≤ x ∧ x < 2 ^ (32 - 1)) :
    toInt32 x = x := by
  unfold toInt32
  norm_num at h ⊢
  omega

/-! ## The partition guard -/

/-- The verdict of the guard on a governed StatefulSet whose protection
annotation parses: the comparison of lines 125 to 131 on the partition `r` of
the decoded old object and the parsed value `P`. -/
theorem guard_verdict (env : GuardEnv) (versionCli : Option Clientset)
    (ar : AdmissionReview) (cli : Clientset) (set : StatefulSet) (r : Int)
    (ref : OwnerReference) (tc : TidbCluster) (P : Int)
    (hgroup : ar.Request.Resource.Group = expectedGroup env)
    (hres : ar.Request.Resource.Resource = "statefulsets")
    (hcli : (ensureClient env versionCli ar.Request.Namespace ar.Request.Name).result = .ok cli)
    (hdec : env.Decode ar.Request.OldObject = .ok set)
    (hru : set.Spec.UpdateStrategy.RollingUpdate = some { Partition := some r })
    (hlab : label.IsTiDB set.ObjectMeta.Labels = true ∨ label.IsTiKV set.ObjectMeta.Labels = true)
    (href : GetControllerOf set.ObjectMeta = some ref)
    (hkind : ref.Kind = ControllerKind)
    (htc : cli.GetTidbCluster ar.Request.Namespace ref.Name = .ok tc)
    (hP : strconv.ParseInt (partitionStrOf set.ObjectMeta.Labels tc) 32 = .ok P) :
    (AdmitStatefulSets env versionCli ar).response =
      .returned (if 0 < r ∧ r ≤ P then ARFail "protect by partition annotation"
                 else ARSuccess) := by
  have hlen := strconv.ParseInt_nonempty _ _ _ hP
  have hrange := toInt32_of_range P (strconv.parseIntAs_range _ _ _ _ hP)
  have hlab2 : (!(label.IsTiDB set.ObjectMeta.Labels || label.IsTiKV set.ObjectMeta.Labels)) = false := by
    rcases hlab with h | h <;> simp [h]
  have hattr : getStsAttributes env ar.Request.OldObject ar.Request.Resource.Version =
      .returned (.ok (set.ObjectMeta, some r)) := by
    unfold getStsAttributes
    simp [hdec, hru]
  unfold AdmitStatefulSets
  simp only [hgroup, hres, hcli, ne_eq, not_true_eq_false, or_self, if_false]
  unfold admitWithClient
  simp only [hattr, hlab2, href, hkind, htc, hP, hrange, hlen, ne_eq, not_true_eq_false,
    if_false, Bool.false_eq_true, gt_iff_lt]
  split <;> rfl

/-- C1: for a TiDB- or TiKV-labelled StatefulSet controlled by a TidbCluster
whose role-specific protection annotation parses to the integer `P`, and the
partition value `r` that `AdmitStatefulSets` compares, the response is the
denial with reason "protect by partition annotation" if and only if
`0 < r` and `r ≤ P`, and it is Allow otherwise. -/
theorem partition_guard_denies_iff_protected (env : GuardEnv)
    (versionCli : Option Clientset) (ar : AdmissionReview) (cli : Clientset)
    (set : StatefulSet) (r : Int) (ref : OwnerReference) (tc : TidbCluster) (P : Int)
    (hgroup : ar.Request.Resource.Group = expectedGroup env)
    (hres : ar.Request.Resource.Resource = "statefulsets")
    (hcli : (ensureClient env versionCli ar.Request.Namespace ar.Request.Name).result = .ok cli)
    (hdec : env.Decode ar.Request.OldObject = .ok set)
    (hru : set.Spec.UpdateStrategy.RollingUpdate = some { Partition := some r })
    (hlab : label.IsTiDB set.ObjectMeta.Labels = true ∨ label.IsTiKV set.ObjectMeta.Labels = true)
    (href : GetControllerOf set.ObjectMeta = some ref)
    (hkind : ref.Kind = ControllerKind)
    (htc : cli.GetTidbCluster ar.Request.Namespace ref.Name = .ok tc)
    (hP : strconv.ParseInt (partitionStrOf set.ObjectMeta.Labels tc) 32 = .ok P) :
    ((AdmitStatefulSets env versionCli ar).response =
        .returned (ARFail "protect by partition annotation") ↔ (0 < r ∧ r ≤ P)) ∧
    ((AdmitStatefulSets env versionCli ar).response = .returned ARSuccess ↔
        ¬ (0 < r ∧ r ≤ P)) := by
  rw [guard_verdict env versionCli ar cli set r ref tc P hgroup hres hcli hdec hru hlab href
    hkind htc hP]
  by_cases hr : 0 < r ∧ r ≤ P
  · simp [hr, ARFail, ARSuccess]
  · simp [hr, ARFail, ARSuccess]

/-- Witness of C1 at `P = 5` : the partitions 1, 3 and 5 are denied, the
partitions 0, 6 and 10 are allowed. -/
theorem partition_guard_denies_iff_protected_witness :
    (AdmitStatefulSets Example.guardEnv none (Example.review 1 1)).response =
      .returned (ARFail "protect by partition annotation") ∧
    (AdmitStatefulSets Example.guardEnv none (Example.review 3 3)).response =
      .returned (ARFail "protect by partition annotation") ∧
    (AdmitStatefulSets Example.guardEnv none (Example.review 5 5)).response =
      .returned (ARFail "protect by partition annotation") ∧
    (AdmitStatefulSets Example.guardEnv none (Example.review 0 0)).response =
      .returned ARSuccess ∧
    (AdmitStatefulSets Example.guardEnv none (Example.review 6 6)).response =
      .returned ARSuccess ∧
    (AdmitStatefulSets Example.guardEnv none (Example.review 10 10)).response =
      .returned ARSuccess :=
  ⟨(partition_guard_denies_iff_protected Example.guardEnv none (Example.review 1 1)
      Example.demoClient (Example.tikvSet 1) 1
      { Kind := "TidbCluster", Name := "demo", Controller := some true } Example.demoCluster 5
      rfl rfl rfl rfl rfl (Or.inr (by decide)) (by decide) rfl (by decide)
      (by decide)).1.2 (by decide),
   (partition_guard_denies_iff_protected Example.guardEnv none (Example.review 3 3)
      Example.demoClient (Example.tikvSet 3) 3
      { Kind := "TidbCluster", Name := "demo", Controller := some true } Example.demoCluster 5
      rfl rfl rfl rfl rfl (Or.inr (by decide)) (by decide) rfl (by decide)
      (by decide)).1.2 (by decide),
   (partition_guard_denies_iff_protected Example.guardEnv none (Example.review 5 5)
      Example.demoClient (Example.tikvSet 5) 5
      { Kind := "TidbCluster", Name := "demo", Controller := some true } Example.demoCluster 5
      rfl rfl rfl rfl rfl (Or.inr (by decide)) (by decide) rfl (by decide)
      (by decide)).1.2 (by decide),
   (partition_guard_denies_iff_protected Example.guardEnv none (Example.review 0 0)
      Example.demoClient (Example.tikvSet 0) 0
      { Kind := "TidbCluster", Name := "demo", Controller := some true } Example.demoCluster 5
      rfl rfl rfl rfl rfl (Or.inr (by decide)) (by decide) rfl (by decide)
      (by decide)).2.2 (by decide),
   (partition_guard_denies_iff_protected Example.guardEnv none (Example.review 6 6)
      Example.demoClient (Example.tikvSet 6) 6
      { Kind := "TidbCluster", Name := "demo", Controller := some true } Example.demoCluster 5
      rfl rfl rfl rfl rfl (Or.inr (by decide)) (by decide) rfl (by decide)
      (by decide)).2.2 (by decide),
   (partition_guard_denies_iff_protected Example.guardEnv none (Example.review 10 10)
      Example.demoClient (Example.tikvSet 10) 10
      { Kind := "TidbCluster", Name := "demo", Controller := some true } Example.demoCluster 5
      rfl rfl rfl rfl rfl (Or.inr (by decide)) (by decide) rfl (by decide)
      (by decide)).2.2 (by decide)⟩

/-- C2 fails as stated. Under protection 5, the update from partition 3 to
partition 6 is denied although the new object's partition, 6, is outside the
protected range, and the update from partition 6 to partition 3 is allowed
although the new object's partition, 3, is inside it. -/
theorem guard_verdict_not_from_new_object :
    Example.guardEnv.Decode (Example.review 3 6).Request.OldObject = .ok (Example.tikvSet 3) ∧
    Example.guardEnv.Decode (Example.review 3 6).Request.Object = .ok (Example.tikvSet 6) ∧
    (AdmitStatefulSets Example.guardEnv none (Example.review 3 6)).response =
      .returned (ARFail "protect by partition annotation") ∧
    ¬ (0 < (6 : Int) ∧ (6 : Int) ≤ 5) ∧
    Example.guardEnv.Decode (Example.review 6 3).Request.OldObject = .ok (Example.tikvSet 6) ∧
    Example.guardEnv.Decode (Example.review 6 3).Request.Object = .ok (Example.tikvSet 3) ∧
    (AdmitStatefulSets Example.guardEnv none (Example.review 6 3)).response =
      .returned ARSuccess ∧
    (0 < (3 : Int) ∧ (3 : Int) ≤ 5) := by
  refine ⟨by decide, by decide, by decide, by decide, by decide, by decide, by decide, by decide⟩

/-- C2, amended: the partition value compared against the protection
annotation is the partition `rOld` of the request's old object. For a request
whose old and new objects carry different partition values the verdict is the
one determined by the old object's partition, and replacing the new object by
any other leaves the response unchanged. -/
theorem guard_verdict_from_old_object (env : GuardEnv)
    (versionCli : Option Clientset) (ar : AdmissionReview) (cli : Clientset)
    (setOld setNew : StatefulSet) (rOld rNew : Int) (ref : OwnerReference)
    (tc : TidbCluster) (P : Int)
    (hgroup : ar.Request.Resource.Group = expectedGroup env)
    (hres : ar.Request.Resource.Resource = "statefulsets")
    (hcli : (ensureClient env versionCli ar.Request.Namespace ar.Request.Name).result = .ok cli)
    (hdec : env.Decode ar.Request.OldObject = .ok setOld)
    (hru : setOld.Spec.UpdateStrategy.RollingUpdate = some { Partition := some rOld })
    (_hdecNew : env.Decode ar.Request.Object = .ok setNew)
    (_hruNew : setNew.Spec.UpdateStrategy.RollingUpdate = some { Partition := some rNew })
    (_hdiff : rOld ≠ rNew)
    (hlab : label.IsTiDB setOld.ObjectMeta.Labels = true ∨
      label.IsTiKV setOld.ObjectMeta.Labels = true)
    (href : GetControllerOf setOld.ObjectMeta = some ref)
    (hkind : ref.Kind = ControllerKind)
    (htc : cli.GetTidbCluster ar.Request.Namespace ref.Name = .ok tc)
    (hP : strconv.ParseInt (partitionStrOf setOld.ObjectMeta.Labels tc) 32 = .ok P) :
    ((AdmitStatefulSets env versionCli ar).response =
        .returned (ARFail "protect by partition annotation") ↔ (0 < rOld ∧ rOld ≤ P)) ∧
    ((AdmitStatefulSets env versionCli ar).response = .returned ARSuccess ↔
        ¬ (0 < rOld ∧ rOld ≤ P)) ∧
    (∀ obj : Raw,
      (AdmitStatefulSets env versionCli
        { Request := { ar.Request with Object := obj } }).response =
      (AdmitStatefulSets env versionCli ar).response) := by
  rw [guard_verdict env versionCli ar cli setOld rOld ref tc P hgroup hres hcli hdec hru hlab
    href hkind htc hP]
  refine ⟨?_, ?_, fun obj => ?_⟩
  · by_cases hr : 0 < rOld ∧ rOld ≤ P <;> simp [hr, ARFail, ARSuccess]
  · by_cases hr : 0 < rOld ∧ rOld ≤ P <;> simp [hr, ARFail, ARSuccess]
  · exact guard_verdict env versionCli { Request := { ar.Request with Object := obj } } cli
      setOld rOld ref tc P hgroup hres hcli hdec hru hlab href hkind htc hP

/-- Witness of amended C2: the update from partition 3 to partition 6 under
protection 5 is denied. -/
theorem guard_verdict_from_old_object_witness :
    (AdmitStatefulSets Example.guardEnv none (Example.review 3 6)).response =
      .returned (ARFail "protect by partition annotation") :=
  (guard_verdict_from_old_object Example.guardEnv none (Example.review 3 6)
    Example.demoClient (Example.tikvSet 3) (Example.tikvSet 6) 3 6
    { Kind := "TidbCluster", Name := "demo", Controller := some true } Example.demoCluster 5
    rfl rfl rfl rfl rfl rfl rfl (by decide) (Or.inr (by decide)) (by decide) rfl (by decide)
    (by decide)).1.2 (by decide)

/-! ## The deletion decision engine: shared lemmas -/

/-- The engine is the dispatch on the store found, run after the lookup. -/
theorem engine_of_lookup (pc : PodAdmissionControl) (h : Helpers) (payload : admitPayload)
    (ss : StoresInfo) (osi : Option StoreInfo)
    (hl : (lookupStore payload).result = .ok (ss, osi)) :
    admitDeleteTiKVPods pc h payload =
      (dispatchOnStore pc h payload ss osi).after (lookupStore payload).trace := by
  unfold admitDeleteTiKVPods
  rw [hl]

/-- A pod has a class exactly when its lookup succeeds. -/
theorem classify_ok (payload : admitPayload) (c : StoreClass)
    (hc : classify payload = .ok c) :
    ∃ ss osi, (lookupStore payload).result = .ok (ss, osi) ∧ StoreClass.ofStore osi = c := by
  unfold classify at hc
  split at hc
  · simp at hc
  · rename_i ss osi hl
    injection hc with hc
    exact ⟨ss, osi, hl, hc⟩

/-- The lookup only reads: it lists the stores and asks for one store. -/
theorem lookupStore_trace (payload : admitPayload) :
    ∀ e ∈ (lookupStore payload).trace, e = .getStores ∨ ∃ id, e = .getStore id := by
  intro e he
  unfold lookupStore at he
  cases h1 : payload.pdClient.GetStores with
  | error err =>
    simp [h1] at he
    exact Or.inl he
  | ok ss =>
    cases h2 : payload.pod.Labels.find label.StoreIDLabelKey with
    | none =>
      simp [h1, h2] at he
      exact Or.inl he
    | some sid =>
      cases h3 : strconv.Atoi sid with
      | error err =>
        simp [h1, h2, h3] at he
        exact Or.inl he
      | ok id =>
        cases h4 : payload.pdClient.GetStore (toUint64 id) with
        | error err =>
          simp only [h1, h2, h3, h4] at he
          split at he <;>
          · simp at he
            rcases he with he | he
            · exact Or.inl he
            · exact Or.inr ⟨_, he⟩
        | ok osi =>
          simp [h1, h2, h3, h4] at he
          rcases he with he | he
          · exact Or.inl he
          · exact Or.inr ⟨_, he⟩

/-- The stores of class Tombstone, Down and NotFound go to
`admitDeleteUselessTiKVPod`. -/
theorem dispatch_useless (pc : PodAdmissionControl) (h : Helpers) (payload : admitPayload)
    (ss : StoresInfo) (osi : Option StoreInfo)
    (hc : StoreClass.ofStore osi = .Tombstone ∨ StoreClass.ofStore osi = .Down ∨
      StoreClass.ofStore osi = .NotFound) :
    dispatchOnStore pc h payload ss osi = admitDeleteUselessTiKVPod pc h payload := by
  unfold StoreClass.ofStore at hc
  unfold dispatchOnStore
  cases osi with
  | none => rfl
  | some si =>
    cases hst : si.Store with
    | none => simp [hst]
    | some ms =>
      simp only [hst] at hc ⊢
      split_ifs at hc ⊢ <;> first | rfl | simp at hc

/-- The stores of class Offline go to `admitDeleteOfflineTiKVPod`. -/
theorem dispatch_offline (pc : PodAdmissionControl) (h : Helpers) (payload : admitPayload)
    (ss : StoresInfo) (osi : Option StoreInfo)
    (hc : StoreClass.ofStore osi = .Offline) :
    dispatchOnStore pc h payload ss osi = admitDeleteOfflineTiKVPod := by
  unfold StoreClass.ofStore at hc
  unfold dispatchOnStore
  cases osi with
  | none => simp at hc
  | some si =>
    cases hst : si.Store with
    | none => simp [hst] at hc
    | some ms =>
      simp only [hst] at hc ⊢
      split_ifs at hc ⊢
      rfl

/-- The stores of class Up go to `admitDeleteUpTiKVPod`. -/
theorem dispatch_up (pc : PodAdmissionControl) (h : Helpers) (payload : admitPayload)
    (ss : StoresInfo) (osi : Option StoreInfo)
    (hc : StoreClass.ofStore osi = .Up) :
    ∃ si ms, osi = some si ∧ si.Store = some ms ∧ ms.StateName = TiKVStateUp ∧
      dispatchOnStore pc h payload ss osi = admitDeleteUpTiKVPod h payload si ss := by
  unfold StoreClass.ofStore at hc
  unfold dispatchOnStore
  cases osi with
  | none => simp at hc
  | some si =>
    cases hst : si.Store with
    | none => simp [hst] at hc
    | some ms =>
      simp only [hst] at hc ⊢
      split_ifs at hc ⊢ with h1 h2 h3 h4
      exact ⟨si, ms, rfl, hst, h4, rfl⟩

/-- The class of a store whose state name is Up. -/
theorem ofStore_up (si : StoreInfo) (ms : MetaStore) (hs : si.Store = some ms)
    (hup : ms.StateName = TiKVStateUp) : StoreClass.ofStore (some si) = .Up := by
  unfold StoreClass.ofStore
  simp only [hs, hup]
  decide

/-- The helper `IsPodOrdinalNotExceedReplicas` on a pod whose ordinal parses. -/
theorem isInOrdinal_of_ordinal (pod : Pod) (n o : Int)
    (ho : GetOrdinalFromPodName pod.Name = .ok o) :
    IsPodOrdinalNotExceedReplicas pod n = .ok (decide (o < n)) := by
  unfold IsPodOrdinalNotExceedReplicas
  rw [ho]

/-- The branch of `admitDeleteUselessTiKVPod` for an ordinal in range. -/
theorem useless_in_range (pc : PodAdmissionControl) (h : Helpers) (payload : admitPayload)
    (n o : Int) (hn : payload.ownerStatefulSet.Spec.Replicas = some n)
    (ho : GetOrdinalFromPodName payload.pod.Name = .ok o) (hlt : o < n) :
    admitDeleteUselessTiKVPod pc h payload = ⟨.returned ARSuccess, []⟩ := by
  unfold admitDeleteUselessTiKVPod
  simp [hn, isInOrdinal_of_ordinal payload.pod n o ho, ho, hlt]

/-- The branch of `admitDeleteUpTiKVPod` for an ordinal in range: the upgrade
status decides. -/
theorem up_in_range (h : Helpers) (payload : admitPayload) (si : StoreInfo)
    (ss : StoresInfo) (n o : Int) (hn : payload.ownerStatefulSet.Spec.Replicas = some n)
    (ho : GetOrdinalFromPodName payload.pod.Name = .ok o) (hlt : o < n) :
    admitDeleteUpTiKVPod h payload si ss =
      if h.IsStatefulSetUpgrading payload.ownerStatefulSet then
        match h.checkFormerTiKVPodStatus payload.tc o n ss with
        | some err => ⟨.returned (ARFail err), [.checkFormerTiKVPodStatus o n]⟩
        | none =>
          (admitDeleteUpTiKVPodDuringUpgrading h payload si).after
            [.checkFormerTiKVPodStatus o n]
      else ⟨.returned ARSuccess, []⟩ := by
  unfold admitDeleteUpTiKVPod
  simp [hn, isInOrdinal_of_ordinal payload.pod n o ho, ho, hlt]

/-- No event of the lookup satisfies a test that the two read events fail. -/
theorem lookupStore_trace_filter (payload : admitPayload) (p : PodEvent → Bool)
    (h1 : p .getStores = false) (h2 : ∀ id, p (.getStore id) = false) :
    (lookupStore payload).trace.filter p = [] := by
  rw [List.filter_eq_nil_iff]
  intro e he
  rcases lookupStore_trace payload e he with h | ⟨id, h⟩
  · simp [h, h1]
  · simp [h, h2]

/-- The branch of `admitDeleteUpTiKVPod` for an ordinal out of range. -/
theorem up_out_of_range (h : Helpers) (payload : admitPayload) (si : StoreInfo)
    (ms : MetaStore) (ss : StoresInfo) (n o : Int) (hs : si.Store = some ms)
    (hn : payload.ownerStatefulSet.Spec.Replicas = some n)
    (ho : GetOrdinalFromPodName payload.pod.Name = .ok o) (hge : ¬ o < n) :
    admitDeleteUpTiKVPod h payload si ss =
      ⟨.returned (match payload.pdClient.DeleteStore ms.Id with
                  | none => softDeny
                  | some err => ARFail err), [.deleteStore ms.Id]⟩ := by
  unfold admitDeleteUpTiKVPod
  simp only [hn, isInOrdinal_of_ordinal payload.pod n o ho, ho, hge, hs, decide_False,
    Bool.not_false, if_true]
  cases payload.pdClient.DeleteStore ms.Id <;> rfl

/-! ## The deletion decision engine: the claims -/

/-- C3: for every pod whose backing store is reported in state Offline,
`admitDeleteTiKVPods` returns a response with `Allowed = false`, whatever the
pod's name (ordinal) and annotations, the StatefulSet's replica count and the
upgrade status. -/
theorem offline_store_is_denied (pc : PodAdmissionControl) (h : Helpers)
    (payload : admitPayload) (hc : classify payload = .ok .Offline) :
    ∃ r, (admitDeleteTiKVPods pc h payload).response = .returned r ∧ r.Allowed = false := by
  obtain ⟨ss, osi, hl, hcl⟩ := classify_ok payload _ hc
  rw [engine_of_lookup pc h payload ss osi hl, dispatch_offline pc h payload ss osi hcl]
  exact ⟨softDeny, rfl, rfl⟩

/-- Witness of C3: the pod `demo-tikv-6` (ordinal out of range) with an
eviction marker, during an upgrade, on a store Offline. -/
theorem offline_store_is_denied_witness :
    classify (Example.payload "demo-tikv-6" Example.store4Label Example.marker "Offline" 0) =
      .ok .Offline ∧
    ∃ r, (admitDeleteTiKVPods Example.podControl (Example.helpers true 601)
        (Example.payload "demo-tikv-6" Example.store4Label Example.marker "Offline" 0)).response
          = .returned r ∧ r.Allowed = false :=
  ⟨by decide, offline_store_is_denied Example.podControl (Example.helpers true 601)
    (Example.payload "demo-tikv-6" Example.store4Label Example.marker "Offline" 0) (by decide)⟩

/-- C4: for every pod whose store classifies as Tombstone, Down or NotFound
and whose ordinal is below the desired replica count, the engine returns Allow
and no event of the run reads or updates a volume claim. -/
theorem useless_store_in_range_is_allowed (pc : PodAdmissionControl) (h : Helpers)
    (payload : admitPayload) (c : StoreClass) (n o : Int)
    (hc : classify payload = .ok c)
    (hcl : c = .Tombstone ∨ c = .Down ∨ c = .NotFound)
    (hn : payload.ownerStatefulSet.Spec.Replicas = some n)
    (ho : GetOrdinalFromPodName payload.pod.Name = .ok o) (hlt : o < n) :
    (admitDeleteTiKVPods pc h payload).response = .returned ARSuccess ∧
    ∀ e ∈ (admitDeleteTiKVPods pc h payload).trace, e.touchesClaim = false := by
  obtain ⟨ss, osi, hl, hco⟩ := classify_ok payload _ hc
  rw [← hco] at hcl
  rw [engine_of_lookup pc h payload ss osi hl, dispatch_useless pc h payload ss osi hcl,
    useless_in_range pc h payload n o hn ho hlt]
  refine ⟨rfl, fun e he => ?_⟩
  simp only [PodResult.after, List.append_nil] at he
  rcases lookupStore_trace payload e he with h1 | ⟨id, h1⟩ <;> rw [h1] <;> rfl

/-- Witness of C4: the pod `demo-tikv-1` of five replicas on a store Tombstone. -/
theorem useless_store_in_range_is_allowed_witness :
    (admitDeleteTiKVPods Example.podControl (Example.helpers false 0)
      (Example.payload "demo-tikv-1" Example.store4Label [] "Tombstone" 0)).response =
      .returned ARSuccess ∧
    ∀ e ∈ (admitDeleteTiKVPods Example.podControl (Example.helpers false 0)
      (Example.payload "demo-tikv-1" Example.store4Label [] "Tombstone" 0)).trace,
      e.touchesClaim = false :=
  useless_store_in_range_is_allowed Example.podControl (Example.helpers false 0)
    (Example.payload "demo-tikv-1" Example.store4Label [] "Tombstone" 0) .Tombstone 5 1
    (by decide) (Or.inl rfl) rfl (by decide) (by decide)

/-- C5: for every pod whose store is Up and whose ordinal is not below the
desired replica count, `admitDeleteUpTiKVPod` issues `DeleteStore` for the
store's id and nothing else, and answers the soft deny when the command
succeeds and the failure carrying the error when it does not; the whole run
returns `Allowed = false`, holds exactly one `DeleteStore` event and starts no
leader eviction, whatever the upgrade status. -/
theorem up_out_of_range_deletes_store (pc : PodAdmissionControl) (h : Helpers)
    (payload : admitPayload) (ss : StoresInfo) (si : StoreInfo) (ms : MetaStore)
    (n o : Int)
    (hl : (lookupStore payload).result = .ok (ss, some si))
    (hs : si.Store = some ms) (hup : ms.StateName = TiKVStateUp)
    (hn : payload.ownerStatefulSet.Spec.Replicas = some n)
    (ho : GetOrdinalFromPodName payload.pod.Name = .ok o) (hge : ¬ o < n) :
    admitDeleteUpTiKVPod h payload si ss =
      ⟨.returned (match payload.pdClient.DeleteStore ms.Id with
                  | none => softDeny
                  | some err => ARFail err), [.deleteStore ms.Id]⟩ ∧
    admitDeleteTiKVPods pc h payload =
      (admitDeleteUpTiKVPod h payload si ss).after (lookupStore payload).trace ∧
    (∃ r, (admitDeleteTiKVPods pc h payload).response = .returned r ∧ r.Allowed = false) ∧
    (admitDeleteTiKVPods pc h payload).trace.filter PodEvent.isDeleteStore =
      [.deleteStore ms.Id] ∧
    (admitDeleteTiKVPods pc h payload).trace.filter PodEvent.isBeginEvictLeader = [] := by
  obtain ⟨si2, ms2, h1, h2, _, hd⟩ :=
    dispatch_up pc h payload ss (some si) (ofStore_up si ms hs hup)
  injection h1 with h1
  subst h1
  have hfun := up_out_of_range h payload si ms ss n o hs hn ho hge
  have heng := engine_of_lookup pc h payload ss (some si) hl
  rw [hd] at heng
  refine ⟨hfun, heng, ?_, ?_, ?_⟩
  · rw [heng, hfun]
    cases payload.pdClient.DeleteStore ms.Id
    · exact ⟨softDeny, rfl, rfl⟩
    · exact ⟨ARFail _, rfl, rfl⟩
  · rw [heng, hfun]
    simp only [PodResult.after, List.filter_append,
      lookupStore_trace_filter payload PodEvent.isDeleteStore rfl (fun _ => rfl)]
    rfl
  · rw [heng, hfun]
    simp only [PodResult.after, List.filter_append,
      lookupStore_trace_filter payload PodEvent.isBeginEvictLeader rfl (fun _ => rfl)]
    rfl

/-- Witness of C5: the pod `demo-tikv-6` of five replicas on the store 4, Up,
during an upgrade. -/
theorem up_out_of_range_deletes_store_witness :
    (admitDeleteTiKVPods Example.podControl (Example.helpers true 0)
      (Example.payload "demo-tikv-6" Example.store4Label [] "Up" 3)).trace.filter
        PodEvent.isDeleteStore = [.deleteStore 4] ∧
    ∃ r, (admitDeleteTiKVPods Example.podControl (Example.helpers true 0)
      (Example.payload "demo-tikv-6" Example.store4Label [] "Up" 3)).response = .returned r ∧
      r.Allowed = false :=
  ⟨(up_out_of_range_deletes_store Example.podControl (Example.helpers true 0)
      (Example.payload "demo-tikv-6" Example.store4Label [] "Up" 3)
      { Count := 1, Stores := [Example.store4 "Up" 3] } (Example.store4 "Up" 3)
      { Id := 4, StateName := "Up" } 5 6 (by decide) rfl rfl rfl (by decide)
      (by decide)).2.2.2.1,
   (up_out_of_range_deletes_store Example.podControl (Example.helpers true 0)
      (Example.payload "demo-tikv-6" Example.store4Label [] "Up" 3)
      { Count := 1, Stores := [Example.store4 "Up" 3] } (Example.store4 "Up" 3)
      { Id := 4, StateName := "Up" } 5 6 (by decide) rfl rfl rfl (by decide)
      (by decide)).2.2.1⟩

/-- C6: for every pod whose store is Up, whose ordinal is below the desired
replica count and whose owning StatefulSet is not upgrading, the engine returns
Allow, and the run holds the reads of the lookup only: no store-removal
command, no start of a leader eviction, no update of a volume claim. -/
theorem up_in_range_not_upgrading_is_allowed (pc : PodAdmissionControl) (h : Helpers)
    (payload : admitPayload) (n o : Int)
    (hc : classify payload = .ok .Up)
    (hn : payload.ownerStatefulSet.Spec.Replicas = some n)
    (ho : GetOrdinalFromPodName payload.pod.Name = .ok o) (hlt : o < n)
    (hupg : h.IsStatefulSetUpgrading payload.ownerStatefulSet = false) :
    (admitDeleteTiKVPods pc h payload).response = .returned ARSuccess ∧
    (admitDeleteTiKVPods pc h payload).trace = (lookupStore payload).trace ∧
    ∀ e ∈ (admitDeleteTiKVPods pc h payload).trace, e.mutates = false := by
  obtain ⟨ss, osi, hl, hco⟩ := classify_ok payload _ hc
  obtain ⟨si, ms, _, _, _, hd⟩ := dispatch_up pc h payload ss osi hco
  have heng := engine_of_lookup pc h payload ss osi hl
  rw [hd, up_in_range h payload si ss n o hn ho hlt, hupg] at heng
  rw [heng]
  refine ⟨rfl, by simp [PodResult.after], fun e he => ?_⟩
  simp only [PodResult.after, Bool.false_eq_true, if_false, List.append_nil] at he
  rcases lookupStore_trace payload e he with h1 | ⟨id, h1⟩ <;> rw [h1] <;> rfl

/-- Witness of C6: the pod `demo-tikv-2` of five replicas on a store Up, no
upgrade running. -/
theorem up_in_range_not_upgrading_is_allowed_witness :
    (admitDeleteTiKVPods Example.podControl (Example.helpers false 0)
      (Example.payload "demo-tikv-2" Example.store4Label [] "Up" 3)).response =
      .returned ARSuccess :=
  (up_in_range_not_upgrading_is_allowed Example.podControl (Example.helpers false 0)
    (Example.payload "demo-tikv-2" Example.store4Label [] "Up" 3) 5 2
    (by decide) rfl (by decide) (by decide) rfl).1

/-- The engine on a store Up, ordinal in range, upgrade running, former pods
in order: the run of `admitDeleteUpTiKVPodDuringUpgrading` after the lookup
and the check of the former pods. -/
theorem engine_up_upgrading (pc : PodAdmissionControl) (h : Helpers)
    (payload : admitPayload) (ss : StoresInfo) (si : StoreInfo) (ms : MetaStore)
    (n o : Int)
    (hl : (lookupStore payload).result = .ok (ss, some si))
    (hs : si.Store = some ms) (hup : ms.StateName = TiKVStateUp)
    (hn : payload.ownerStatefulSet.Spec.Replicas = some n)
    (ho : GetOrdinalFromPodName payload.pod.Name = .ok o) (hlt : o < n)
    (hupg : h.IsStatefulSetUpgrading payload.ownerStatefulSet = true)
    (hchk : h.checkFormerTiKVPodStatus payload.tc o n ss = none) :
    admitDeleteTiKVPods pc h payload =
      ⟨(admitDeleteUpTiKVPodDuringUpgrading h payload si).response,
        (lookupStore payload).trace ++ .checkFormerTiKVPodStatus o n ::
          (admitDeleteUpTiKVPodDuringUpgrading h payload si).trace⟩ := by
  obtain ⟨si2, ms2, h1, _, _, hd⟩ :=
    dispatch_up pc h payload ss (some si) (ofStore_up si ms hs hup)
  injection h1 with h1
  subst h1
  rw [engine_of_lookup pc h payload ss (some si) hl, hd,
    up_in_range h payload si ss n o hn ho hlt, hupg, hchk]
  simp [PodResult.after]

/-- What the modelled readiness test reads: the leader count of the store and
the age of the marker. -/
theorem ready_iff (h : Helpers) (pod : Pod) (si : StoreInfo) (b : String)
    (hm : pod.Annotations.find EvictLeaderBeginTime = some b) :
    isTiKVReadyToUpgrade h pod si = true ↔
      (si.Status.LeaderCount = 0 ∨ h.elapsedSince b > h.EvictLeaderTimeout) := by
  unfold isTiKVReadyToUpgrade
  simp [hm]

/-- C7: for every pod in the case Up, ordinal in range, upgrading, former pods
in order, that carries no eviction-begin annotation,
`admitDeleteUpTiKVPodDuringUpgrading` begins the leader eviction for the
store's id and returns `Allowed = false` (the soft deny, or the failure
carrying the error of the eviction); it never returns Allow on this call,
whatever the leader count of the store. -/
theorem upgrading_without_marker_begins_eviction (pc : PodAdmissionControl) (h : Helpers)
    (payload : admitPayload) (ss : StoresInfo) (si : StoreInfo) (ms : MetaStore)
    (n o : Int)
    (hl : (lookupStore payload).result = .ok (ss, some si))
    (hs : si.Store = some ms) (hup : ms.StateName = TiKVStateUp)
    (hn : payload.ownerStatefulSet.Spec.Replicas = some n)
    (ho : GetOrdinalFromPodName payload.pod.Name = .ok o) (hlt : o < n)
    (hupg : h.IsStatefulSetUpgrading payload.ownerStatefulSet = true)
    (hchk : h.checkFormerTiKVPodStatus payload.tc o n ss = none)
    (hm : payload.pod.Annotations.find EvictLeaderBeginTime = none) :
    admitDeleteUpTiKVPodDuringUpgrading h payload si =
      ⟨.returned (match h.beginEvictLeader ms.Id payload.pod with
                  | none => softDeny
                  | some err => ARFail err),
        [.beginEvictLeader ms.Id payload.pod.Name]⟩ ∧
    (∃ r, (admitDeleteUpTiKVPodDuringUpgrading h payload si).response = .returned r ∧
      r.Allowed = false) ∧
    (admitDeleteTiKVPods pc h payload).response =
      (admitDeleteUpTiKVPodDuringUpgrading h payload si).response ∧
    (admitDeleteTiKVPods pc h payload).trace =
      (lookupStore payload).trace ++
        [.checkFormerTiKVPodStatus o n, .beginEvictLeader ms.Id payload.pod.Name] := by
  have hfun : admitDeleteUpTiKVPodDuringUpgrading h payload si =
      ⟨.returned (match h.beginEvictLeader ms.Id payload.pod with
                  | none => softDeny
                  | some err => ARFail err),
        [.beginEvictLeader ms.Id payload.pod.Name]⟩ := by
    unfold admitDeleteUpTiKVPodDuringUpgrading
    simp only [hm, hs]
    cases h.beginEvictLeader ms.Id payload.pod <;> rfl
  have heng := engine_up_upgrading pc h payload ss si ms n o hl hs hup hn ho hlt hupg hchk
  refine ⟨hfun, ?_, ?_, ?_⟩
  · rw [hfun]
    cases h.beginEvictLeader ms.Id payload.pod
    · exact ⟨softDeny, rfl, rfl⟩
    · exact ⟨ARFail _, rfl, rfl⟩
  · rw [heng]
  · rw [heng, hfun]

/-- Witness of C7: the pod `demo-tikv-1` of five replicas during an upgrade,
without marker, on the store 4 that already reports zero leaders. -/
theorem upgrading_without_marker_begins_eviction_witness :
    (admitDeleteTiKVPods Example.podControl (Example.helpers true 0)
      (Example.payload "demo-tikv-1" Example.store4Label [] "Up" 0)).trace =
      [.getStores, .getStore 4, .checkFormerTiKVPodStatus 1 5,
        .beginEvictLeader 4 "demo-tikv-1"] ∧
    ∃ r, (admitDeleteUpTiKVPodDuringUpgrading (Example.helpers true 0)
      (Example.payload "demo-tikv-1" Example.store4Label [] "Up" 0)
      (Example.store4 "Up" 0)).response = .returned r ∧ r.Allowed = false :=
  ⟨(upgrading_without_marker_begins_eviction Example.podControl (Example.helpers true 0)
      (Example.payload "demo-tikv-1" Example.store4Label [] "Up" 0)
      { Count := 1, Stores := [Example.store4 "Up" 0] } (Example.store4 "Up" 0)
      { Id := 4, StateName := "Up" } 5 1 (by decide) rfl rfl rfl (by decide) (by decide)
      rfl rfl (by decide)).2.2.2,
   (upgrading_without_marker_begins_eviction Example.podControl (Example.helpers true 0)
      (Example.payload "demo-tikv-1" Example.store4Label [] "Up" 0)
      { Count := 1, Stores := [Example.store4 "Up" 0] } (Example.store4 "Up" 0)
      { Id := 4, StateName := "Up" } 5 1 (by decide) rfl rfl rfl (by decide) (by decide)
      rfl rfl (by decide)).2.1⟩

/-- C8: for every pod in the case Up, ordinal in range, upgrading, former pods
in order, that carries an eviction-begin annotation `b`, the engine returns
Allow if and only if the pod is ready to upgrade, that is the store reports
zero leaders or the time elapsed since the marker exceeds `EvictLeaderTimeout`;
otherwise it returns the soft deny, `Allowed = false`. -/
theorem upgrading_with_marker_allows_iff_ready (pc : PodAdmissionControl) (h : Helpers)
    (payload : admitPayload) (ss : StoresInfo) (si : StoreInfo) (ms : MetaStore)
    (n o : Int) (b : String)
    (hl : (lookupStore payload).result = .ok (ss, some si))
    (hs : si.Store = some ms) (hup : ms.StateName = TiKVStateUp)
    (hn : payload.ownerStatefulSet.Spec.Replicas = some n)
    (ho : GetOrdinalFromPodName payload.pod.Name = .ok o) (hlt : o < n)
    (hupg : h.IsStatefulSetUpgrading payload.ownerStatefulSet = true)
    (hchk : h.checkFormerTiKVPodStatus payload.tc o n ss = none)
    (hm : payload.pod.Annotations.find EvictLeaderBeginTime = some b) :
    ((admitDeleteTiKVPods pc h payload).response = .returned ARSuccess ↔
      isTiKVReadyToUpgrade h payload.pod si = true) ∧
    (isTiKVReadyToUpgrade h payload.pod si = true ↔
      (si.Status.LeaderCount = 0 ∨ h.elapsedSince b > h.EvictLeaderTimeout)) ∧
    (¬ (si.Status.LeaderCount = 0 ∨ h.elapsedSince b > h.EvictLeaderTimeout) →
      (admitDeleteTiKVPods pc h payload).response = .returned softDeny) := by
  have heng := engine_up_upgrading pc h payload ss si ms n o hl hs hup hn ho hlt hupg hchk
  have hready := ready_iff h payload.pod si b hm
  have hfun : (admitDeleteUpTiKVPodDuringUpgrading h payload si).response =
      .returned (if isTiKVReadyToUpgrade h payload.pod si then ARSuccess else softDeny) := by
    unfold admitDeleteUpTiKVPodDuringUpgrading
    simp only [hm]
    cases isTiKVReadyToUpgrade h payload.pod si <;> rfl
  rw [heng]
  simp only [hfun]
  refine ⟨?_, hready, fun hnot => ?_⟩
  · cases hr : isTiKVReadyToUpgrade h payload.pod si
    · simp [ARSuccess, softDeny]
    · simp
  · have : isTiKVReadyToUpgrade h payload.pod si = false := by
      cases hr : isTiKVReadyToUpgrade h payload.pod si
      · rfl
      · exact absurd (hready.mp hr) hnot
    simp [this]

/-- Witness of C8: the pod `demo-tikv-1` with its marker during an upgrade; the
store 4 holds three leaders and the marker is older than the timeout. -/
theorem upgrading_with_marker_allows_iff_ready_witness :
    (admitDeleteTiKVPods Example.podControl (Example.helpers true 601)
      (Example.payload "demo-tikv-1" Example.store4Label Example.marker "Up" 3)).response =
      .returned ARSuccess :=
  ((upgrading_with_marker_allows_iff_ready Example.podControl (Example.helpers true 601)
      (Example.payload "demo-tikv-1" Example.store4Label Example.marker "Up" 3)
      { Count := 1, Stores := [Example.store4 "Up" 3] } (Example.store4 "Up" 3)
      { Id := 4, StateName := "Up" } 5 1 "2020-01-01T00:00:00Z" (by decide) rfl rfl rfl
      (by decide) (by decide) rfl rfl (by decide)).1).mpr (by decide)

/-- The branch of `admitDeleteUselessTiKVPod` for an ordinal out of range: the
claim is fetched, then marked, and the first failure is the answer. -/
theorem useless_out_of_range (pc : PodAdmissionControl) (h : Helpers)
    (payload : admitPayload) (n o : Int)
    (hn : payload.ownerStatefulSet.Spec.Replicas = some n)
    (ho : GetOrdinalFromPodName payload.pod.Name = .ok o) (hge : ¬ o < n) :
    admitDeleteUselessTiKVPod pc h payload =
      match pc.pvcControl.GetPVC
        (h.OrdinalPVCName TiKVMemberType payload.ownerStatefulSet.ObjectMeta.Name o)
        payload.pod.Namespace with
      | .error err =>
        ⟨.returned (ARFail err),
          [.getPVC (h.OrdinalPVCName TiKVMemberType payload.ownerStatefulSet.ObjectMeta.Name o)
            payload.pod.Namespace]⟩
      | .ok pvc =>
        match h.addDeferDeletingToPVC pvc payload.tc with
        | some err =>
          ⟨.returned (ARFail err),
            [.getPVC (h.OrdinalPVCName TiKVMemberType payload.ownerStatefulSet.ObjectMeta.Name o)
              payload.pod.Namespace, .addDeferDeletingToPVC pvc]⟩
        | none =>
          ⟨.returned ARSuccess,
            [.getPVC (h.OrdinalPVCName TiKVMemberType payload.ownerStatefulSet.ObjectMeta.Name o)
              payload.pod.Namespace, .addDeferDeletingToPVC pvc]⟩ := by
  unfold admitDeleteUselessTiKVPod
  simp only [hn, isInOrdinal_of_ordinal payload.pod n o ho, ho, hge, decide_False,
    Bool.not_false, if_true]

/-- C9: for every pod whose store classifies as Tombstone, Down or NotFound
and whose ordinal is not below the desired replica count, the engine runs
`admitDeleteUselessTiKVPod`, which first fetches the pod's ordinal volume claim
and, once fetched, marks it deferred-delete before answering; it returns Allow
if and only if both the fetch and the marking succeed, and a failure of either
is answered with the failure carrying that error. -/
theorem useless_out_of_range_marks_claim (pc : PodAdmissionControl) (h : Helpers)
    (payload : admitPayload) (c : StoreClass) (n o : Int)
    (hc : classify payload = .ok c)
    (hcl : c = .Tombstone ∨ c = .Down ∨ c = .NotFound)
    (hn : payload.ownerStatefulSet.Spec.Replicas = some n)
    (ho : GetOrdinalFromPodName payload.pod.Name = .ok o) (hge : ¬ o < n) :
    admitDeleteTiKVPods pc h payload =
      (admitDeleteUselessTiKVPod pc h payload).after (lookupStore payload).trace ∧
    (admitDeleteUselessTiKVPod pc h payload).trace.head? =
      some (.getPVC
        (h.OrdinalPVCName TiKVMemberType payload.ownerStatefulSet.ObjectMeta.Name o)
        payload.pod.Namespace) ∧
    ((admitDeleteUselessTiKVPod pc h payload).response = .returned ARSuccess ↔
      ∃ pvc, pc.pvcControl.GetPVC
        (h.OrdinalPVCName TiKVMemberType payload.ownerStatefulSet.ObjectMeta.Name o)
        payload.pod.Namespace = .ok pvc ∧ h.addDeferDeletingToPVC pvc payload.tc = none) ∧
    (∀ pvc, pc.pvcControl.GetPVC
        (h.OrdinalPVCName TiKVMemberType payload.ownerStatefulSet.ObjectMeta.Name o)
        payload.pod.Namespace = .ok pvc →
      (admitDeleteUselessTiKVPod pc h payload).trace =
        [.getPVC (h.OrdinalPVCName TiKVMemberType payload.ownerStatefulSet.ObjectMeta.Name o)
          payload.pod.Namespace, .addDeferDeletingToPVC pvc]) ∧
    (∀ err, pc.pvcControl.GetPVC
        (h.OrdinalPVCName TiKVMemberType payload.ownerStatefulSet.ObjectMeta.Name o)
        payload.pod.Namespace = .error err →
      (admitDeleteUselessTiKVPod pc h payload).response = .returned (ARFail err)) ∧
    (∀ pvc err, pc.pvcControl.GetPVC
        (h.OrdinalPVCName TiKVMemberType payload.ownerStatefulSet.ObjectMeta.Name o)
        payload.pod.Namespace = .ok pvc →
      h.addDeferDeletingToPVC pvc payload.tc = some err →
      (admitDeleteUselessTiKVPod pc h payload).response = .returned (ARFail err)) := by
  obtain ⟨ss, osi, hl, hco⟩ := classify_ok payload _ hc
  rw [← hco] at hcl
  have heng := engine_of_lookup pc h payload ss osi hl
  rw [dispatch_useless pc h payload ss osi hcl] at heng
  have hfun := useless_out_of_range pc h payload n o hn ho hge
  refine ⟨heng, ?_, ?_, ?_, ?_, ?_⟩
  · rw [hfun]
    cases pc.pvcControl.GetPVC
      (h.OrdinalPVCName TiKVMemberType payload.ownerStatefulSet.ObjectMeta.Name o)
      payload.pod.Namespace with
    | error err => rfl
    | ok pvc => cases ha : h.addDeferDeletingToPVC pvc payload.tc <;> simp [ha]
  · rw [hfun]
    cases hg : pc.pvcControl.GetPVC
      (h.OrdinalPVCName TiKVMemberType payload.ownerStatefulSet.ObjectMeta.Name o)
      payload.pod.Namespace with
    | error err => simp [ARFail, ARSuccess]
    | ok pvc =>
      cases ha : h.addDeferDeletingToPVC pvc payload.tc with
      | none => simp [ha]
      | some err => simp [ha, ARFail, ARSuccess]
  · intro pvc hg
    rw [hfun, hg]
    cases ha : h.addDeferDeletingToPVC pvc payload.tc <;> simp [ha]
  · intro err hg
    rw [hfun, hg]
  · intro pvc err hg ha
    rw [hfun, hg]
    simp only [ha]

/-- Witness of C9: the pod `demo-tikv-6` of five replicas without store-id
label; its claim `tikv-demo-tikv-6` is fetched and marked, and the delete is
allowed. -/
theorem useless_out_of_range_marks_claim_witness :
    admitDeleteTiKVPods Example.podControl (Example.helpers false 0)
      (Example.payload "demo-tikv-6" [] [] "Up" 3) =
      ⟨.returned ARSuccess,
        [.getStores, .getPVC "tikv-demo-tikv-6" "ns",
          .addDeferDeletingToPVC
            { Name := "tikv-demo-tikv-6", Namespace := "ns", Annotations := [] }]⟩ :=
  ((useless_out_of_range_marks_claim Example.podControl (Example.helpers false 0)
    (Example.payload "demo-tikv-6" [] [] "Up" 3) .NotFound 5 6 (by decide)
    (Or.inr (Or.inr rfl)) rfl (by decide) (by decide)).1).trans (by decide)

/-- The stores of class Unknown are answered with the soft deny. -/
theorem dispatch_unknown (pc : PodAdmissionControl) (h : Helpers) (payload : admitPayload)
    (ss : StoresInfo) (osi : Option StoreInfo)
    (hc : StoreClass.ofStore osi = .Unknown) :
    dispatchOnStore pc h payload ss osi = ⟨.returned softDeny, []⟩ := by
  unfold StoreClass.ofStore at hc
  unfold dispatchOnStore
  cases osi with
  | none => simp at hc
  | some si =>
    cases hst : si.Store with
    | none => simp [hst] at hc
    | some ms =>
      simp only [hst] at hc ⊢
      split_ifs at hc ⊢
      rfl

/-- When `admitDeleteUpTiKVPod` allows, either no upgrade is running or the pod
carries the marker and the readiness test holds. -/
theorem up_allowed_cases (h : Helpers) (payload : admitPayload) (si : StoreInfo)
    (ss : StoresInfo) (r : AdmissionResponse)
    (hr : (admitDeleteUpTiKVPod h payload si ss).response = .returned r)
    (ha : r.Allowed = true) :
    h.IsStatefulSetUpgrading payload.ownerStatefulSet = false ∨
    ∃ b, payload.pod.Annotations.find EvictLeaderBeginTime = some b ∧
      isTiKVReadyToUpgrade h payload.pod si = true := by
  unfold admitDeleteUpTiKVPod at hr
  cases hn : payload.ownerStatefulSet.Spec.Replicas with
  | none => simp [hn] at hr
  | some n =>
    cases hi : IsPodOrdinalNotExceedReplicas payload.pod n with
    | error e =>
      simp [hn, hi] at hr
      subst hr
      simp [ARFail] at ha
    | ok inOrd =>
      cases ho : GetOrdinalFromPodName payload.pod.Name with
      | error e =>
        simp [hn, hi, ho] at hr
        subst hr
        simp [ARFail] at ha
      | ok o =>
        simp only [hn, hi, ho] at hr
        cases inOrd with
        | false =>
          simp only [Bool.not_false, if_true] at hr
          cases hs : si.Store with
          | none => simp [hs] at hr
          | some ms =>
            simp only [hs] at hr
            cases hd : payload.pdClient.DeleteStore ms.Id <;> simp [hd] at hr <;> subst hr <;>
              simp [ARFail, softDeny] at ha
        | true =>
          simp only [Bool.not_true, Bool.false_eq_true, if_false] at hr
          cases hu : h.IsStatefulSetUpgrading payload.ownerStatefulSet with
          | false => exact Or.inl rfl
          | true =>
            right
            simp only [hu, if_true] at hr
            cases hck : h.checkFormerTiKVPodStatus payload.tc o n ss with
            | some err =>
              simp [hck] at hr
              subst hr
              simp [ARFail] at ha
            | none =>
              simp only [hck, PodResult.after] at hr
              unfold admitDeleteUpTiKVPodDuringUpgrading at hr
              cases hm : payload.pod.Annotations.find EvictLeaderBeginTime with
              | none =>
                simp only [hm] at hr
                cases hs : si.Store with
                | none => simp [hs] at hr
                | some ms =>
                  simp only [hs] at hr
                  cases hb : h.beginEvictLeader ms.Id payload.pod <;> simp [hb] at hr <;>
                    subst hr <;> simp [ARFail, softDeny] at ha
              | some b =>
                simp only [hm] at hr
                cases hready : isTiKVReadyToUpgrade h payload.pod si with
                | false =>
                  simp [hready] at hr
                  subst hr
                  simp [softDeny] at ha
                | true => exact ⟨b, rfl, rfl⟩

/-- C10 fails as stated. The engine allows the delete of a pod without
store-id label (store NotFound) and of pods whose store is Tombstone or Down,
and it allows the delete of a pod of an upgrading StatefulSet whose store, Up,
still holds three leaders, once the marker is older than the timeout. -/
theorem allowed_without_up_or_eviction :
    classify (Example.payload "demo-tikv-1" [] [] "Up" 3) = .ok .NotFound ∧
    (admitDeleteTiKVPods Example.podControl (Example.helpers false 0)
      (Example.payload "demo-tikv-1" [] [] "Up" 3)).response = .returned ARSuccess ∧
    classify (Example.payload "demo-tikv-1" Example.store4Label [] "Tombstone" 0) =
      .ok .Tombstone ∧
    (admitDeleteTiKVPods Example.podControl (Example.helpers false 0)
      (Example.payload "demo-tikv-1" Example.store4Label [] "Tombstone" 0)).response =
      .returned ARSuccess ∧
    classify (Example.payload "demo-tikv-1" Example.store4Label [] "Down" 0) = .ok .Down ∧
    (admitDeleteTiKVPods Example.podControl (Example.helpers false 0)
      (Example.payload "demo-tikv-1" Example.store4Label [] "Down" 0)).response =
      .returned ARSuccess ∧
    classify (Example.payload "demo-tikv-1" Example.store4Label Example.marker "Up" 3) =
      .ok .Up ∧
    (Example.helpers true 601).IsStatefulSetUpgrading
      (Example.payload "demo-tikv-1" Example.store4Label Example.marker "Up" 3).ownerStatefulSet
      = true ∧
    (Example.store4 "Up" 3).Status.LeaderCount = 3 ∧
    (admitDeleteTiKVPods Example.podControl (Example.helpers true 601)
      (Example.payload "demo-tikv-1" Example.store4Label Example.marker "Up" 3)).response =
      .returned ARSuccess := by
  refine ⟨by decide, by decide, by decide, by decide, by decide, by decide, by decide,
    by decide, by decide, by decide⟩

/-- C10, amended: whenever `admitDeleteTiKVPods` returns `Allowed = true`, the
pod's store classifies as Tombstone, Down or NotFound, or it is Up and either
the owning StatefulSet is not in an active rolling upgrade, or the pod carries
the eviction-begin marker and is ready to upgrade: the leader count of its
store is zero or the marker is older than the eviction timeout. -/
theorem allowed_delete_cases (pc : PodAdmissionControl) (h : Helpers)
    (payload : admitPayload) (r : AdmissionResponse)
    (hr : (admitDeleteTiKVPods pc h payload).response = .returned r)
    (ha : r.Allowed = true) :
    ∃ c, classify payload = .ok c ∧
      (c = .Tombstone ∨ c = .Down ∨ c = .NotFound ∨
        (c = .Up ∧
          (h.IsStatefulSetUpgrading payload.ownerStatefulSet = false ∨
            ∃ ss si b, (lookupStore payload).result = .ok (ss, some si) ∧
              payload.pod.Annotations.find EvictLeaderBeginTime = some b ∧
              (si.Status.LeaderCount = 0 ∨
                h.elapsedSince b > h.EvictLeaderTimeout)))) := by
  cases hl : (lookupStore payload).result with
  | error err =>
    unfold admitDeleteTiKVPods at hr
    simp [hl] at hr
    subst hr
    simp [ARFail] at ha
  | ok p =>
    obtain ⟨ss, osi⟩ := p
    have hcls : classify payload = .ok (StoreClass.ofStore osi) := by
      unfold classify
      rw [hl]
    rw [engine_of_lookup pc h payload ss osi hl] at hr
    refine ⟨StoreClass.ofStore osi, hcls, ?_⟩
    cases hco : StoreClass.ofStore osi with
    | NotFound => exact Or.inr (Or.inr (Or.inl rfl))
    | Tombstone => exact Or.inl rfl
    | Down => exact Or.inr (Or.inl rfl)
    | Offline =>
      rw [dispatch_offline pc h payload ss osi hco] at hr
      simp [PodResult.after, admitDeleteOfflineTiKVPod] at hr
      subst hr
      simp [softDeny] at ha
    | Unknown =>
      rw [dispatch_unknown pc h payload ss osi hco] at hr
      simp [PodResult.after] at hr
      subst hr
      simp [softDeny] at ha
    | Up =>
      obtain ⟨si, ms, h1, _, _, hd⟩ := dispatch_up pc h payload ss osi hco
      subst h1
      rw [hd] at hr
      refine Or.inr (Or.inr (Or.inr ⟨rfl, ?_⟩))
      rcases up_allowed_cases h payload si ss r hr ha with hu | ⟨b, hm, hready⟩
      · exact Or.inl hu
      · exact Or.inr ⟨ss, si, b, rfl, hm, (ready_iff h payload.pod si b hm).mp hready⟩

/-- Witness of amended C10: the allowed delete of the pod `demo-tikv-2`, store
Up, no upgrade running. -/
theorem allowed_delete_cases_witness :
    ∃ c, classify (Example.payload "demo-tikv-2" Example.store4Label [] "Up" 3) = .ok c ∧
      (c = .Tombstone ∨ c = .Down ∨ c = .NotFound ∨
        (c = .Up ∧
          ((Example.helpers false 0).IsStatefulSetUpgrading
              (Example.payload "demo-tikv-2" Example.store4Label [] "Up" 3).ownerStatefulSet
              = false ∨
            ∃ ss si b,
              (lookupStore (Example.payload "demo-tikv-2" Example.store4Label [] "Up" 3)).result
                = .ok (ss, some si) ∧
              (Example.payload "demo-tikv-2" Example.store4Label [] "Up" 3).pod.Annotations.find
                EvictLeaderBeginTime = some b ∧
              (si.Status.LeaderCount = 0 ∨
                (Example.helpers false 0).elapsedSince b >
                  (Example.helpers false 0).EvictLeaderTimeout)))) :=
  allowed_delete_cases Example.podControl (Example.helpers false 0)
    (Example.payload "demo-tikv-2" Example.store4Label [] "Up" 3) ARSuccess (by decide) rfl

/-! ## The text of an integer and `ParseInt` -/

/-- The digits only add to the number read so far. -/
theorem digitsValue_ge (cs : List Char) (n m : Nat) (h : digitsValue cs n = some m) :
    n ≤ m := by
  induction cs generalizing n with
  | nil =>
    simp only [digitsValue, Option.some.injEq] at h
    omega
  | cons c cs ih =>
    unfold digitsValue at h
    split at h
    · have := ih _ h
      omega
    · simp at h

/-- The digit loop of `ParseUint` at 32 bits succeeds exactly on digits whose
number fits 32 bits. -/
theorem parseUintLoop_iff (cs : List Char) (n m : Nat) (hn : n ≤ 4294967295) :
    strconv.parseUintLoop 32 cs n = .ok m ↔ digitsValue cs n = some m ∧ m ≤ 4294967295 := by
  induction cs generalizing n with
  | nil =>
    simp only [strconv.parseUintLoop, digitsValue, Except.ok.injEq, Option.some.injEq]
    constructor
    · intro h
      subst h
      exact ⟨rfl, hn⟩
    · intro h
      exact h.1
  | cons c cs ih =>
    unfold strconv.parseUintLoop digitsValue
    by_cases hd : 48 ≤ c.toNat ∧ c.toNat ≤ 57
    · have hcut : ¬ n ≥ (2 ^ 64 - 1) / 10 + 1 := by
        norm_num
        omega
      simp only [hd, and_self, if_true, hcut, if_false]
      by_cases hov : n * 10 + (c.toNat - 48) ≥ 2 ^ 64 ∨ n * 10 + (c.toNat - 48) > 2 ^ 32 - 1
      · simp only [hov, if_true]
        constructor
        · intro h
          simp at h
        · intro h
          have hge := digitsValue_ge cs _ m h.1
          norm_num at hov
          omega
      · simp only [hov, if_false]
        apply ih
        norm_num at hov
        omega
    · simp [hd]

/-- The sign step of `ParseInt` turns every error of `ParseUint` into an error. -/
theorem applySign_error (fn s : String) (neg : Bool) (k : strconv.ErrKind) (P : Int) :
    strconv.applySign fn s 32 neg (.error k) ≠ .ok P := by
  cases k <;> cases neg <;> simp [strconv.applySign]

/-- The sign step of `ParseInt` on a number `m` that `ParseUint` accepted. -/
theorem applySign_ok (fn s : String) (neg : Bool) (m : Nat) (P : Int) :
    strconv.applySign fn s 32 neg (.ok m) = .ok P ↔
      (if neg then -(m : Int) else (m : Int)) = P ∧ -(2 ^ 31 : Int) ≤ P ∧ P < 2 ^ 31 := by
  unfold strconv.applySign
  cases neg <;> simp <;> split_ifs with h1 <;> simp <;> intros <;> omega

/-- The call `ParseInt(s, 10, 32)` succeeds with `P` exactly when `s` is the
decimal text of the integer `P` and `P` fits 32 bits. -/
theorem ParseInt32_iff (s : String) (P : Int) :
    strconv.ParseInt s 32 = .ok P ↔
      decimalValue s = some P ∧ -(2 ^ 31 : Int) ≤ P ∧ P < 2 ^ 31 := by
  unfold strconv.ParseInt strconv.parseIntAs decimalValue
  cases s.data with
  | nil => simp
  | cons c cs =>
    simp only
    cases hb : (if c = '+' ∨ c = '-' then cs else c :: cs) with
    | nil => simp [strconv.ParseUint, strconv.applySign]
    | cons d ds =>
      simp only [strconv.ParseUint]
      cases hr : strconv.parseUintLoop 32 (d :: ds) 0 with
      | ok m =>
        have hdv := (parseUintLoop_iff (d :: ds) 0 m (by omega)).mp hr
        rw [applySign_ok, hdv.1]
        simp
      | error k =>
        constructor
        · intro h
          exact absurd h (applySign_error _ _ _ _ _)
        · intro h
          exfalso
          cases hv : digitsValue (d :: ds) 0 with
          | none => simp [hv] at h
          | some m =>
            simp only [hv, Option.some.injEq] at h
            by_cases hm : m ≤ 4294967295
            · have := (parseUintLoop_iff (d :: ds) 0 m (by omega)).mpr ⟨hv, hm⟩
              rw [hr] at this
              simp at this
            · obtain ⟨h1, h2, h3⟩ := h
              subst h1
              by_cases hc : c = '-' <;> simp [hc] at h2 h3 <;> omega

/-! ## The partition guard: the steps before the comparison -/

/-- Building the client fetches no cluster. -/
theorem ensureClient_trace (env : GuardEnv) (versionCli : Option Clientset)
    (namespace_ name : String) :
    ∀ e ∈ (ensureClient env versionCli namespace_ name).trace,
      e = .inClusterConfig ∨ e = .newForConfig := by
  intro e he
  unfold ensureClient at he
  cases versionCli with
  | some cli => simp at he
  | none =>
    cases h1 : env.InClusterConfig with
    | error err =>
      simp [h1] at he
      exact Or.inl he
    | ok cfg =>
      cases h2 : env.NewForConfig cfg <;> simp [h1, h2] at he <;> exact he

/-- The guard on a request of the expected resource whose client is at hand:
the run of lines 78 to 132 after the calls that built the client. -/
theorem guard_with_client (env : GuardEnv) (versionCli : Option Clientset)
    (ar : AdmissionReview) (cli : Clientset)
    (hgroup : ar.Request.Resource.Group = expectedGroup env)
    (hres : ar.Request.Resource.Resource = "statefulsets")
    (hcli : (ensureClient env versionCli ar.Request.Namespace ar.Request.Name).result = .ok cli) :
    AdmitStatefulSets env versionCli ar =
      admitWithClient env cli
        (ensureClient env versionCli ar.Request.Namespace ar.Request.Name).trace ar := by
  unfold AdmitStatefulSets
  simp only [hgroup, hres, hcli, ne_eq, not_true_eq_false, or_self, if_false]

/-- What `getStsAttributes` returns on an object that decodes and has a
rolling-update section. -/
theorem getStsAttributes_ok (env : GuardEnv) (data : Raw) (apiVersion : String)
    (set : StatefulSet) (ru : RollingUpdateStatefulSetStrategy)
    (hdec : env.Decode data = .ok set)
    (hru : set.Spec.UpdateStrategy.RollingUpdate = some ru) :
    getStsAttributes env data apiVersion = .returned (.ok (set.ObjectMeta, ru.Partition)) := by
  unfold getStsAttributes
  simp [hdec, hru]

/-- The response of the guard on a governed StatefulSet whose cluster was
fetched: lines 108 to 131 on the annotation read. -/
theorem guard_after_cluster (env : GuardEnv) (versionCli : Option Clientset)
    (ar : AdmissionReview) (cli : Clientset) (set : StatefulSet)
    (ru : RollingUpdateStatefulSetStrategy) (ref : OwnerReference) (tc : TidbCluster)
    (hgroup : ar.Request.Resource.Group = expectedGroup env)
    (hres : ar.Request.Resource.Resource = "statefulsets")
    (hcli : (ensureClient env versionCli ar.Request.Namespace ar.Request.Name).result = .ok cli)
    (hdec : env.Decode ar.Request.OldObject = .ok set)
    (hru : set.Spec.UpdateStrategy.RollingUpdate = some ru)
    (hlab : label.IsTiDB set.ObjectMeta.Labels = true ∨ label.IsTiKV set.ObjectMeta.Labels = true)
    (href : GetControllerOf set.ObjectMeta = some ref)
    (hkind : ref.Kind = ControllerKind)
    (htc : cli.GetTidbCluster ar.Request.Namespace ref.Name = .ok tc) :
    (AdmitStatefulSets env versionCli ar).response =
      if (partitionStrOf set.ObjectMeta.Labels tc).length = 0 then .returned ARSuccess
      else
        match strconv.ParseInt (partitionStrOf set.ObjectMeta.Labels tc) 32 with
        | .error err =>
          .returned (ARFail ("statefulset " ++ ar.Request.Namespace ++ "/" ++ ar.Request.Name ++
            ", convert partition str " ++ partitionStrOf set.ObjectMeta.Labels tc ++
            " to int failed, err: " ++ err.Error))
        | .ok partition =>
          match ru.Partition with
          | none => .panicked
          | some r =>
            if r > 0 ∧ r ≤ toInt32 partition then
              .returned (ARFail "protect by partition annotation")
            else .returned ARSuccess := by
  have hlab2 : (!(label.IsTiDB set.ObjectMeta.Labels || label.IsTiKV set.ObjectMeta.Labels)) = false := by
    rcases hlab with h | h <;> simp [h]
  rw [guard_with_client env versionCli ar cli hgroup hres hcli]
  unfold admitWithClient
  simp only [getStsAttributes_ok env _ _ set ru hdec hru, hlab2, href, hkind, htc, ne_eq,
    not_true_eq_false, if_false, Bool.false_eq_true]
  split
  · rfl
  · split
    · rfl
    · split
      · rfl
      · split <;> rfl

/-- The run of the guard on a StatefulSet it does not govern: the labels name
neither role, or no TidbCluster controls it. -/
theorem guard_not_governed (env : GuardEnv) (versionCli : Option Clientset)
    (ar : AdmissionReview) (cli : Clientset) (set : StatefulSet)
    (ru : RollingUpdateStatefulSetStrategy)
    (hgroup : ar.Request.Resource.Group = expectedGroup env)
    (hres : ar.Request.Resource.Resource = "statefulsets")
    (hcli : (ensureClient env versionCli ar.Request.Namespace ar.Request.Name).result = .ok cli)
    (hdec : env.Decode ar.Request.OldObject = .ok set)
    (hru : set.Spec.UpdateStrategy.RollingUpdate = some ru)
    (hnot : (label.IsTiDB set.ObjectMeta.Labels = false ∧
        label.IsTiKV set.ObjectMeta.Labels = false) ∨
      GetControllerOf set.ObjectMeta = none ∨
      ∃ ref, GetControllerOf set.ObjectMeta = some ref ∧ ref.Kind ≠ ControllerKind) :
    (AdmitStatefulSets env versionCli ar).response = .returned ARSuccess ∧
    (AdmitStatefulSets env versionCli ar).trace =
      (ensureClient env versionCli ar.Request.Namespace ar.Request.Name).trace ++
        [.decode ar.Request.OldObject] := by
  rw [guard_with_client env versionCli ar cli hgroup hres hcli]
  unfold admitWithClient
  simp only [getStsAttributes_ok env _ _ set ru hdec hru]
  by_cases hl : (!(label.IsTiDB set.ObjectMeta.Labels || label.IsTiKV set.ObjectMeta.Labels)) = true
  · simp [hl]
  · simp only [hl, if_false]
    rcases hnot with ⟨h1, h2⟩ | h | ⟨ref, h, hk⟩
    · simp [h1, h2] at hl
    · simp [h]
    · simp [h, hk]

/-- A run whose trace is the calls that built the client and one decode fetches
no cluster. -/
theorem no_cluster_fetch (env : GuardEnv) (versionCli : Option Clientset)
    (namespace_ name : String) (data : Raw) (ns tcName : String) :
    GuardEvent.getTidbCluster ns tcName ∉
      (ensureClient env versionCli namespace_ name).trace ++ [.decode data] := by
  intro hmem
  rcases List.mem_append.mp hmem with h | h
  · rcases ensureClient_trace env versionCli namespace_ name _ h with h1 | h1 <;> cases h1
  · simp at h

/-! ## The partition guard: malformed, negative and absent annotations -/

/-- C16: for every governed StatefulSet whose owning cluster carries a
non-empty role-specific protection annotation that is not the decimal text of
an integer, or is that of an integer outside the 32-bit range,
`AdmitStatefulSets` fails the request with the conversion error, for every
partition value of the StatefulSet (a nil partition included); it does not
allow. -/
theorem malformed_annotation_fails (env : GuardEnv) (versionCli : Option Clientset)
    (ar : AdmissionReview) (cli : Clientset) (set : StatefulSet)
    (ru : RollingUpdateStatefulSetStrategy) (ref : OwnerReference) (tc : TidbCluster)
    (hgroup : ar.Request.Resource.Group = expectedGroup env)
    (hres : ar.Request.Resource.Resource = "statefulsets")
    (hcli : (ensureClient env versionCli ar.Request.Namespace ar.Request.Name).result = .ok cli)
    (hdec : env.Decode ar.Request.OldObject = .ok set)
    (hru : set.Spec.UpdateStrategy.RollingUpdate = some ru)
    (hlab : label.IsTiDB set.ObjectMeta.Labels = true ∨ label.IsTiKV set.ObjectMeta.Labels = true)
    (href : GetControllerOf set.ObjectMeta = some ref)
    (hkind : ref.Kind = ControllerKind)
    (htc : cli.GetTidbCluster ar.Request.Namespace ref.Name = .ok tc)
    (hne : (partitionStrOf set.ObjectMeta.Labels tc).length ≠ 0)
    (hbad : ∀ P : Int, decimalValue (partitionStrOf set.ObjectMeta.Labels tc) = some P →
      ¬ (-(2 ^ 31 : Int) ≤ P ∧ P < 2 ^ 31)) :
    ∃ e, strconv.ParseInt (partitionStrOf set.ObjectMeta.Labels tc) 32 = .error e ∧
      (AdmitStatefulSets env versionCli ar).response =
        .returned (ARFail ("statefulset " ++ ar.Request.Namespace ++ "/" ++ ar.Request.Name ++
          ", convert partition str " ++ partitionStrOf set.ObjectMeta.Labels tc ++
          " to int failed, err: " ++ e.Error)) ∧
      (AdmitStatefulSets env versionCli ar).response ≠ .returned ARSuccess := by
  rw [guard_after_cluster env versionCli ar cli set ru ref tc hgroup hres hcli hdec hru hlab
    href hkind htc]
  cases hp : strconv.ParseInt (partitionStrOf set.ObjectMeta.Labels tc) 32 with
  | ok P =>
    have h := (ParseInt32_iff _ P).mp hp
    exact absurd h.2 (hbad P h.1)
  | error e =>
    refine ⟨e, rfl, ?_, ?_⟩
    · simp only [hne, if_false]
    · simp [hne, ARFail, ARSuccess]

/-- Witness of C16: the annotations `abc`, `5x`, `1.5` and `2147483648` on the
cluster of a TiKV StatefulSet at partition 3. -/
theorem malformed_annotation_fails_witness :
    (AdmitStatefulSets
      (Example.guardEnvOf (Example.clusterWith [("tidb.pingcap.com/tikv-partition", "abc")])
        (Example.tikvSet 3)) none Example.setReview).response ≠ .returned ARSuccess ∧
    (AdmitStatefulSets
      (Example.guardEnvOf (Example.clusterWith [("tidb.pingcap.com/tikv-partition", "5x")])
        (Example.tikvSet 3)) none Example.setReview).response ≠ .returned ARSuccess ∧
    (AdmitStatefulSets
      (Example.guardEnvOf (Example.clusterWith [("tidb.pingcap.com/tikv-partition", "1.5")])
        (Example.tikvSet 3)) none Example.setReview).response ≠ .returned ARSuccess ∧
    (AdmitStatefulSets
      (Example.guardEnvOf
        (Example.clusterWith [("tidb.pingcap.com/tikv-partition", "2147483648")])
        (Example.tikvSet 3)) none Example.setReview).response ≠ .returned ARSuccess :=
  ⟨(malformed_annotation_fails
      (Example.guardEnvOf (Example.clusterWith [("tidb.pingcap.com/tikv-partition", "abc")])
        (Example.tikvSet 3)) none Example.setReview
      (Example.clientOf (Example.clusterWith [("tidb.pingcap.com/tikv-partition", "abc")]))
      (Example.tikvSet 3) { Partition := some 3 } Example.demoOwner
      (Example.clusterWith [("tidb.pingcap.com/tikv-partition", "abc")])
      rfl rfl rfl rfl rfl (Or.inr (by decide)) (by decide) rfl rfl (by decide)
      (fun P hP => nomatch
        (show decimalValue "abc" = none from by decide).symm.trans hP)).choose_spec.2.2,
   (malformed_annotation_fails
      (Example.guardEnvOf (Example.clusterWith [("tidb.pingcap.com/tikv-partition", "5x")])
        (Example.tikvSet 3)) none Example.setReview
      (Example.clientOf (Example.clusterWith [("tidb.pingcap.com/tikv-partition", "5x")]))
      (Example.tikvSet 3) { Partition := some 3 } Example.demoOwner
      (Example.clusterWith [("tidb.pingcap.com/tikv-partition", "5x")])
      rfl rfl rfl rfl rfl (Or.inr (by decide)) (by decide) rfl rfl (by decide)
      (fun P hP => nomatch
        (show decimalValue "5x" = none from by decide).symm.trans hP)).choose_spec.2.2,
   (malformed_annotation_fails
      (Example.guardEnvOf (Example.clusterWith [("tidb.pingcap.com/tikv-partition", "1.5")])
        (Example.tikvSet 3)) none Example.setReview
      (Example.clientOf (Example.clusterWith [("tidb.pingcap.com/tikv-partition", "1.5")]))
      (Example.tikvSet 3) { Partition := some 3 } Example.demoOwner
      (Example.clusterWith [("tidb.pingcap.com/tikv-partition", "1.5")])
      rfl rfl rfl rfl rfl (Or.inr (by decide)) (by decide) rfl rfl (by decide)
      (fun P hP => nomatch
        (show decimalValue "1.5" = none from by decide).symm.trans hP)).choose_spec.2.2,
   (malformed_annotation_fails
      (Example.guardEnvOf
        (Example.clusterWith [("tidb.pingcap.com/tikv-partition", "2147483648")])
        (Example.tikvSet 3)) none Example.setReview
      (Example.clientOf
        (Example.clusterWith [("tidb.pingcap.com/tikv-partition", "2147483648")]))
      (Example.tikvSet 3) { Partition := some 3 } Example.demoOwner
      (Example.clusterWith [("tidb.pingcap.com/tikv-partition", "2147483648")])
      rfl rfl rfl rfl rfl (Or.inr (by decide)) (by decide) rfl rfl (by decide)
      (fun P hP => by
        have h : (2147483648 : Int) = P :=
          Option.some.inj ((show decimalValue "2147483648" = some (2147483648 : Int) from
            by decide).symm.trans hP)
        omega)).choose_spec.2.2⟩

/-- C17 fails as stated. The annotation `-3` is the text of a negative
integer; `ParseInt` accepts it with the value -3 and the guard allows the
update of a TiKV StatefulSet standing at partition 3. -/
theorem negative_annotation_is_parsed :
    decimalValue "-3" = some (-3) ∧
    strconv.ParseInt "-3" 32 = .ok (-3) ∧
    partitionStrOf (Example.tikvSet 3).ObjectMeta.Labels
      (Example.clusterWith [("tidb.pingcap.com/tikv-partition", "-3")]) = "-3" ∧
    (AdmitStatefulSets
      (Example.guardEnvOf (Example.clusterWith [("tidb.pingcap.com/tikv-partition", "-3")])
        (Example.tikvSet 3)) none Example.setReview).response = .returned ARSuccess := by
  refine ⟨by decide, by decide, by decide, by decide⟩

/-- C17, amended: the protection annotation is parsed as a signed 32-bit
integer. For every governed StatefulSet whose owning cluster's annotation is
the text of a negative integer `P` that fits 32 bits, the parse succeeds with
`P` and `AdmitStatefulSets` allows, for every partition value `r`. -/
theorem negative_annotation_allows (env : GuardEnv) (versionCli : Option Clientset)
    (ar : AdmissionReview) (cli : Clientset) (set : StatefulSet) (r : Int)
    (ref : OwnerReference) (tc : TidbCluster) (P : Int)
    (hgroup : ar.Request.Resource.Group = expectedGroup env)
    (hres : ar.Request.Resource.Resource = "statefulsets")
    (hcli : (ensureClient env versionCli ar.Request.Namespace ar.Request.Name).result = .ok cli)
    (hdec : env.Decode ar.Request.OldObject = .ok set)
    (hru : set.Spec.UpdateStrategy.RollingUpdate = some { Partition := some r })
    (hlab : label.IsTiDB set.ObjectMeta.Labels = true ∨ label.IsTiKV set.ObjectMeta.Labels = true)
    (href : GetControllerOf set.ObjectMeta = some ref)
    (hkind : ref.Kind = ControllerKind)
    (htc : cli.GetTidbCluster ar.Request.Namespace ref.Name = .ok tc)
    (hval : decimalValue (partitionStrOf set.ObjectMeta.Labels tc) = some P)
    (hneg : P < 0) (hfit : -(2 ^ 31 : Int) ≤ P) :
    strconv.ParseInt (partitionStrOf set.ObjectMeta.Labels tc) 32 = .ok P ∧
    (AdmitStatefulSets env versionCli ar).response = .returned ARSuccess := by
  have hP : strconv.ParseInt (partitionStrOf set.ObjectMeta.Labels tc) 32 = .ok P :=
    (ParseInt32_iff _ P).mpr ⟨hval, hfit, by omega⟩
  refine ⟨hP, ?_⟩
  rw [guard_verdict env versionCli ar cli set r ref tc P hgroup hres hcli hdec hru hlab href
    hkind htc hP]
  have : ¬ (0 < r ∧ r ≤ P) := by omega
  simp [this]

/-- Witness of amended C17: the annotation `-3` and the partition 3. -/
theorem negative_annotation_allows_witness :
    strconv.ParseInt
      (partitionStrOf (Example.tikvSet 3).ObjectMeta.Labels
        (Example.clusterWith [("tidb.pingcap.com/tikv-partition", "-3")])) 32 = .ok (-3) ∧
    (AdmitStatefulSets
      (Example.guardEnvOf (Example.clusterWith [("tidb.pingcap.com/tikv-partition", "-3")])
        (Example.tikvSet 3)) none Example.setReview).response = .returned ARSuccess :=
  negative_annotation_allows
    (Example.guardEnvOf (Example.clusterWith [("tidb.pingcap.com/tikv-partition", "-3")])
      (Example.tikvSet 3)) none Example.setReview
    (Example.clientOf (Example.clusterWith [("tidb.pingcap.com/tikv-partition", "-3")]))
    (Example.tikvSet 3) 3 Example.demoOwner
    (Example.clusterWith [("tidb.pingcap.com/tikv-partition", "-3")]) (-3)
    rfl rfl rfl rfl rfl (Or.inr (by decide)) (by decide) rfl rfl (by decide) (by decide)
    (by decide)

/-- C18: for every TiDB- or TiKV-labelled StatefulSet controlled by a
TidbCluster whose role-specific protection annotation is absent or the empty
string, `AdmitStatefulSets` returns Allow, for every partition value of the
StatefulSet (a nil partition included). -/
theorem absent_annotation_allows (env : GuardEnv) (versionCli : Option Clientset)
    (ar : AdmissionReview) (cli : Clientset) (set : StatefulSet)
    (ru : RollingUpdateStatefulSetStrategy) (ref : OwnerReference) (tc : TidbCluster)
    (hgroup : ar.Request.Resource.Group = expectedGroup env)
    (hres : ar.Request.Resource.Resource = "statefulsets")
    (hcli : (ensureClient env versionCli ar.Request.Namespace ar.Request.Name).result = .ok cli)
    (hdec : env.Decode ar.Request.OldObject = .ok set)
    (hru : set.Spec.UpdateStrategy.RollingUpdate = some ru)
    (hlab : label.IsTiDB set.ObjectMeta.Labels = true ∨ label.IsTiKV set.ObjectMeta.Labels = true)
    (href : GetControllerOf set.ObjectMeta = some ref)
    (hkind : ref.Kind = ControllerKind)
    (htc : cli.GetTidbCluster ar.Request.Namespace ref.Name = .ok tc)
    (habs :
      (label.IsTiKV set.ObjectMeta.Labels = true ∧
        (tc.Annotations.find label.AnnTiKVPartition = none ∨
          tc.Annotations.find label.AnnTiKVPartition = some "")) ∨
      (label.IsTiKV set.ObjectMeta.Labels = false ∧
        (tc.Annotations.find label.AnnTiDBPartition = none ∨
          tc.Annotations.find label.AnnTiDBPartition = some ""))) :
    (AdmitStatefulSets env versionCli ar).response = .returned ARSuccess := by
  have hempty : partitionStrOf set.ObjectMeta.Labels tc = "" := by
    unfold partitionStrOf GoMap.get
    unfold GoMap.find at habs
    rcases habs with ⟨hk, h | h⟩ | ⟨hk, h | h⟩ <;> simp [hk, h]
  rw [guard_after_cluster env versionCli ar cli set ru ref tc hgroup hres hcli hdec hru hlab
    href hkind htc, hempty]
  rfl

/-- Witness of C18: a TiKV StatefulSet at partition 3 whose cluster carries no
annotation. -/
theorem absent_annotation_allows_witness :
    (AdmitStatefulSets (Example.guardEnvOf (Example.clusterWith []) (Example.tikvSet 3)) none
      Example.setReview).response = .returned ARSuccess :=
  absent_annotation_allows (Example.guardEnvOf (Example.clusterWith []) (Example.tikvSet 3))
    none Example.setReview (Example.clientOf (Example.clusterWith [])) (Example.tikvSet 3)
    { Partition := some 3 } Example.demoOwner (Example.clusterWith [])
    rfl rfl rfl rfl rfl (Or.inr (by decide)) (by decide) rfl rfl
    (Or.inl ⟨by decide, Or.inl (by decide)⟩)

/-- C19: for every StatefulSet admission request whose old object's labels
identify neither the TiDB nor the TiKV component, `AdmitStatefulSets` returns
Allow right after the decode and the owning cluster is never fetched, whatever
the partition value and the owner references. -/
theorem other_component_allowed (env : GuardEnv) (versionCli : Option Clientset)
    (ar : AdmissionReview) (cli : Clientset) (set : StatefulSet)
    (ru : RollingUpdateStatefulSetStrategy)
    (hgroup : ar.Request.Resource.Group = expectedGroup env)
    (hres : ar.Request.Resource.Resource = "statefulsets")
    (hcli : (ensureClient env versionCli ar.Request.Namespace ar.Request.Name).result = .ok cli)
    (hdec : env.Decode ar.Request.OldObject = .ok set)
    (hru : set.Spec.UpdateStrategy.RollingUpdate = some ru)
    (htidb : label.IsTiDB set.ObjectMeta.Labels = false)
    (htikv : label.IsTiKV set.ObjectMeta.Labels = false) :
    (AdmitStatefulSets env versionCli ar).response = .returned ARSuccess ∧
    (AdmitStatefulSets env versionCli ar).trace =
      (ensureClient env versionCli ar.Request.Namespace ar.Request.Name).trace ++
        [.decode ar.Request.OldObject] ∧
    ∀ ns tcName, GuardEvent.getTidbCluster ns tcName ∉
      (AdmitStatefulSets env versionCli ar).trace := by
  obtain ⟨h1, h2⟩ := guard_not_governed env versionCli ar cli set ru hgroup hres hcli hdec hru
    (Or.inl ⟨htidb, htikv⟩)
  refine ⟨h1, h2, fun ns tcName => ?_⟩
  rw [h2]
  exact no_cluster_fetch env versionCli _ _ _ ns tcName

/-- Witness of C19: a StatefulSet of the component `pd`, controlled by the
TidbCluster `demo`, at partition 3. -/
theorem other_component_allowed_witness :
    (AdmitStatefulSets
      (Example.guardEnvOf Example.demoCluster
        (Example.setWith [("app.kubernetes.io/component", "pd")] [Example.demoOwner]
          (some { Partition := some 3 }))) none Example.setReview).response =
      .returned ARSuccess :=
  (other_component_allowed
    (Example.guardEnvOf Example.demoCluster
      (Example.setWith [("app.kubernetes.io/component", "pd")] [Example.demoOwner]
        (some { Partition := some 3 }))) none Example.setReview
    (Example.clientOf Example.demoCluster)
    (Example.setWith [("app.kubernetes.io/component", "pd")] [Example.demoOwner]
      (some { Partition := some 3 }))
    { Partition := some 3 } rfl rfl rfl rfl rfl (by decide) (by decide)).1

/-- C20: for every TiDB- or TiKV-labelled StatefulSet that has no controller
owner reference, or whose controller owner reference is of a kind other than
TidbCluster, `AdmitStatefulSets` returns Allow and fetches no cluster, whatever
the partition value. -/
theorem foreign_owner_allowed (env : GuardEnv) (versionCli : Option Clientset)
    (ar : AdmissionReview) (cli : Clientset) (set : StatefulSet)
    (ru : RollingUpdateStatefulSetStrategy)
    (hgroup : ar.Request.Resource.Group = expectedGroup env)
    (hres : ar.Request.Resource.Resource = "statefulsets")
    (hcli : (ensureClient env versionCli ar.Request.Namespace ar.Request.Name).result = .ok cli)
    (hdec : env.Decode ar.Request.OldObject = .ok set)
    (hru : set.Spec.UpdateStrategy.RollingUpdate = some ru)
    (_hlab : label.IsTiDB set.ObjectMeta.Labels = true ∨
      label.IsTiKV set.ObjectMeta.Labels = true)
    (hown : GetControllerOf set.ObjectMeta = none ∨
      ∃ ref, GetControllerOf set.ObjectMeta = some ref ∧ ref.Kind ≠ ControllerKind) :
    (AdmitStatefulSets env versionCli ar).response = .returned ARSuccess ∧
    ∀ ns tcName, GuardEvent.getTidbCluster ns tcName ∉
      (AdmitStatefulSets env versionCli ar).trace := by
  obtain ⟨h1, h2⟩ := guard_not_governed env versionCli ar cli set ru hgroup hres hcli hdec hru
    (Or.inr hown)
  refine ⟨h1, fun ns tcName => ?_⟩
  rw [h2]
  exact no_cluster_fetch env versionCli _ _ _ ns tcName

/-- Witness of C20: a TiKV StatefulSet at partition 3 without owner reference,
and one controlled by a Deployment. -/
theorem foreign_owner_allowed_witness :
    (AdmitStatefulSets
      (Example.guardEnvOf Example.demoCluster
        (Example.setWith Example.tikvLabels [] (some { Partition := some 3 })))
      none Example.setReview).response = .returned ARSuccess ∧
    (AdmitStatefulSets
      (Example.guardEnvOf Example.demoCluster
        (Example.setWith Example.tikvLabels
          [{ Kind := "Deployment", Name := "demo", Controller := some true }]
          (some { Partition := some 3 })))
      none Example.setReview).response = .returned ARSuccess :=
  ⟨(foreign_owner_allowed
      (Example.guardEnvOf Example.demoCluster
        (Example.setWith Example.tikvLabels [] (some { Partition := some 3 })))
      none Example.setReview (Example.clientOf Example.demoCluster)
      (Example.setWith Example.tikvLabels [] (some { Partition := some 3 }))
      { Partition := some 3 } rfl rfl rfl rfl rfl (Or.inr (by decide))
      (Or.inl (by decide))).1,
   (foreign_owner_allowed
      (Example.guardEnvOf Example.demoCluster
        (Example.setWith Example.tikvLabels
          [{ Kind := "Deployment", Name := "demo", Controller := some true }]
          (some { Partition := some 3 })))
      none Example.setReview (Example.clientOf Example.demoCluster)
      (Example.setWith Example.tikvLabels
        [{ Kind := "Deployment", Name := "demo", Controller := some true }]
        (some { Partition := some 3 }))
      { Partition := some 3 } rfl rfl rfl rfl rfl (Or.inr (by decide))
      (Or.inr ⟨{ Kind := "Deployment", Name := "demo", Controller := some true },
        by decide, by decide⟩)).1⟩

/-! ## The deletion decision engine: failures of upstream calls -/

/-- A run without calls fails closed. -/
theorem failsClosed_nil (pc : PodAdmissionControl) (h : Helpers) (payload : admitPayload)
    (resp : Outcome AdmissionResponse) : FailsClosed pc h payload ⟨resp, []⟩ := by
  refine ⟨List.nodup_nil, fun e he => ?_⟩
  simp at he

/-- A run of one call fails closed when the answer to a failure of the call is
the failure carrying its error. -/
theorem failsClosed_one (pc : PodAdmissionControl) (h : Helpers) (payload : admitPayload)
    (resp : Outcome AdmissionResponse) (ev : PodEvent)
    (hev : ∀ err, failedCall pc h payload ev = some err → resp = .returned (ARFail err)) :
    FailsClosed pc h payload ⟨resp, [ev]⟩ := by
  refine ⟨by simp, fun e he err hf => ?_⟩
  simp only [List.mem_singleton] at he
  subst he
  exact ⟨hev err hf, rfl⟩

/-- A run of two calls fails closed when the first call succeeded, the two
calls differ, and the answer to a failure of the second is the failure
carrying its error. -/
theorem failsClosed_two (pc : PodAdmissionControl) (h : Helpers) (payload : admitPayload)
    (resp : Outcome AdmissionResponse) (ev1 ev2 : PodEvent) (hne : ev1 ≠ ev2)
    (hev1 : failedCall pc h payload ev1 = none)
    (hev2 : ∀ err, failedCall pc h payload ev2 = some err → resp = .returned (ARFail err)) :
    FailsClosed pc h payload ⟨resp, [ev1, ev2]⟩ := by
  refine ⟨by simp [hne], fun e he err hf => ?_⟩
  simp only [List.mem_cons, List.mem_singleton, List.not_mem_nil, or_false] at he
  rcases he with he | he
  · subst he
    rw [hev1] at hf
    cases hf
  · subst he
    exact ⟨hev2 err hf, rfl⟩

/-- The run of `admitDeleteUselessTiKVPod` fails closed and makes no call of
the lookup. -/
theorem useless_failsClosed (pc : PodAdmissionControl) (h : Helpers)
    (payload : admitPayload) :
    FailsClosed pc h payload (admitDeleteUselessTiKVPod pc h payload) ∧
    ∀ e ∈ (admitDeleteUselessTiKVPod pc h payload).trace, e.isLookup = false := by
  unfold admitDeleteUselessTiKVPod
  cases hn : payload.ownerStatefulSet.Spec.Replicas with
  | none =>
    simp only [hn]
    exact ⟨failsClosed_nil _ _ _ _, by simp⟩
  | some n =>
    cases hi : IsPodOrdinalNotExceedReplicas payload.pod n with
    | error e =>
      simp only [hn, hi]
      exact ⟨failsClosed_nil _ _ _ _, by simp⟩
    | ok inOrd =>
      cases ho : GetOrdinalFromPodName payload.pod.Name with
      | error e =>
        simp only [hn, hi, ho]
        exact ⟨failsClosed_nil _ _ _ _, by simp⟩
      | ok o =>
        simp only [hn, hi, ho]
        cases inOrd with
        | true =>
          simp only [Bool.not_true, Bool.false_eq_true, if_false]
          exact ⟨failsClosed_nil _ _ _ _, by simp⟩
        | false =>
          simp only [Bool.not_false, if_true]
          cases hg : pc.pvcControl.GetPVC
            (h.OrdinalPVCName TiKVMemberType payload.ownerStatefulSet.ObjectMeta.Name o)
            payload.pod.Namespace with
          | error err0 =>
            refine ⟨failsClosed_one pc h payload _ _ (fun err hf => ?_), ?_⟩
            · simp only [failedCall, hg, Option.some.injEq] at hf
              rw [hf]
            · simp [PodEvent.isLookup]
          | ok pvc =>
            cases ha : h.addDeferDeletingToPVC pvc payload.tc with
            | some err1 =>
              simp only [ha]
              refine ⟨failsClosed_two pc h payload _ _ _ ?_ ?_ (fun err hf => ?_), ?_⟩
              · simp
              · simp [failedCall, hg]
              · simp only [failedCall, ha, Option.some.injEq] at hf
                rw [hf]
              · simp [PodEvent.isLookup]
            | none =>
              simp only [ha]
              refine ⟨failsClosed_two pc h payload _ _ _ ?_ ?_ (fun err hf => ?_), ?_⟩
              · simp
              · simp [failedCall, hg]
              · simp [failedCall, ha] at hf
              · simp [PodEvent.isLookup]

/-- The run of `admitDeleteUpTiKVPodDuringUpgrading` placed after the check of
the former pods fails closed and makes no call of the lookup. -/
theorem during_failsClosed (pc : PodAdmissionControl) (h : Helpers)
    (payload : admitPayload) (si : StoreInfo) (o n : Int) :
    FailsClosed pc h payload
      ((admitDeleteUpTiKVPodDuringUpgrading h payload si).after
        [.checkFormerTiKVPodStatus o n]) ∧
    ∀ e ∈ ((admitDeleteUpTiKVPodDuringUpgrading h payload si).after
        [.checkFormerTiKVPodStatus o n]).trace, e.isLookup = false := by
  unfold admitDeleteUpTiKVPodDuringUpgrading
  cases hm : payload.pod.Annotations.find EvictLeaderBeginTime with
  | none =>
    cases hs : si.Store with
    | none =>
      simp only [hm, hs, PodResult.after, List.append_nil]
      refine ⟨failsClosed_one pc h payload _ _ (fun err hf => ?_), ?_⟩
      · simp [failedCall] at hf
      · simp [PodEvent.isLookup]
    | some ms =>
      simp only [hm, hs]
      cases hb : h.beginEvictLeader ms.Id payload.pod with
      | some err0 =>
        simp only [PodResult.after, List.singleton_append]
        refine ⟨failsClosed_two pc h payload _ _ _ ?_ ?_ (fun err hf => ?_), ?_⟩
        · simp
        · simp [failedCall]
        · simp only [failedCall, hb, Option.some.injEq] at hf
          rw [hf]
        · simp [PodEvent.isLookup]
      | none =>
        simp only [PodResult.after, List.singleton_append]
        refine ⟨failsClosed_two pc h payload _ _ _ ?_ ?_ (fun err hf => ?_), ?_⟩
        · simp
        · simp [failedCall]
        · simp [failedCall, hb] at hf
        · simp [PodEvent.isLookup]
  | some b =>
    cases hr : isTiKVReadyToUpgrade h payload.pod si <;>
    · simp only [hm, hr, Bool.not_false, Bool.not_true, Bool.false_eq_true, if_true, if_false,
        PodResult.after, List.singleton_append]
      refine ⟨failsClosed_two pc h payload _ _ _ ?_ ?_ (fun err hf => ?_), ?_⟩
      · simp
      · simp [failedCall]
      · simp [failedCall] at hf
      · simp [PodEvent.isLookup]

/-- The run of `admitDeleteUpTiKVPod` fails closed and makes no call of the
lookup. -/
theorem up_failsClosed (pc : PodAdmissionControl) (h : Helpers) (payload : admitPayload)
    (si : StoreInfo) (ss : StoresInfo) :
    FailsClosed pc h payload (admitDeleteUpTiKVPod h payload si ss) ∧
    ∀ e ∈ (admitDeleteUpTiKVPod h payload si ss).trace, e.isLookup = false := by
  unfold admitDeleteUpTiKVPod
  cases hn : payload.ownerStatefulSet.Spec.Replicas with
  | none =>
    simp only [hn]
    exact ⟨failsClosed_nil _ _ _ _, by simp⟩
  | some n =>
    cases hi : IsPodOrdinalNotExceedReplicas payload.pod n with
    | error e =>
      simp only [hn, hi]
      exact ⟨failsClosed_nil _ _ _ _, by simp⟩
    | ok inOrd =>
      cases ho : GetOrdinalFromPodName payload.pod.Name with
      | error e =>
        simp only [hn, hi, ho]
        exact ⟨failsClosed_nil _ _ _ _, by simp⟩
      | ok o =>
        simp only [hn, hi, ho]
        cases inOrd with
        | false =>
          simp only [Bool.not_false, if_true]
          cases hs : si.Store with
          | none =>
            simp only [hs]
            exact ⟨failsClosed_nil _ _ _ _, by simp⟩
          | some ms =>
            simp only [hs]
            cases hd : payload.pdClient.DeleteStore ms.Id with
            | some err0 =>
              refine ⟨failsClosed_one pc h payload _ _ (fun err hf => ?_), ?_⟩
              · simp only [failedCall, hd, Option.some.injEq] at hf
                rw [hf]
              · simp [PodEvent.isLookup]
            | none =>
              refine ⟨failsClosed_one pc h payload _ _ (fun err hf => ?_), ?_⟩
              · simp [failedCall, hd] at hf
              · simp [PodEvent.isLookup]
        | true =>
          simp only [Bool.not_true, Bool.false_eq_true, if_false]
          cases hu : h.IsStatefulSetUpgrading payload.ownerStatefulSet with
          | false =>
            simp only [Bool.false_eq_true, if_false]
            exact ⟨failsClosed_nil _ _ _ _, by simp⟩
          | true =>
            simp only [if_true]
            cases hck : h.checkFormerTiKVPodStatus payload.tc o n ss with
            | some err0 =>
              refine ⟨failsClosed_one pc h payload _ _ (fun err hf => ?_), ?_⟩
              · simp [failedCall] at hf
              · simp [PodEvent.isLookup]
            | none => exact during_failsClosed pc h payload si o n

/-- The run of the dispatch on the store found fails closed and makes no call
of the lookup. -/
theorem dispatch_failsClosed (pc : PodAdmissionControl) (h : Helpers)
    (payload : admitPayload) (ss : StoresInfo) (osi : Option StoreInfo) :
    FailsClosed pc h payload (dispatchOnStore pc h payload ss osi) ∧
    ∀ e ∈ (dispatchOnStore pc h payload ss osi).trace, e.isLookup = false := by
  unfold dispatchOnStore
  cases osi with
  | none => exact useless_failsClosed pc h payload
  | some si =>
    cases hst : si.Store with
    | none =>
      simp only [hst]
      exact useless_failsClosed pc h payload
    | some ms =>
      simp only [hst]
      split_ifs
      · exact useless_failsClosed pc h payload
      · exact ⟨failsClosed_nil _ _ _ _, by simp [admitDeleteOfflineTiKVPod]⟩
      · exact useless_failsClosed pc h payload
      · exact up_failsClosed pc h payload si ss
      · exact ⟨failsClosed_nil _ _ _ _, by simp⟩

/-- The lookup makes each of its calls once, and a call of the lookup that
failed is its last call and its error is the result. -/
theorem lookup_failsClosed (pc : PodAdmissionControl) (h : Helpers)
    (payload : admitPayload) :
    (lookupStore payload).trace.Nodup ∧
    (∀ e ∈ (lookupStore payload).trace, e.isLookup = true) ∧
    ∀ e ∈ (lookupStore payload).trace, ∀ err, failedCall pc h payload e = some err →
      (lookupStore payload).result = .error err ∧
      (lookupStore payload).trace.getLast? = some e := by
  unfold lookupStore
  cases h1 : payload.pdClient.GetStores with
  | error err0 =>
    simp only [h1]
    refine ⟨by simp, by simp [PodEvent.isLookup], fun e he err hf => ?_⟩
    simp only [List.mem_singleton] at he
    subst he
    simp only [failedCall, h1, Option.some.injEq] at hf
    subst hf
    simp
  | ok ss =>
    cases h2 : payload.pod.Labels.find label.StoreIDLabelKey with
    | none =>
      simp only [h1, h2]
      refine ⟨by simp, by simp [PodEvent.isLookup], fun e he err hf => ?_⟩
      simp only [List.mem_singleton] at he
      subst he
      simp [failedCall, h1] at hf
    | some sid =>
      cases h3 : strconv.Atoi sid with
      | error e0 =>
        simp only [h1, h2, h3]
        refine ⟨by simp, by simp [PodEvent.isLookup], fun e he err hf => ?_⟩
        simp only [List.mem_singleton] at he
        subst he
        simp [failedCall, h1] at hf
      | ok id =>
        cases h4 : payload.pdClient.GetStore (toUint64 id) with
        | error err0 =>
          simp only [h1, h2, h3, h4]
          cases h5 : HasSuffix err0 (tikvStoreNotFoundText id) with
          | false =>
            simp only [Bool.not_false, if_true]
            refine ⟨by simp, by simp [PodEvent.isLookup], fun e he err hf => ?_⟩
            simp only [List.mem_cons, List.mem_singleton, List.not_mem_nil, or_false] at he
            rcases he with he | he
            · subst he
              simp [failedCall, h1] at hf
            · subst he
              simp only [failedCall, h2, h3, h4, h5, Bool.false_eq_true, if_false,
                Option.some.injEq] at hf
              subst hf
              simp
          | true =>
            simp only [Bool.not_true, Bool.false_eq_true, if_false]
            refine ⟨by simp, by simp [PodEvent.isLookup], fun e he err hf => ?_⟩
            simp only [List.mem_cons, List.mem_singleton, List.not_mem_nil, or_false] at he
            rcases he with he | he
            · subst he
              simp [failedCall, h1] at hf
            · subst he
              simp [failedCall, h2, h3, h4, h5] at hf
        | ok osi =>
          simp only [h1, h2, h3, h4]
          refine ⟨by simp, by simp [PodEvent.isLookup], fun e he err hf => ?_⟩
          simp only [List.mem_cons, List.mem_singleton, List.not_mem_nil, or_false] at he
          rcases he with he | he
          · subst he
            simp [failedCall, h1] at hf
          · subst he
            simp [failedCall, h4] at hf

/-- The whole run of the engine fails closed on its upstream calls. -/
theorem engine_failsClosed (pc : PodAdmissionControl) (h : Helpers)
    (payload : admitPayload) :
    FailsClosed pc h payload (admitDeleteTiKVPods pc h payload) := by
  obtain ⟨hnd, hlk, hfail⟩ := lookup_failsClosed pc h payload
  unfold admitDeleteTiKVPods
  cases hl : (lookupStore payload).result with
  | error err0 =>
    simp only
    refine ⟨hnd, fun e he err hf => ?_⟩
    obtain ⟨hres, hlast⟩ := hfail e he err hf
    rw [hl] at hres
    injection hres with hres
    subst hres
    exact ⟨rfl, hlast⟩
  | ok p =>
    obtain ⟨ss, osi⟩ := p
    simp only [PodResult.after]
    obtain ⟨⟨hnd2, hfail2⟩, hnl⟩ := dispatch_failsClosed pc h payload ss osi
    refine ⟨?_, fun e he err hf => ?_⟩
    · rw [List.nodup_append]
      refine ⟨hnd, hnd2, fun e he1 he2 => ?_⟩
      have := hlk e he1
      rw [hnl e he2] at this
      cases this
    · rcases List.mem_append.mp he with he1 | he2
      · have := (hfail e he1 err hf).1
        rw [hl] at this
        cases this
      · obtain ⟨hresp, hlast⟩ := hfail2 e he2 err hf
        refine ⟨hresp, ?_⟩
        rw [List.getLast?_append, hlast]
        rfl

/-! ## The deletion decision engine: classification and failures, the claims -/

/-- C11: for every pod that carries no store-id label, no store is queried by
id; once the list of stores is obtained the store classifies as NotFound and
the response of `admitDeleteTiKVPods` is exactly the response of
`admitDeleteUselessTiKVPod` for that payload. When `GetStores` fails, which
happens before the label is read, the request fails with that error. -/
theorem no_store_id_label_is_not_found (pc : PodAdmissionControl) (h : Helpers)
    (payload : admitPayload)
    (hlab : payload.pod.Labels.find label.StoreIDLabelKey = none) :
    (∀ ss, payload.pdClient.GetStores = .ok ss →
      classify payload = .ok .NotFound ∧
      admitDeleteTiKVPods pc h payload =
        (admitDeleteUselessTiKVPod pc h payload).after [.getStores] ∧
      (admitDeleteTiKVPods pc h payload).response =
        (admitDeleteUselessTiKVPod pc h payload).response) ∧
    (∀ err, payload.pdClient.GetStores = .error err →
      admitDeleteTiKVPods pc h payload = ⟨.returned (ARFail err), [.getStores]⟩) ∧
    (∀ id, PodEvent.getStore id ∉ (admitDeleteTiKVPods pc h payload).trace) := by
  have hlook : ∀ ss, payload.pdClient.GetStores = .ok ss →
      lookupStore payload = ⟨.ok (ss, none), [.getStores]⟩ := by
    intro ss hs
    unfold lookupStore
    simp only [hs, hlab]
  have hlookErr : ∀ err, payload.pdClient.GetStores = .error err →
      lookupStore payload = ⟨.error err, [.getStores]⟩ := by
    intro err hs
    unfold lookupStore
    simp only [hs]
  have hok : ∀ ss, payload.pdClient.GetStores = .ok ss →
      admitDeleteTiKVPods pc h payload =
        (admitDeleteUselessTiKVPod pc h payload).after [.getStores] := by
    intro ss hs
    rw [engine_of_lookup pc h payload ss none (by rw [hlook ss hs]), hlook ss hs]
    rfl
  have herr : ∀ err, payload.pdClient.GetStores = .error err →
      admitDeleteTiKVPods pc h payload = ⟨.returned (ARFail err), [.getStores]⟩ := by
    intro err hs
    unfold admitDeleteTiKVPods
    rw [hlookErr err hs]
  refine ⟨fun ss hs => ⟨?_, hok ss hs, ?_⟩, herr, fun id hmem => ?_⟩
  · unfold classify
    rw [hlook ss hs]
    rfl
  · rw [hok ss hs]
    rfl
  · cases hs : payload.pdClient.GetStores with
    | error err =>
      rw [herr err hs] at hmem
      simp at hmem
    | ok ss =>
      rw [hok ss hs] at hmem
      simp only [PodResult.after, List.singleton_append, List.mem_cons] at hmem
      rcases hmem with hmem | hmem
      · cases hmem
      · have := (useless_failsClosed pc h payload).2 _ hmem
        simp [PodEvent.isLookup] at this

/-- Witness of C11: the pod `demo-tikv-1` without labels. -/
theorem no_store_id_label_is_not_found_witness :
    classify (Example.payload "demo-tikv-1" [] [] "Up" 3) = .ok .NotFound ∧
    admitDeleteTiKVPods Example.podControl (Example.helpers false 0)
        (Example.payload "demo-tikv-1" [] [] "Up" 3) =
      (admitDeleteUselessTiKVPod Example.podControl (Example.helpers false 0)
        (Example.payload "demo-tikv-1" [] [] "Up" 3)).after [.getStores] ∧
    (admitDeleteTiKVPods Example.podControl (Example.helpers false 0)
        (Example.payload "demo-tikv-1" [] [] "Up" 3)).response =
      (admitDeleteUselessTiKVPod Example.podControl (Example.helpers false 0)
        (Example.payload "demo-tikv-1" [] [] "Up" 3)).response :=
  (no_store_id_label_is_not_found Example.podControl (Example.helpers false 0)
    (Example.payload "demo-tikv-1" [] [] "Up" 3) (by decide)).1
    { Count := 1, Stores := [Example.store4 "Up" 3] } rfl

/-- The test `strings.HasSuffix(s, suffix)` holds exactly of the texts that are
some text followed by `suffix`. -/
theorem HasSuffix_iff (s suffix : String) :
    HasSuffix s suffix = true ↔ ∃ head : String, s = head ++ suffix := by
  unfold HasSuffix
  rw [List.isSuffixOf_iff_suffix]
  constructor
  · rintro ⟨t, ht⟩
    refine ⟨⟨t⟩, String.ext ?_⟩
    rw [String.data_append, ← ht]
  · rintro ⟨head, hs⟩
    refine ⟨head.data, ?_⟩
    rw [hs, String.data_append]

/-- C12: for every pod whose store-id label parses to the integer `id`, an
error of `GetStore` is read as the NotFound class, handled by
`admitDeleteUselessTiKVPod`, exactly when its text is some text followed by the
store-not-found message for `id`, which is the pattern
`"invalid store ID %d, not found"` at `id` and a newline; every other error
makes `admitDeleteTiKVPods` fail the request with that error, so that a run
that allows the request after an error of `GetStore` is a run on the
store-not-found error. -/
theorem getStore_error_is_not_found_or_failure (pc : PodAdmissionControl) (h : Helpers)
    (payload : admitPayload) (ss : StoresInfo) (s : String) (id : Int) (err : Error)
    (hstores : payload.pdClient.GetStores = .ok ss)
    (hlab : payload.pod.Labels.find label.StoreIDLabelKey = some s)
    (hatoi : strconv.Atoi s = .ok id)
    (herr : payload.pdClient.GetStore (toUint64 id) = .error err) :
    (∀ head : String, err = head ++ tikvStoreNotFoundText id →
      classify payload = .ok .NotFound ∧
      admitDeleteTiKVPods pc h payload =
        (admitDeleteUselessTiKVPod pc h payload).after
          [.getStores, .getStore (toUint64 id)]) ∧
    ((¬ ∃ head : String, err = head ++ tikvStoreNotFoundText id) →
      classify payload = .error err ∧
      admitDeleteTiKVPods pc h payload =
        ⟨.returned (ARFail err), [.getStores, .getStore (toUint64 id)]⟩) ∧
    (classify payload = .ok .NotFound ↔
      ∃ head : String, err = head ++ tikvStoreNotFoundText id) ∧
    (∀ r, (admitDeleteTiKVPods pc h payload).response = .returned r → r.Allowed = true →
      ∃ head : String, err = head ++ tikvStoreNotFoundText id) ∧
    (∀ head : String, ∀ n : Nat,
      tikvStoreNotFoundText (Int.ofNat n) =
          "\"invalid store ID " ++ toString n ++ ", not found\"\n" ∧
        HasSuffix (head ++ tikvStoreNotFoundText id) (tikvStoreNotFoundText id) = true) := by
  have hyes : HasSuffix err (tikvStoreNotFoundText id) = true →
      lookupStore payload = ⟨.ok (ss, none), [.getStores, .getStore (toUint64 id)]⟩ := by
    intro hsuf
    unfold lookupStore
    simp only [hstores, hlab, hatoi, herr, hsuf, Bool.not_true, Bool.false_eq_true, if_false]
  have hno : HasSuffix err (tikvStoreNotFoundText id) = false →
      lookupStore payload = ⟨.error err, [.getStores, .getStore (toUint64 id)]⟩ := by
    intro hsuf
    unfold lookupStore
    simp only [hstores, hlab, hatoi, herr, hsuf, Bool.not_false, if_true]
  have h1 : HasSuffix err (tikvStoreNotFoundText id) = true →
      classify payload = .ok .NotFound ∧
      admitDeleteTiKVPods pc h payload =
        (admitDeleteUselessTiKVPod pc h payload).after
          [.getStores, .getStore (toUint64 id)] := by
    intro hsuf
    refine ⟨?_, ?_⟩
    · unfold classify
      rw [hyes hsuf]
      rfl
    · rw [engine_of_lookup pc h payload ss none (by rw [hyes hsuf]), hyes hsuf]
      rfl
  have h2 : HasSuffix err (tikvStoreNotFoundText id) = false →
      classify payload = .error err ∧
      admitDeleteTiKVPods pc h payload =
        ⟨.returned (ARFail err), [.getStores, .getStore (toUint64 id)]⟩ := by
    intro hsuf
    refine ⟨?_, ?_⟩
    · unfold classify
      rw [hno hsuf]
    · unfold admitDeleteTiKVPods
      rw [hno hsuf]
  have hfalse : (¬ ∃ head : String, err = head ++ tikvStoreNotFoundText id) →
      HasSuffix err (tikvStoreNotFoundText id) = false := by
    intro hnot
    cases hsuf : HasSuffix err (tikvStoreNotFoundText id) with
    | false => rfl
    | true => exact absurd ((HasSuffix_iff _ _).mp hsuf) hnot
  refine ⟨fun head hhead => h1 ((HasSuffix_iff _ _).mpr ⟨head, hhead⟩),
    fun hnot => h2 (hfalse hnot), ?_, ?_, fun head n => ⟨rfl, (HasSuffix_iff _ _).mpr ⟨head, rfl⟩⟩⟩
  · rw [← HasSuffix_iff]
    cases hsuf : HasSuffix err (tikvStoreNotFoundText id) with
    | true => simp [(h1 hsuf).1]
    | false => simp [(h2 hsuf).1]
  · intro r hr hallowed
    by_contra hnot
    rw [(h2 (hfalse hnot)).2] at hr
    simp only [Outcome.returned.injEq] at hr
    rw [← hr] at hallowed
    simp [ARFail] at hallowed

/-- Witness of C12: the store-id label `4`. A `GetStore` that fails with the
store-not-found message for the store 4 after the client's own words gives the
class NotFound and the answer of `admitDeleteUselessTiKVPod`, here Allow; one
that fails with "connection refused", or with the store-not-found message for
the store 5, fails the request with that error. -/
theorem getStore_error_is_not_found_or_failure_witness :
    (classify (Example.payloadOf "demo-tikv-1" Example.store4Label []
        (Example.pdClientOf (.ok Example.oneStore)
          (.error ("Error response 500 URL pd/api/v1/store/4,body response: " ++
            "\"invalid store ID 4, not found\"\n")) none)) = .ok .NotFound ∧
      admitDeleteTiKVPods Example.podControl (Example.helpers false 0)
        (Example.payloadOf "demo-tikv-1" Example.store4Label []
          (Example.pdClientOf (.ok Example.oneStore)
            (.error ("Error response 500 URL pd/api/v1/store/4,body response: " ++
              "\"invalid store ID 4, not found\"\n")) none)) =
        (admitDeleteUselessTiKVPod Example.podControl (Example.helpers false 0)
          (Example.payloadOf "demo-tikv-1" Example.store4Label []
            (Example.pdClientOf (.ok Example.oneStore)
              (.error ("Error response 500 URL pd/api/v1/store/4,body response: " ++
                "\"invalid store ID 4, not found\"\n")) none))).after
          [.getStores, .getStore (toUint64 4)]) ∧
    admitDeleteTiKVPods Example.podControl (Example.helpers false 0)
      (Example.payloadOf "demo-tikv-1" Example.store4Label []
        (Example.pdClientOf (.ok Example.oneStore)
          (.error ("Error response 500 URL pd/api/v1/store/4,body response: " ++
            "\"invalid store ID 4, not found\"\n")) none)) =
      ⟨.returned ARSuccess, [.getStores, .getStore 4]⟩ ∧
    admitDeleteTiKVPods Example.podControl (Example.helpers false 0)
      (Example.payloadOf "demo-tikv-1" Example.store4Label []
        (Example.pdClientOf (.ok Example.oneStore) (.error "connection refused") none)) =
      ⟨.returned (ARFail "connection refused"), [.getStores, .getStore 4]⟩ ∧
    admitDeleteTiKVPods Example.podControl (Example.helpers false 0)
      (Example.payloadOf "demo-tikv-1" Example.store4Label []
        (Example.pdClientOf (.ok Example.oneStore)
          (.error "\"invalid store ID 5, not found\"\n") none)) =
      ⟨.returned (ARFail "\"invalid store ID 5, not found\"\n"),
        [.getStores, .getStore 4]⟩ ∧
    tikvStoreNotFoundText 4 = "\"invalid store ID 4, not found\"\n" :=
  ⟨(getStore_error_is_not_found_or_failure Example.podControl (Example.helpers false 0)
      (Example.payloadOf "demo-tikv-1" Example.store4Label []
        (Example.pdClientOf (.ok Example.oneStore)
          (.error ("Error response 500 URL pd/api/v1/store/4,body response: " ++
            "\"invalid store ID 4, not found\"\n")) none))
      Example.oneStore "4" 4
      ("Error response 500 URL pd/api/v1/store/4,body response: " ++
        "\"invalid store ID 4, not found\"\n")
      rfl (by decide) (by decide) rfl).1
      "Error response 500 URL pd/api/v1/store/4,body response: " (by decide),
   by decide, by decide, by decide, by decide⟩

/-- C13: for every pod in the case Up, ordinal in range, upgrading, when the
check of the former pods reports a violation, `admitDeleteUpTiKVPod` fails the
request with the response that carries the violation's error, which differs
from the soft deny; the run stops at the check: it begins no leader eviction
and does not consult readiness. -/
theorem former_pod_violation_fails (pc : PodAdmissionControl) (h : Helpers)
    (payload : admitPayload) (ss : StoresInfo) (si : StoreInfo) (ms : MetaStore)
    (n o : Int) (err : Error)
    (hl : (lookupStore payload).result = .ok (ss, some si))
    (hs : si.Store = some ms) (hup : ms.StateName = TiKVStateUp)
    (hn : payload.ownerStatefulSet.Spec.Replicas = some n)
    (ho : GetOrdinalFromPodName payload.pod.Name = .ok o) (hlt : o < n)
    (hupg : h.IsStatefulSetUpgrading payload.ownerStatefulSet = true)
    (hchk : h.checkFormerTiKVPodStatus payload.tc o n ss = some err) :
    admitDeleteUpTiKVPod h payload si ss =
      ⟨.returned (ARFail err), [.checkFormerTiKVPodStatus o n]⟩ ∧
    ARFail err ≠ softDeny ∧
    admitDeleteTiKVPods pc h payload =
      ⟨.returned (ARFail err),
        (lookupStore payload).trace ++ [.checkFormerTiKVPodStatus o n]⟩ ∧
    ∀ e ∈ (admitDeleteTiKVPods pc h payload).trace,
      e.isBeginEvictLeader = false ∧ ∀ name, e ≠ .isTiKVReadyToUpgrade name := by
  have hfun : admitDeleteUpTiKVPod h payload si ss =
      ⟨.returned (ARFail err), [.checkFormerTiKVPodStatus o n]⟩ := by
    rw [up_in_range h payload si ss n o hn ho hlt, hupg, hchk]
    rfl
  obtain ⟨si2, ms2, h1, _, _, hd⟩ :=
    dispatch_up pc h payload ss (some si) (ofStore_up si ms hs hup)
  injection h1 with h1
  subst h1
  have heng : admitDeleteTiKVPods pc h payload =
      ⟨.returned (ARFail err),
        (lookupStore payload).trace ++ [.checkFormerTiKVPodStatus o n]⟩ := by
    rw [engine_of_lookup pc h payload ss (some si) hl, hd, hfun]
    rfl
  refine ⟨hfun, by simp [ARFail, softDeny], heng, fun e he => ?_⟩
  rw [heng] at he
  simp only [List.mem_append, List.mem_singleton] at he
  rcases he with he | he
  · rcases lookupStore_trace payload e he with h1 | ⟨id, h1⟩ <;> subst h1 <;>
      simp [PodEvent.isBeginEvictLeader]
  · subst he
    simp [PodEvent.isBeginEvictLeader]

/-- Witness of C13: the pod `demo-tikv-1` during an upgrade, the check of the
former pods reporting that a store is not up. -/
theorem former_pod_violation_fails_witness :
    admitDeleteTiKVPods Example.podControl (Example.helpersChecking (some "store 3 is not up"))
        (Example.payload "demo-tikv-1" Example.store4Label [] "Up" 3) =
      ⟨.returned (ARFail "store 3 is not up"),
        (lookupStore (Example.payload "demo-tikv-1" Example.store4Label [] "Up" 3)).trace ++
          [.checkFormerTiKVPodStatus 1 5]⟩ :=
  (former_pod_violation_fails Example.podControl
    (Example.helpersChecking (some "store 3 is not up"))
    (Example.payload "demo-tikv-1" Example.store4Label [] "Up" 3)
    { Count := 1, Stores := [Example.store4 "Up" 3] } (Example.store4 "Up" 3)
    { Id := 4, StateName := "Up" } 5 1 "store 3 is not up" (by decide) rfl rfl rfl
    (by decide) (by decide) rfl rfl).2.2.1

/-- C14: every failure of an upstream call made by the deletion engine
(`GetStores`, a `GetStore` error other than not-found, `GetPVC`, the
deferred-delete marking, `DeleteStore`, the beginning of a leader eviction)
is answered with `Allowed = false` and the underlying error as reason; the
failed call is the last event of the run and no call is made twice, so none is
retried; a run that allows holds no failed call. -/
theorem upstream_failure_fails_closed (pc : PodAdmissionControl) (h : Helpers)
    (payload : admitPayload) :
    (admitDeleteTiKVPods pc h payload).trace.Nodup ∧
    (∀ e ∈ (admitDeleteTiKVPods pc h payload).trace, ∀ err,
      failedCall pc h payload e = some err →
        (admitDeleteTiKVPods pc h payload).response =
          .returned { Allowed := false, Result := some err } ∧
        (admitDeleteTiKVPods pc h payload).trace.getLast? = some e) ∧
    (∀ r, (admitDeleteTiKVPods pc h payload).response = .returned r → r.Allowed = true →
      ∀ e ∈ (admitDeleteTiKVPods pc h payload).trace, failedCall pc h payload e = none) := by
  obtain ⟨hnd, hfail⟩ := engine_failsClosed pc h payload
  refine ⟨hnd, hfail, fun r hr ha e he => ?_⟩
  cases hf : failedCall pc h payload e with
  | none => rfl
  | some err =>
    have := (hfail e he err hf).1
    rw [hr] at this
    injection this with this
    subst this
    simp [ARFail] at ha

/-- Witness of C14: the placement service is unreachable when the stores are
listed. -/
theorem upstream_failure_fails_closed_witness :
    (admitDeleteTiKVPods Example.podControl (Example.helpers false 0)
      (Example.payloadOf "demo-tikv-1" [] []
        (Example.pdClientOf (.error "pd unreachable") (.ok none) none))).response =
      .returned { Allowed := false, Result := some "pd unreachable" } :=
  ((upstream_failure_fails_closed Example.podControl (Example.helpers false 0)
    (Example.payloadOf "demo-tikv-1" [] []
      (Example.pdClientOf (.error "pd unreachable") (.ok none) none))).2.1
    .getStores (by decide) "pd unreachable" (by decide)).1

/-- The helper `IsPodOrdinalNotExceedReplicas` on a pod whose ordinal does not
parse. -/
theorem isInOrdinal_of_bad_name (pod : Pod) (n : Int) (err : Error)
    (ho : GetOrdinalFromPodName pod.Name = .error err) :
    IsPodOrdinalNotExceedReplicas pod n = .error err := by
  unfold IsPodOrdinalNotExceedReplicas
  rw [ho]

/-- C15: for every pod whose name has no parseable ordinal suffix and whose
store classifies as Tombstone, Down, NotFound or Up, the engine fails the
request with the parse error; the run holds the reads of the lookup only, so no
mutating action is performed. -/
theorem unparseable_ordinal_fails (pc : PodAdmissionControl) (h : Helpers)
    (payload : admitPayload) (c : StoreClass) (n : Int) (err : Error)
    (hc : classify payload = .ok c)
    (hcl : c = .Tombstone ∨ c = .Down ∨ c = .NotFound ∨ c = .Up)
    (hn : payload.ownerStatefulSet.Spec.Replicas = some n)
    (ho : GetOrdinalFromPodName payload.pod.Name = .error err) :
    (admitDeleteTiKVPods pc h payload).response = .returned (ARFail err) ∧
    (admitDeleteTiKVPods pc h payload).trace = (lookupStore payload).trace ∧
    ∀ e ∈ (admitDeleteTiKVPods pc h payload).trace, e.mutates = false := by
  obtain ⟨ss, osi, hl, hco⟩ := classify_ok payload _ hc
  have huseless : admitDeleteUselessTiKVPod pc h payload = ⟨.returned (ARFail err), []⟩ := by
    unfold admitDeleteUselessTiKVPod
    simp only [hn, isInOrdinal_of_bad_name payload.pod n err ho]
  have hupf : ∀ si, admitDeleteUpTiKVPod h payload si ss = ⟨.returned (ARFail err), []⟩ := by
    intro si
    unfold admitDeleteUpTiKVPod
    simp only [hn, isInOrdinal_of_bad_name payload.pod n err ho]
  have hdisp : dispatchOnStore pc h payload ss osi = ⟨.returned (ARFail err), []⟩ := by
    rcases hcl with h1 | h1 | h1 | h1
    · rw [dispatch_useless pc h payload ss osi (Or.inl (hco.trans h1)), huseless]
    · rw [dispatch_useless pc h payload ss osi (Or.inr (Or.inl (hco.trans h1))), huseless]
    · rw [dispatch_useless pc h payload ss osi (Or.inr (Or.inr (hco.trans h1))), huseless]
    · obtain ⟨si, ms, _, _, _, hd⟩ := dispatch_up pc h payload ss osi (hco.trans h1)
      rw [hd, hupf si]
  have heng := engine_of_lookup pc h payload ss osi hl
  rw [hdisp] at heng
  rw [heng]
  refine ⟨rfl, by simp [PodResult.after], fun e he => ?_⟩
  simp only [PodResult.after, List.append_nil] at he
  rcases lookupStore_trace payload e he with h1 | ⟨id, h1⟩ <;> rw [h1] <;> rfl

/-- Witness of C15: the pod `demo-tikv`, whose name ends in no number, on a
store Up. -/
theorem unparseable_ordinal_fails_witness :
    (admitDeleteTiKVPods Example.podControl (Example.helpers false 0)
      (Example.payload "demo-tikv" Example.store4Label [] "Up" 3)).response =
      .returned (ARFail "strconv.ParseInt: parsing \"tikv\": invalid syntax") :=
  (unparseable_ordinal_fails Example.podControl (Example.helpers false 0)
    (Example.payload "demo-tikv" Example.store4Label [] "Up" 3) .Up 5
    "strconv.ParseInt: parsing \"tikv\": invalid syntax" (by decide)
    (Or.inr (Or.inr (Or.inr rfl))) rfl (by decide)).1

/-! ## The partition guard: resource check, own-role annotation, nil pointers -/

/-- C21 fails as stated. A request for the resource `statefulsets` of the
group `extensions`, where the group `apps` is expected, is not allowed: the
guard fails it, without any call. -/
theorem resource_mismatch_not_allowed :
    Example.foreignReview.Request.Resource.Group ≠ expectedGroup Example.guardEnv ∧
    (AdmitStatefulSets Example.guardEnv none Example.foreignReview).response =
      .returned (ARFail ("expect resource to be \x7bapps v1 statefulsets\x7d instead of " ++
        "\x7bextensions v1 statefulsets\x7d")) ∧
    (AdmitStatefulSets Example.guardEnv none Example.foreignReview).response ≠
      .returned ARSuccess ∧
    (AdmitStatefulSets Example.guardEnv none Example.foreignReview).trace = [] := by
  refine ⟨by decide, by decide, by decide, by decide⟩

/-- C21, amended: `AdmitStatefulSets` validates the request's resource before
acting. For every request whose resource group differs from the expected group
or whose resource is not `statefulsets`, the request is failed, with
`Allowed = false` and the message "expect resource to be ... instead of ...";
the client is not built, the object is not decoded and no cluster is fetched. -/
theorem resource_mismatch_fails (env : GuardEnv) (versionCli : Option Clientset)
    (ar : AdmissionReview)
    (hbad : ar.Request.Resource.Group ≠ expectedGroup env ∨
      ar.Request.Resource.Resource ≠ "statefulsets") :
    (AdmitStatefulSets env versionCli ar).response =
      .returned (ARFail ("expect resource to be " ++
        GroupVersionResource.format
          { Group := expectedGroup env, Version := ar.Request.Resource.Version,
            Resource := "statefulsets" } ++
        " instead of " ++ ar.Request.Resource.format)) ∧
    (AdmitStatefulSets env versionCli ar).response ≠ .returned ARSuccess ∧
    (AdmitStatefulSets env versionCli ar).trace = [] := by
  have hrun : AdmitStatefulSets env versionCli ar =
      ⟨.returned (ARFail ("expect resource to be " ++
        GroupVersionResource.format
          { Group := expectedGroup env, Version := ar.Request.Resource.Version,
            Resource := "statefulsets" } ++
        " instead of " ++ ar.Request.Resource.format)), versionCli, []⟩ := by
    unfold AdmitStatefulSets
    exact if_pos hbad
  rw [hrun]
  refine ⟨rfl, ?_, rfl⟩
  simp [ARFail, ARSuccess]

/-- Witness of amended C21: the request for the group `extensions`. -/
theorem resource_mismatch_fails_witness :
    (AdmitStatefulSets Example.guardEnv none Example.foreignReview).response ≠
      .returned ARSuccess ∧
    (AdmitStatefulSets Example.guardEnv none Example.foreignReview).trace = [] :=
  (resource_mismatch_fails Example.guardEnv none Example.foreignReview
    (Or.inl (by decide))).2

/-- The labels of a TiDB StatefulSet are not those of a TiKV StatefulSet. -/
theorem isTiKV_of_isTiDB (l : GoMap) (h : label.IsTiDB l = true) : label.IsTiKV l = false := by
  unfold label.IsTiDB at h
  unfold label.IsTiKV
  have h1 : l.get label.ComponentLabelKey = label.TiDBLabelVal := by simpa using h
  rw [h1]
  decide

/-- C22: the guard reads only the protection annotation of the StatefulSet's
own role. For a TiKV-labelled StatefulSet, two runs whose clusters agree on
every annotation but the TiDB partition annotation give the same response; for
a TiDB-labelled StatefulSet, two runs whose clusters agree on every annotation
but the TiKV partition annotation give the same response. -/
theorem guard_reads_own_role_only (env : GuardEnv) (ar : AdmissionReview)
    (cli1 cli2 : Clientset) (set : StatefulSet) (ru : RollingUpdateStatefulSetStrategy)
    (ref : OwnerReference) (tc1 tc2 : TidbCluster)
    (hgroup : ar.Request.Resource.Group = expectedGroup env)
    (hres : ar.Request.Resource.Resource = "statefulsets")
    (hdec : env.Decode ar.Request.OldObject = .ok set)
    (hru : set.Spec.UpdateStrategy.RollingUpdate = some ru)
    (href : GetControllerOf set.ObjectMeta = some ref)
    (hkind : ref.Kind = ControllerKind)
    (htc1 : cli1.GetTidbCluster ar.Request.Namespace ref.Name = .ok tc1)
    (htc2 : cli2.GetTidbCluster ar.Request.Namespace ref.Name = .ok tc2) :
    (label.IsTiKV set.ObjectMeta.Labels = true →
      (∀ k, k ≠ label.AnnTiDBPartition → tc1.Annotations.find k = tc2.Annotations.find k) →
      (AdmitStatefulSets env (some cli1) ar).response =
        (AdmitStatefulSets env (some cli2) ar).response) ∧
    (label.IsTiDB set.ObjectMeta.Labels = true →
      (∀ k, k ≠ label.AnnTiKVPartition → tc1.Annotations.find k = tc2.Annotations.find k) →
      (AdmitStatefulSets env (some cli1) ar).response =
        (AdmitStatefulSets env (some cli2) ar).response) := by
  constructor
  · intro hkv hagree
    have hstr : partitionStrOf set.ObjectMeta.Labels tc1 =
        partitionStrOf set.ObjectMeta.Labels tc2 := by
      unfold partitionStrOf GoMap.get
      have := hagree label.AnnTiKVPartition (by decide)
      unfold GoMap.find at this
      simp only [hkv, if_true, this]
    rw [guard_after_cluster env (some cli1) ar cli1 set ru ref tc1 hgroup hres rfl hdec hru
        (Or.inr hkv) href hkind htc1,
      guard_after_cluster env (some cli2) ar cli2 set ru ref tc2 hgroup hres rfl hdec hru
        (Or.inr hkv) href hkind htc2, hstr]
  · intro hdb hagree
    have hkv := isTiKV_of_isTiDB _ hdb
    have hstr : partitionStrOf set.ObjectMeta.Labels tc1 =
        partitionStrOf set.ObjectMeta.Labels tc2 := by
      unfold partitionStrOf GoMap.get
      have := hagree label.AnnTiDBPartition (by decide)
      unfold GoMap.find at this
      simp only [hkv, Bool.false_eq_true, if_false, this]
    rw [guard_after_cluster env (some cli1) ar cli1 set ru ref tc1 hgroup hres rfl hdec hru
        (Or.inl hdb) href hkind htc1,
      guard_after_cluster env (some cli2) ar cli2 set ru ref tc2 hgroup hres rfl hdec hru
        (Or.inl hdb) href hkind htc2, hstr]

/-- Witness of C22: a TiKV StatefulSet at partition 3 under TiKV protection 5;
the TiDB partition annotation is 1 in one run and 9 in the other. -/
theorem guard_reads_own_role_only_witness :
    (AdmitStatefulSets
      (Example.guardEnvOf Example.demoCluster (Example.tikvSet 3))
      (some (Example.clientOf (Example.clusterWith
        [("tidb.pingcap.com/tidb-partition", "1"), ("tidb.pingcap.com/tikv-partition", "5")])))
      Example.setReview).response =
    (AdmitStatefulSets
      (Example.guardEnvOf Example.demoCluster (Example.tikvSet 3))
      (some (Example.clientOf (Example.clusterWith
        [("tidb.pingcap.com/tidb-partition", "9"), ("tidb.pingcap.com/tikv-partition", "5")])))
      Example.setReview).response :=
  (guard_reads_own_role_only
    (Example.guardEnvOf Example.demoCluster (Example.tikvSet 3)) Example.setReview
    (Example.clientOf (Example.clusterWith
      [("tidb.pingcap.com/tidb-partition", "1"), ("tidb.pingcap.com/tikv-partition", "5")]))
    (Example.clientOf (Example.clusterWith
      [("tidb.pingcap.com/tidb-partition", "9"), ("tidb.pingcap.com/tikv-partition", "5")]))
    (Example.tikvSet 3) { Partition := some 3 } Example.demoOwner
    (Example.clusterWith
      [("tidb.pingcap.com/tidb-partition", "1"), ("tidb.pingcap.com/tikv-partition", "5")])
    (Example.clusterWith
      [("tidb.pingcap.com/tidb-partition", "9"), ("tidb.pingcap.com/tikv-partition", "5")])
    rfl rfl rfl rfl (by decide) rfl rfl rfl).1 (by decide)
    (fun k hk => by
      simp only [Example.clusterWith, GoMap.find, List.lookup]
      have : (k == "tidb.pingcap.com/tidb-partition") = false := by
        simpa [label.AnnTiDBPartition] using hk
      simp [this])

/-- C26, the code at the failing inputs. An old object that decodes and has no
rollingUpdate section makes `getStsAttributes` dereference a nil pointer, also
when its labels name neither role; an old object of a governed TiKV
StatefulSet whose rollingUpdate has no partition value makes line 125
dereference a nil pointer once the annotation `5` has parsed. No response is
produced. -/
theorem guard_panics_on_nil_pointers :
    getStsAttributes
      (Example.guardEnvOf Example.demoCluster (Example.setWith [] [] none))
      Example.setReview.Request.OldObject "v1" = .panicked ∧
    (AdmitStatefulSets
      (Example.guardEnvOf Example.demoCluster (Example.setWith [] [] none)) none
      Example.setReview).response = .panicked ∧
    (AdmitStatefulSets
      (Example.guardEnvOf Example.demoCluster
        (Example.setWith Example.tikvLabels [Example.demoOwner] none)) none
      Example.setReview).response = .panicked ∧
    (AdmitStatefulSets
      (Example.guardEnvOf Example.demoCluster
        (Example.setWith Example.tikvLabels [Example.demoOwner] (some { Partition := none })))
      none Example.setReview).response = .panicked := by
  refine ⟨by decide, by decide, by decide, by decide⟩

/-! ## The deletion decision engine: what a run may change -/

/-- The three ways of the dispatch: the useless branch, the soft deny of the
classes Offline and Unknown, the Up branch. -/
theorem dispatch_cases (pc : PodAdmissionControl) (h : Helpers) (payload : admitPayload)
    (ss : StoresInfo) (osi : Option StoreInfo) :
    ((StoreClass.ofStore osi = .Tombstone ∨ StoreClass.ofStore osi = .Down ∨
        StoreClass.ofStore osi = .NotFound) ∧
      dispatchOnStore pc h payload ss osi = admitDeleteUselessTiKVPod pc h payload) ∨
    ((StoreClass.ofStore osi = .Offline ∨ StoreClass.ofStore osi = .Unknown) ∧
      dispatchOnStore pc h payload ss osi = ⟨.returned softDeny, []⟩) ∨
    (StoreClass.ofStore osi = .Up ∧
      ∃ si, osi = some si ∧
        dispatchOnStore pc h payload ss osi = admitDeleteUpTiKVPod h payload si ss) := by
  cases hco : StoreClass.ofStore osi with
  | NotFound =>
    exact Or.inl ⟨Or.inr (Or.inr rfl), dispatch_useless pc h payload ss osi (Or.inr (Or.inr hco))⟩
  | Tombstone =>
    exact Or.inl ⟨Or.inl rfl, dispatch_useless pc h payload ss osi (Or.inl hco)⟩
  | Down =>
    exact Or.inl ⟨Or.inr (Or.inl rfl), dispatch_useless pc h payload ss osi (Or.inr (Or.inl hco))⟩
  | Offline =>
    exact Or.inr (Or.inl ⟨Or.inl rfl, dispatch_offline pc h payload ss osi hco⟩)
  | Unknown =>
    exact Or.inr (Or.inl ⟨Or.inr rfl, dispatch_unknown pc h payload ss osi hco⟩)
  | Up =>
    obtain ⟨si, ms, h1, _, _, hd⟩ := dispatch_up pc h payload ss osi hco
    exact Or.inr (Or.inr ⟨rfl, si, h1, hd⟩)

/-- A mutating event of `admitDeleteUselessTiKVPod` is the marking of the
claim of a pod out of range, and the response is decided by that marking. -/
theorem useless_mutation (pc : PodAdmissionControl) (h : Helpers) (payload : admitPayload)
    (e : PodEvent) (he : e ∈ (admitDeleteUselessTiKVPod pc h payload).trace)
    (hmut : e.mutates = true) :
    ∃ pvc, e = .addDeferDeletingToPVC pvc ∧
      (admitDeleteUselessTiKVPod pc h payload).response =
        .returned (match h.addDeferDeletingToPVC pvc payload.tc with
                   | some err => ARFail err
                   | none => ARSuccess) := by
  unfold admitDeleteUselessTiKVPod at he ⊢
  cases hn : payload.ownerStatefulSet.Spec.Replicas with
  | none => simp [hn] at he
  | some n =>
    cases hi : IsPodOrdinalNotExceedReplicas payload.pod n with
    | error err => simp [hn, hi] at he
    | ok inOrd =>
      cases ho : GetOrdinalFromPodName payload.pod.Name with
      | error err => simp [hn, hi, ho] at he
      | ok o =>
        simp only [hn, hi, ho] at he ⊢
        cases inOrd with
        | true => simp at he
        | false =>
          simp only [Bool.not_false, if_true] at he ⊢
          cases hg : pc.pvcControl.GetPVC
            (h.OrdinalPVCName TiKVMemberType payload.ownerStatefulSet.ObjectMeta.Name o)
            payload.pod.Namespace with
          | error err =>
            simp only [hg, List.mem_singleton] at he
            subst he
            simp [PodEvent.mutates] at hmut
          | ok pvc =>
            simp only [hg] at he ⊢
            cases ha : h.addDeferDeletingToPVC pvc payload.tc with
            | some err =>
              simp only [ha, List.mem_cons, List.mem_singleton, List.not_mem_nil,
                or_false] at he
              rcases he with he | he
              · subst he
                simp [PodEvent.mutates] at hmut
              · exact ⟨pvc, he, by simp [ha]⟩
            | none =>
              simp only [ha, List.mem_cons, List.mem_singleton, List.not_mem_nil,
                or_false] at he
              rcases he with he | he
              · subst he
                simp [PodEvent.mutates] at hmut
              · exact ⟨pvc, he, by simp [ha]⟩

/-- A mutating event of `admitDeleteUpTiKVPod` is the `DeleteStore` of a pod
out of range, or the beginning of the leader eviction of a pod in range,
during an upgrade, that carries no marker. -/
theorem up_mutation (h : Helpers) (payload : admitPayload) (si : StoreInfo)
    (ss : StoresInfo) (e : PodEvent)
    (he : e ∈ (admitDeleteUpTiKVPod h payload si ss).trace) (hmut : e.mutates = true) :
    ∃ n o, payload.ownerStatefulSet.Spec.Replicas = some n ∧
      GetOrdinalFromPodName payload.pod.Name = .ok o ∧
      ((¬ o < n ∧ ∃ id, e = .deleteStore id) ∨
        (o < n ∧ h.IsStatefulSetUpgrading payload.ownerStatefulSet = true ∧
          payload.pod.Annotations.find EvictLeaderBeginTime = none ∧
          ∃ id, e = .beginEvictLeader id payload.pod.Name)) := by
  cases hn : payload.ownerStatefulSet.Spec.Replicas with
  | none =>
    unfold admitDeleteUpTiKVPod at he
    simp [hn] at he
  | some n =>
    cases ho : GetOrdinalFromPodName payload.pod.Name with
    | error err =>
      unfold admitDeleteUpTiKVPod at he
      simp [hn, isInOrdinal_of_bad_name payload.pod n err ho] at he
    | ok o =>
      refine ⟨n, o, rfl, rfl, ?_⟩
      by_cases hlt : o < n
      · refine Or.inr ⟨hlt, ?_⟩
        rw [up_in_range h payload si ss n o hn ho hlt] at he
        cases hu : h.IsStatefulSetUpgrading payload.ownerStatefulSet with
        | false => simp [hu] at he
        | true =>
          refine ⟨rfl, ?_⟩
          simp only [hu, if_true] at he
          cases hck : h.checkFormerTiKVPodStatus payload.tc o n ss with
          | some err =>
            simp only [hck, List.mem_singleton] at he
            subst he
            simp [PodEvent.mutates] at hmut
          | none =>
            simp only [hck, PodResult.after, List.singleton_append, List.mem_cons] at he
            rcases he with he | he
            · subst he
              simp [PodEvent.mutates] at hmut
            · unfold admitDeleteUpTiKVPodDuringUpgrading at he
              cases hm : payload.pod.Annotations.find EvictLeaderBeginTime with
              | none =>
                refine ⟨rfl, ?_⟩
                simp only [hm] at he
                cases hs : si.Store with
                | none => simp [hs] at he
                | some ms =>
                  simp only [hs] at he
                  cases hb : h.beginEvictLeader ms.Id payload.pod <;>
                  · simp only [hb, List.mem_singleton] at he
                    exact ⟨ms.Id, he⟩
              | some b =>
                simp only [hm] at he
                cases hr : isTiKVReadyToUpgrade h payload.pod si <;>
                · simp [hr] at he
                  subst he
                  simp [PodEvent.mutates] at hmut
      · refine Or.inl ⟨hlt, ?_⟩
        cases hs : si.Store with
        | none =>
          unfold admitDeleteUpTiKVPod at he
          simp [hn, isInOrdinal_of_ordinal payload.pod n o ho, ho, hlt, hs] at he
        | some ms =>
          rw [up_out_of_range h payload si ms ss n o hs hn ho hlt] at he
          simp only [List.mem_singleton] at he
          exact ⟨ms.Id, he⟩

/-- A mutating event of a run of the engine belongs to the branch the store
found is dispatched to. -/
theorem engine_mutation (pc : PodAdmissionControl) (h : Helpers) (payload : admitPayload)
    (e : PodEvent) (he : e ∈ (admitDeleteTiKVPods pc h payload).trace)
    (hmut : e.mutates = true) :
    ∃ ss osi, (lookupStore payload).result = .ok (ss, osi) ∧
      e ∈ (dispatchOnStore pc h payload ss osi).trace ∧
      (admitDeleteTiKVPods pc h payload).response =
        (dispatchOnStore pc h payload ss osi).response := by
  have hread : e ∉ (lookupStore payload).trace := by
    intro hin
    rcases lookupStore_trace payload e hin with h1 | ⟨id, h1⟩ <;> subst h1 <;>
      simp [PodEvent.mutates] at hmut
  cases hl : (lookupStore payload).result with
  | error err =>
    unfold admitDeleteTiKVPods at he
    simp only [hl] at he
    exact absurd he hread
  | ok p =>
    obtain ⟨ss, osi⟩ := p
    rw [engine_of_lookup pc h payload ss osi hl] at he ⊢
    simp only [PodResult.after, List.mem_append] at he ⊢
    rcases he with he | he
    · exact absurd he hread
    · exact ⟨ss, osi, rfl, he, rfl⟩

/-- C24: for every pod that already carries the eviction-begin annotation,
`admitDeleteUpTiKVPodDuringUpgrading` only consults readiness: its run holds no
beginning of a leader eviction, which is the one call that sends the
leader-transfer command and writes the marker, and no other mutating event;
no run of the whole engine on such a pod begins a leader eviction, so a
repeated delete request leaves the marker as it is. -/
theorem marker_present_no_new_eviction (pc : PodAdmissionControl) (h : Helpers)
    (payload : admitPayload) (si : StoreInfo) (b : String)
    (hm : payload.pod.Annotations.find EvictLeaderBeginTime = some b) :
    admitDeleteUpTiKVPodDuringUpgrading h payload si =
      ⟨.returned (if isTiKVReadyToUpgrade h payload.pod si then ARSuccess else softDeny),
        [.isTiKVReadyToUpgrade payload.pod.Name]⟩ ∧
    (∀ e ∈ (admitDeleteUpTiKVPodDuringUpgrading h payload si).trace, e.mutates = false) ∧
    (∀ e ∈ (admitDeleteTiKVPods pc h payload).trace, e.isBeginEvictLeader = false) := by
  have hfun : admitDeleteUpTiKVPodDuringUpgrading h payload si =
      ⟨.returned (if isTiKVReadyToUpgrade h payload.pod si then ARSuccess else softDeny),
        [.isTiKVReadyToUpgrade payload.pod.Name]⟩ := by
    unfold admitDeleteUpTiKVPodDuringUpgrading
    simp only [hm]
    cases isTiKVReadyToUpgrade h payload.pod si <;> rfl
  refine ⟨hfun, fun e he => ?_, fun e he => ?_⟩
  · rw [hfun] at he
    simp only [List.mem_singleton] at he
    subst he
    rfl
  · cases hb : e.isBeginEvictLeader with
    | false => rfl
    | true =>
      exfalso
      have hmut : e.mutates = true := by
        cases e <;> simp [PodEvent.isBeginEvictLeader] at hb
        rfl
      obtain ⟨ss, osi, _, hin, _⟩ := engine_mutation pc h payload e he hmut
      rcases dispatch_cases pc h payload ss osi with ⟨_, hd⟩ | ⟨_, hd⟩ | ⟨_, si2, _, hd⟩
      · rw [hd] at hin
        obtain ⟨pvc, hev, _⟩ := useless_mutation pc h payload e hin hmut
        subst hev
        simp [PodEvent.isBeginEvictLeader] at hb
      · rw [hd] at hin
        simp at hin
      · rw [hd] at hin
        obtain ⟨n, o, _, _, hcase⟩ := up_mutation h payload si2 ss e hin hmut
        rcases hcase with ⟨_, id, hev⟩ | ⟨_, _, hnone, _⟩
        · subst hev
          simp [PodEvent.isBeginEvictLeader] at hb
        · rw [hm] at hnone
          cases hnone

/-- Witness of C24: the pod `demo-tikv-1` with its marker during an upgrade,
its store holding three leaders. -/
theorem marker_present_no_new_eviction_witness :
    admitDeleteTiKVPods Example.podControl (Example.helpers true 0)
      (Example.payload "demo-tikv-1" Example.store4Label Example.marker "Up" 3) =
      ⟨.returned softDeny,
        [.getStores, .getStore 4, .checkFormerTiKVPodStatus 1 5,
          .isTiKVReadyToUpgrade "demo-tikv-1"]⟩ ∧
    ∀ e ∈ (admitDeleteTiKVPods Example.podControl (Example.helpers true 0)
      (Example.payload "demo-tikv-1" Example.store4Label Example.marker "Up" 3)).trace,
      e.isBeginEvictLeader = false :=
  ⟨by decide,
   (marker_present_no_new_eviction Example.podControl (Example.helpers true 0)
    (Example.payload "demo-tikv-1" Example.store4Label Example.marker "Up" 3)
    (Example.store4 "Up" 3) "2020-01-01T00:00:00Z" (by decide)).2.2⟩

/-- C25: on the denial paths store Offline, unrecognised store state, and
eviction marker present but not ready, the response is the message-less deny
and no event of the run mutates: no `DeleteStore`, no beginning of a leader
eviction (leader-transfer command and marker write), no update of a volume
claim. A run answered with the message-less deny that holds a mutating event
is on a store Up, and the event is the `DeleteStore` of a pod out of range or
the beginning of the eviction of a pod in range, upgrading, without marker.
In every run, whatever the response, a `DeleteStore` occurs only for a store Up
and a pod out of range, a beginning of eviction only for a store Up and a pod
in range, upgrading, without marker, and the one other mutating event is the
marking of the volume claim for a store Tombstone, Down or not found, which
comes with a response `Allowed = false` only when the marking itself fails. -/
theorem denial_side_effects (pc : PodAdmissionControl) (h : Helpers)
    (payload : admitPayload) :
    (classify payload = .ok .Offline →
      (admitDeleteTiKVPods pc h payload).response = .returned softDeny ∧
      ∀ e ∈ (admitDeleteTiKVPods pc h payload).trace, e.mutates = false) ∧
    (classify payload = .ok .Unknown →
      (admitDeleteTiKVPods pc h payload).response = .returned softDeny ∧
      ∀ e ∈ (admitDeleteTiKVPods pc h payload).trace, e.mutates = false) ∧
    (∀ ss si ms n o b,
      (lookupStore payload).result = .ok (ss, some si) →
      si.Store = some ms → ms.StateName = TiKVStateUp →
      payload.ownerStatefulSet.Spec.Replicas = some n →
      GetOrdinalFromPodName payload.pod.Name = .ok o → o < n →
      h.IsStatefulSetUpgrading payload.ownerStatefulSet = true →
      h.checkFormerTiKVPodStatus payload.tc o n ss = none →
      payload.pod.Annotations.find EvictLeaderBeginTime = some b →
      isTiKVReadyToUpgrade h payload.pod si = false →
      (admitDeleteTiKVPods pc h payload).response = .returned softDeny ∧
      ∀ e ∈ (admitDeleteTiKVPods pc h payload).trace, e.mutates = false) ∧
    ((admitDeleteTiKVPods pc h payload).response = .returned softDeny →
      ∀ e ∈ (admitDeleteTiKVPods pc h payload).trace, e.mutates = true →
        classify payload = .ok .Up ∧
        ∃ n o, payload.ownerStatefulSet.Spec.Replicas = some n ∧
          GetOrdinalFromPodName payload.pod.Name = .ok o ∧
          ((¬ o < n ∧ ∃ id, e = .deleteStore id) ∨
            (o < n ∧ h.IsStatefulSetUpgrading payload.ownerStatefulSet = true ∧
              payload.pod.Annotations.find EvictLeaderBeginTime = none ∧
              ∃ id, e = .beginEvictLeader id payload.pod.Name))) ∧
    (∀ e ∈ (admitDeleteTiKVPods pc h payload).trace, e.mutates = true →
      (∃ pvc, e = .addDeferDeletingToPVC pvc ∧
        (classify payload = .ok .Tombstone ∨ classify payload = .ok .Down ∨
          classify payload = .ok .NotFound) ∧
        ((h.addDeferDeletingToPVC pvc payload.tc = none ∧
            (admitDeleteTiKVPods pc h payload).response = .returned ARSuccess) ∨
          ∃ err, h.addDeferDeletingToPVC pvc payload.tc = some err ∧
            (admitDeleteTiKVPods pc h payload).response = .returned (ARFail err))) ∨
      (classify payload = .ok .Up ∧
        ∃ n o, payload.ownerStatefulSet.Spec.Replicas = some n ∧
          GetOrdinalFromPodName payload.pod.Name = .ok o ∧
          ((¬ o < n ∧ ∃ id, e = .deleteStore id) ∨
            (o < n ∧ h.IsStatefulSetUpgrading payload.ownerStatefulSet = true ∧
              payload.pod.Annotations.find EvictLeaderBeginTime = none ∧
              ∃ id, e = .beginEvictLeader id payload.pod.Name)))) := by
  have hquiet : ∀ c, classify payload = .ok c → (c = .Offline ∨ c = .Unknown) →
      (admitDeleteTiKVPods pc h payload).response = .returned softDeny ∧
      ∀ e ∈ (admitDeleteTiKVPods pc h payload).trace, e.mutates = false := by
    intro c hc hcl
    obtain ⟨ss, osi, hl, hco⟩ := classify_ok payload _ hc
    have hd : dispatchOnStore pc h payload ss osi = ⟨.returned softDeny, []⟩ := by
      rcases hcl with h1 | h1
      · rw [dispatch_offline pc h payload ss osi (hco.trans h1)]
        rfl
      · exact dispatch_unknown pc h payload ss osi (hco.trans h1)
    rw [engine_of_lookup pc h payload ss osi hl, hd]
    refine ⟨rfl, fun e he => ?_⟩
    simp only [PodResult.after, List.append_nil] at he
    rcases lookupStore_trace payload e he with h1 | ⟨id, h1⟩ <;> rw [h1] <;> rfl
  refine ⟨fun hc => hquiet _ hc (Or.inl rfl), fun hc => hquiet _ hc (Or.inr rfl), ?_, ?_, ?_⟩
  · intro ss si ms n o b hl hs hup hn ho hlt hupg hchk hm hnr
    rw [engine_up_upgrading pc h payload ss si ms n o hl hs hup hn ho hlt hupg hchk,
      (marker_present_no_new_eviction pc h payload si b hm).1, hnr]
    refine ⟨rfl, fun e he => ?_⟩
    simp only [List.mem_append, List.mem_cons, List.mem_singleton, List.not_mem_nil,
      or_false] at he
    rcases he with he | he | he
    · rcases lookupStore_trace payload e he with h1 | ⟨id, h1⟩ <;> rw [h1] <;> rfl
    · rw [he]
      rfl
    · rw [he]
      rfl
  · intro hresp e he hmut
    obtain ⟨ss, osi, hl, hin, heq⟩ := engine_mutation pc h payload e he hmut
    rw [heq] at hresp
    rcases dispatch_cases pc h payload ss osi with ⟨_, hd⟩ | ⟨_, hd⟩ | ⟨hco, si, _, hd⟩
    · rw [hd] at hin hresp
      obtain ⟨pvc, _, hr⟩ := useless_mutation pc h payload e hin hmut
      rw [hr] at hresp
      cases ha : h.addDeferDeletingToPVC pvc payload.tc <;>
        simp [ha, ARFail, ARSuccess, softDeny] at hresp
    · rw [hd] at hin
      simp at hin
    · rw [hd] at hin
      refine ⟨?_, up_mutation h payload si ss e hin hmut⟩
      unfold classify
      rw [hl, ← hco]
  · intro e he hmut
    obtain ⟨ss, osi, hl, hin, heq⟩ := engine_mutation pc h payload e he hmut
    have hcl : classify payload = .ok (StoreClass.ofStore osi) := by
      unfold classify
      rw [hl]
    rcases dispatch_cases pc h payload ss osi with ⟨hco, hd⟩ | ⟨_, hd⟩ | ⟨hco, si, _, hd⟩
    · rw [hd] at hin heq
      obtain ⟨pvc, hev, hr⟩ := useless_mutation pc h payload e hin hmut
      refine Or.inl ⟨pvc, hev, ?_, ?_⟩
      · rw [hcl]
        rcases hco with h1 | h1 | h1 <;> rw [h1] <;> simp
      · rw [heq, hr]
        cases ha : h.addDeferDeletingToPVC pvc payload.tc with
        | none => exact Or.inl ⟨rfl, rfl⟩
        | some err => exact Or.inr ⟨err, rfl, rfl⟩
    · rw [hd] at hin
      simp at hin
    · rw [hd] at hin
      exact Or.inr ⟨by rw [hcl, hco], up_mutation h payload si ss e hin hmut⟩

/-- Witness of C25: the pod `demo-tikv-6` on a store Offline, and the same pod
on a store Up, out of range, whose denial comes with the `DeleteStore`. -/
theorem denial_side_effects_witness :
    ((admitDeleteTiKVPods Example.podControl (Example.helpers true 0)
        (Example.payload "demo-tikv-6" Example.store4Label [] "Offline" 3)).response =
        .returned softDeny ∧
      ∀ e ∈ (admitDeleteTiKVPods Example.podControl (Example.helpers true 0)
        (Example.payload "demo-tikv-6" Example.store4Label [] "Offline" 3)).trace,
        e.mutates = false) ∧
    admitDeleteTiKVPods Example.podControl (Example.helpers true 0)
        (Example.payload "demo-tikv-6" Example.store4Label [] "Up" 3) =
      ⟨.returned softDeny, [.getStores, .getStore 4, .deleteStore 4]⟩ :=
  ⟨(denial_side_effects Example.podControl (Example.helpers true 0)
      (Example.payload "demo-tikv-6" Example.store4Label [] "Offline" 3)).1 (by decide),
   by decide⟩

/-- C27: for every store found by id whose state name is none of Tombstone,
Offline, Down and Up, `admitDeleteTiKVPods` returns `Allowed = false`, the
message-less deny, after the lookup alone, whatever the pod's name, the
replica count and the upgrade status. -/
theorem unknown_state_is_denied (pc : PodAdmissionControl) (h : Helpers)
    (payload : admitPayload) (ss : StoresInfo) (si : StoreInfo) (ms : MetaStore)
    (hl : (lookupStore payload).result = .ok (ss, some si))
    (hs : si.Store = some ms)
    (h1 : ms.StateName ≠ TiKVStateTombstone) (h2 : ms.StateName ≠ TiKVStateOffline)
    (h3 : ms.StateName ≠ TiKVStateDown) (h4 : ms.StateName ≠ TiKVStateUp) :
    classify payload = .ok .Unknown ∧
    admitDeleteTiKVPods pc h payload = ⟨.returned softDeny, (lookupStore payload).trace⟩ ∧
    softDeny.Allowed = false := by
  have hco : StoreClass.ofStore (some si) = .Unknown := by
    unfold StoreClass.ofStore
    simp only [hs, h1, h2, h3, h4, if_false]
  refine ⟨?_, ?_, rfl⟩
  · unfold classify
    rw [hl]
    exact congrArg Except.ok hco
  · rw [engine_of_lookup pc h payload ss (some si) hl,
      dispatch_unknown pc h payload ss (some si) hco]
    simp [PodResult.after]

/-- Witness of C27: the pod `demo-tikv-6` during an upgrade, on a store whose
state name is `Serving`. -/
theorem unknown_state_is_denied_witness :
    admitDeleteTiKVPods Example.podControl (Example.helpers true 601)
        (Example.payload "demo-tikv-6" Example.store4Label Example.marker "Serving" 0) =
      ⟨.returned softDeny,
        (lookupStore
          (Example.payload "demo-tikv-6" Example.store4Label Example.marker "Serving" 0)).trace⟩ :=
  (unknown_state_is_denied Example.podControl (Example.helpers true 601)
    (Example.payload "demo-tikv-6" Example.store4Label Example.marker "Serving" 0)
    { Count := 1, Stores := [Example.store4 "Serving" 0] } (Example.store4 "Serving" 0)
    { Id := 4, StateName := "Serving" } (by decide) rfl (by decide) (by decide) (by decide)
    (by decide)).2.1

/-! ## The TiDB member manager -/

/-- The loop of `tidbStatefulSetIsUpgrading` returns, and returns true exactly
when the pods listed split into pods carrying the update revision, then a pod
carrying another revision. -/
theorem revisionLoop_some (st : StatefulSetStatus) (pods : List Pod) :
    ∃ b, revisionLoop (some st) pods = .returned b ∧
      (b = true ↔ ∃ pre pod post rev, pods = pre ++ pod :: post ∧
        (∀ p ∈ pre, p.Labels.find ControllerRevisionHashLabelKey = some st.UpdateRevision) ∧
        pod.Labels.find ControllerRevisionHashLabelKey = some rev ∧
        rev ≠ st.UpdateRevision) := by
  induction pods with
  | nil =>
    refine ⟨false, rfl, ?_⟩
    simp
  | cons pod rest ih =>
    obtain ⟨b, hb, hiff⟩ := ih
    cases hf : pod.Labels.find ControllerRevisionHashLabelKey with
    | none =>
      refine ⟨false, by simp only [revisionLoop, hf], ?_⟩
      simp only [Bool.false_eq_true, false_iff, not_exists, not_and]
      intro pre pod2 post rev hsplit hpre hrev
      cases pre with
      | nil =>
        simp only [List.nil_append, List.cons.injEq] at hsplit
        rw [← hsplit.1, hf] at hrev
        cases hrev
      | cons p pre2 =>
        simp only [List.cons_append, List.cons.injEq] at hsplit
        have := hpre p (List.mem_cons_self _ _)
        rw [← hsplit.1, hf] at this
        cases this
    | some revisionHash =>
      by_cases hne : revisionHash = st.UpdateRevision
      · refine ⟨b, by simp only [revisionLoop, hf, hne, ne_eq, not_true_eq_false, if_false, hb], ?_⟩
        rw [hiff]
        constructor
        · rintro ⟨pre, pod2, post, rev, hsplit, hpre, hrev, hdiff⟩
          refine ⟨pod :: pre, pod2, post, rev, by rw [hsplit]; rfl, ?_, hrev, hdiff⟩
          intro p hp
          rcases List.mem_cons.mp hp with h1 | h1
          · rw [h1, hf, hne]
          · exact hpre p h1
        · rintro ⟨pre, pod2, post, rev, hsplit, hpre, hrev, hdiff⟩
          cases pre with
          | nil =>
            simp only [List.nil_append, List.cons.injEq] at hsplit
            rw [← hsplit.1, hf] at hrev
            simp only [Option.some.injEq] at hrev
            exact absurd (hrev.symm.trans hne) hdiff
          | cons p pre2 =>
            simp only [List.cons_append, List.cons.injEq] at hsplit
            exact ⟨pre2, pod2, post, rev, hsplit.2,
              fun q hq => hpre q (List.mem_cons_of_mem _ hq), hrev, hdiff⟩
      · refine ⟨true, by simp only [revisionLoop, hf, ne_eq, hne, not_false_eq_true, if_true], ?_⟩
        simp only [true_iff]
        exact ⟨[], pod, rest, revisionHash, rfl, by simp, hf, hne⟩

/-- The loop of `tidbStatefulSetIsUpgrading` returns false when the first pod
that does not carry the update revision carries no revision label. -/
theorem revisionLoop_missing (st : StatefulSetStatus)
    (pre : List Pod) (pod : Pod) (post : List Pod)
    (hpre : ∀ p ∈ pre, p.Labels.find ControllerRevisionHashLabelKey = some st.UpdateRevision)
    (hpod : pod.Labels.find ControllerRevisionHashLabelKey = none) :
    revisionLoop (some st) (pre ++ pod :: post) = .returned false := by
  induction pre with
  | nil => simp only [List.nil_append, revisionLoop, hpod]
  | cons p pre2 ih =>
    have hp := hpre p (List.mem_cons_self _ _)
    simp only [List.cons_append, revisionLoop, hp, ne_eq, not_true_eq_false, if_false]
    exact ih (fun r hr => hpre r (List.mem_cons_of_mem _ hr))

/-- The text built by the loop of lines 503 to 505 is the text it starts from
followed by ` name=value` for each sysctl, in order. -/
theorem sysctlCommand_eq (sysctls : String) (list : List Sysctl) :
    sysctlCommand sysctls list = sysctls ++ sysctlText list := by
  induction list generalizing sysctls with
  | nil => simp [sysctlCommand, sysctlText]
  | cons sysctl rest ih =>
    have hstep : sysctlCommand sysctls (sysctl :: rest) =
        sysctlCommand (sysctls ++ (" " ++ sysctl.Name ++ "=" ++ sysctl.Value)) rest := rfl
    rw [hstep, ih, sysctlText, String.append_assoc]

/-- The init containers when the sysctl-init annotation is set to its enabling
value and the pod security context lists a sysctl. -/
theorem sysctlInit_some (AnnSysctlInit AnnSysctlInitVal : String) (tc : TidbCluster)
    (base : ComponentAccessor) (psc : PodSecurityContext)
    (hb : tc.BaseTiDBSpec = some base)
    (hann : base.Annotations.find AnnSysctlInit = some AnnSysctlInitVal)
    (hpsc : base.PodSecurityContext = some psc) (hs : psc.Sysctls ≠ []) :
    sysctlInitContainers AnnSysctlInit AnnSysctlInitVal tc =
      [{ Name := "init", Image := tc.HelperImage,
         Command := ["sh", "-c", "sysctl -w" ++ sysctlText psc.Sysctls],
         SecurityContext := some { Privileged := some true } }] := by
  have hl : psc.Sysctls.length > 0 := List.length_pos.mpr hs
  unfold sysctlInitContainers
  simp only [hb, hann, hpsc, hl, if_true, sysctlCommand_eq]

/-- No init container otherwise. -/
theorem sysctlInit_none (AnnSysctlInit AnnSysctlInitVal : String) (tc : TidbCluster)
    (base : ComponentAccessor) (hb : tc.BaseTiDBSpec = some base)
    (hno : ¬ (base.Annotations.find AnnSysctlInit = some AnnSysctlInitVal ∧
      ∃ psc, base.PodSecurityContext = some psc ∧ psc.Sysctls ≠ [])) :
    sysctlInitContainers AnnSysctlInit AnnSysctlInitVal tc = [] := by
  unfold sysctlInitContainers
  simp only [hb]
  cases hf : base.Annotations.find AnnSysctlInit with
  | none => rfl
  | some init =>
    by_cases hi : init = AnnSysctlInitVal
    · cases hp : base.PodSecurityContext with
      | none => simp only [hi, if_true]
      | some psc =>
        by_cases hl : psc.Sysctls.length > 0
        · exact absurd ⟨by rw [hf, hi], psc, hp, List.length_pos.mp hl⟩ hno
        · simp only [hi, if_true, hl, if_false]
    · simp only [hi, if_false]

/-- Counterexample to C23: of two TiDB pods the first carries no revision
label and the second the revision `rev1`, which differs from the update
revision `rev2`; `tidbStatefulSetIsUpgrading` returns false. -/
theorem missing_label_is_not_upgrading :
    tidbStatefulSetIsUpgrading
      (Example.memberEnv
        [Example.tidbPod "demo-tidb-0" [],
         Example.tidbPod "demo-tidb-1" [("controller-revision-hash", "rev1")]])
      (Example.tikvSet 0) Example.upgradedCluster = .returned (.ok false) := by
  decide

/-- C23, amended: when `statefulSetIsUpgrading(set)` holds the flag is true;
otherwise, the selector built and the pods listed, `tidbStatefulSetIsUpgrading`
returns, and it returns true exactly when the first pod that does not carry
the update revision carries another revision; when that pod carries no
revision label it returns false. -/
theorem upgrading_flag_first_deviation (env : MemberEnv) (set : StatefulSet)
    (tc : TidbCluster) (st : StatefulSetStatus) (selector : String) (pods : List Pod)
    (hsel : env.Selector (tc.Labels.get InstanceLabelKey) = .ok selector)
    (hlist : env.List tc.Namespace selector = .ok pods)
    (hst : tc.Status.TiDB.StatefulSet = some st) :
    (env.statefulSetIsUpgrading set = true →
      tidbStatefulSetIsUpgrading env set tc = .returned (.ok true)) ∧
    (env.statefulSetIsUpgrading set = false →
      (∃ b, tidbStatefulSetIsUpgrading env set tc = .returned (.ok b)) ∧
      (tidbStatefulSetIsUpgrading env set tc = .returned (.ok true) ↔
        ∃ pre pod post rev, pods = pre ++ pod :: post ∧
          (∀ p ∈ pre,
            p.Labels.find ControllerRevisionHashLabelKey = some st.UpdateRevision) ∧
          pod.Labels.find ControllerRevisionHashLabelKey = some rev ∧
          rev ≠ st.UpdateRevision) ∧
      (∀ pre pod post, pods = pre ++ pod :: post →
        (∀ p ∈ pre,
          p.Labels.find ControllerRevisionHashLabelKey = some st.UpdateRevision) →
        pod.Labels.find ControllerRevisionHashLabelKey = none →
        tidbStatefulSetIsUpgrading env set tc = .returned (.ok false))) := by
  refine ⟨fun hup => ?_, fun hup => ?_⟩
  · unfold tidbStatefulSetIsUpgrading
    simp only [hup, if_true]
  · have hrun : tidbStatefulSetIsUpgrading env set tc =
        match revisionLoop (some st) pods with
        | .panicked => .panicked
        | .returned b => .returned (.ok b) := by
      unfold tidbStatefulSetIsUpgrading
      simp only [hup, hsel, hlist, hst, Bool.false_eq_true, if_false]
    obtain ⟨b, hb, hiff⟩ := revisionLoop_some st pods
    refine ⟨⟨b, by rw [hrun, hb]⟩, ?_, ?_⟩
    · rw [hrun, hb, ← hiff]
      simp
    · intro pre pod post hsplit hpre hpod
      rw [hrun, hsplit, revisionLoop_missing st pre pod post hpre hpod]

/-- Witness of C23, amended: the pod `demo-tidb-0` carries the update revision,
`demo-tidb-1` no revision label, `demo-tidb-2` the revision `rev1`. -/
theorem upgrading_flag_first_deviation_witness :
    tidbStatefulSetIsUpgrading
      (Example.memberEnv
        [Example.tidbPod "demo-tidb-0" [("controller-revision-hash", "rev2")],
         Example.tidbPod "demo-tidb-1" [],
         Example.tidbPod "demo-tidb-2" [("controller-revision-hash", "rev1")]])
      (Example.tikvSet 0) Example.upgradedCluster = .returned (.ok false) :=
  ((upgrading_flag_first_deviation
    (Example.memberEnv
      [Example.tidbPod "demo-tidb-0" [("controller-revision-hash", "rev2")],
       Example.tidbPod "demo-tidb-1" [],
       Example.tidbPod "demo-tidb-2" [("controller-revision-hash", "rev1")]])
    (Example.tikvSet 0) Example.upgradedCluster
    { CurrentRevision := "rev1", UpdateRevision := "rev2" }
    "app.kubernetes.io/instance="
    [Example.tidbPod "demo-tidb-0" [("controller-revision-hash", "rev2")],
     Example.tidbPod "demo-tidb-1" [],
     Example.tidbPod "demo-tidb-2" [("controller-revision-hash", "rev1")]]
    (by decide) rfl rfl).2 rfl).2.2
    [Example.tidbPod "demo-tidb-0" [("controller-revision-hash", "rev2")]]
    (Example.tidbPod "demo-tidb-1" [])
    [Example.tidbPod "demo-tidb-2" [("controller-revision-hash", "rev1")]]
    rfl (by decide) (by decide)

/-- C28: with the accessor `tc.BaseTiDBSpec()` at hand,
`getNewTiDBSetForTidbCluster` returns a pod spec with an init container if and
only if the TiDB annotations set the sysctl-init key to its enabling value and
the pod security context lists at least one sysctl. Then there is one init
container, privileged, whose command is `sh -c` on the text `sysctl -w`
followed by ` name=value` for each sysctl in order, and the pod security
context has no sysctl and is otherwise the configured one. Otherwise the pod
security context is the configured one and there is no init container. -/
theorem sysctls_applied_in_one_place (AnnSysctlInit AnnSysctlInitVal : String)
    (tc : TidbCluster) (base : ComponentAccessor) (hb : tc.BaseTiDBSpec = some base) :
    ((∃ spec, getNewTiDBSetForTidbCluster AnnSysctlInit AnnSysctlInitVal tc = .returned spec ∧
        spec.InitContainers ≠ []) ↔
      (base.Annotations.find AnnSysctlInit = some AnnSysctlInitVal ∧
        ∃ psc, base.PodSecurityContext = some psc ∧ psc.Sysctls ≠ [])) ∧
    (∀ psc, base.Annotations.find AnnSysctlInit = some AnnSysctlInitVal →
      base.PodSecurityContext = some psc → psc.Sysctls ≠ [] →
      getNewTiDBSetForTidbCluster AnnSysctlInit AnnSysctlInitVal tc =
        .returned
          { SecurityContext := some { psc with Sysctls := [] },
            InitContainers :=
              [{ Name := "init", Image := tc.HelperImage,
                 Command := ["sh", "-c", "sysctl -w" ++ sysctlText psc.Sysctls],
                 SecurityContext := some { Privileged := some true } }] }) ∧
    (¬ (base.Annotations.find AnnSysctlInit = some AnnSysctlInitVal ∧
        ∃ psc, base.PodSecurityContext = some psc ∧ psc.Sysctls ≠ []) →
      getNewTiDBSetForTidbCluster AnnSysctlInit AnnSysctlInitVal tc =
        .returned { SecurityContext := base.PodSecurityContext, InitContainers := [] }) := by
  have hyes : ∀ psc, base.Annotations.find AnnSysctlInit = some AnnSysctlInitVal →
      base.PodSecurityContext = some psc → psc.Sysctls ≠ [] →
      getNewTiDBSetForTidbCluster AnnSysctlInit AnnSysctlInitVal tc =
        .returned
          { SecurityContext := some { psc with Sysctls := [] },
            InitContainers :=
              [{ Name := "init", Image := tc.HelperImage,
                 Command := ["sh", "-c", "sysctl -w" ++ sysctlText psc.Sysctls],
                 SecurityContext := some { Privileged := some true } }] } := by
    intro psc hann hpsc hs
    unfold getNewTiDBSetForTidbCluster
    simp [hb, hpsc, sysctlInit_some AnnSysctlInit AnnSysctlInitVal tc base psc hb hann hpsc hs]
  have hno : ¬ (base.Annotations.find AnnSysctlInit = some AnnSysctlInitVal ∧
        ∃ psc, base.PodSecurityContext = some psc ∧ psc.Sysctls ≠ []) →
      getNewTiDBSetForTidbCluster AnnSysctlInit AnnSysctlInitVal tc =
        .returned { SecurityContext := base.PodSecurityContext, InitContainers := [] } := by
    intro hcond
    unfold getNewTiDBSetForTidbCluster
    simp [hb, sysctlInit_none AnnSysctlInit AnnSysctlInitVal tc base hb hcond]
  refine ⟨⟨?_, ?_⟩, hyes, hno⟩
  · rintro ⟨spec, hspec, hne⟩
    by_contra hcond
    rw [hno hcond] at hspec
    simp only [Outcome.returned.injEq] at hspec
    rw [← hspec] at hne
    exact hne rfl
  · rintro ⟨hann, psc, hpsc, hs⟩
    exact ⟨_, hyes psc hann hpsc hs, by simp⟩

/-- Witness of C28: the annotation `tidb.pingcap.com/sysctl-init` set to `true`
and two sysctls. -/
theorem sysctls_applied_in_one_place_witness :
    getNewTiDBSetForTidbCluster "tidb.pingcap.com/sysctl-init" "true"
        (Example.sysctlCluster [("tidb.pingcap.com/sysctl-init", "true")]
          (some { RunAsUser := some 1000, Sysctls := Example.twoSysctls })) =
      .returned
        { SecurityContext := some { RunAsUser := some 1000, Sysctls := [] },
          InitContainers :=
            [{ Name := "init", Image := "busybox:1.26.2",
               Command := ["sh", "-c", "sysctl -w" ++ sysctlText Example.twoSysctls],
               SecurityContext := some { Privileged := some true } }] } ∧
    "sysctl -w" ++ sysctlText Example.twoSysctls =
      "sysctl -w net.core.somaxconn=32768 net.ipv4.tcp_syncookies=0" :=
  ⟨(sysctls_applied_in_one_place "tidb.pingcap.com/sysctl-init" "true"
      (Example.sysctlCluster [("tidb.pingcap.com/sysctl-init", "true")]
        (some { RunAsUser := some 1000, Sysctls := Example.twoSysctls }))
      { Annotations := [("tidb.pingcap.com/sysctl-init", "true")],
        PodSecurityContext := some { RunAsUser := some 1000, Sysctls := Example.twoSysctls } }
      rfl).2.1
      { RunAsUser := some 1000, Sysctls := Example.twoSysctls } (by decide) rfl (by decide),
   by decide⟩

end TidbOperator
